import Mathlib

/-!
vpgl_geo_camera: pixel / geographic / local coordinate conversions.

A shallow embedding of `core/vpgl/file_formats/vpgl_geo_camera.cxx`.

Conventions of the embedding.

* `double` values are elements of a linearly ordered field `K` (exact
  arithmetic); every definition is executable at `K = ℚ`.  Division by zero,
  which gives an infinity or a NaN on doubles, gives `0` in `K`; theorems that
  divide carry the hypothesis that the divisor is not zero.
* `float` values are elements of `K` too.  A sum or difference of two `float`
  variables is computed in single precision: it is the exact result rounded to
  `float` by `to_float`.  A `float` is a sign and a magnitude and the rounding
  is to nearest: `to_float` keeps `0` and the sign and rounds the magnitude by
  `round_float`, which is a parameter.  The negation of a `float` and its
  conversion to `double` are exact.
* Storage that the code allocates without assigning it (a matrix built by
  `vnl_matrix<double>(4, 4)` or `set_size(4, 4)`) has contents `uninit`, an
  explicit argument.
* C++ output parameters (`double & u`) become components of the returned value.
  Where a function can return without assigning an output parameter, the
  previous contents of the outputs are an explicit argument `out` and are
  returned unchanged on that path.
* `vpgl_utm` (the UTM converter) and `vpgl_lvcs` (the coordinate context) are
  collaborators whose code is outside this file: they are records of functions.
-/

set_option autoImplicit false
set_option linter.unusedSectionVars false

variable {K : Type} [LinearOrderedField K]

/-! ## vnl_matrix and vnl_vector -/

/-- Dynamically sized matrix `vnl_matrix<double>`: a row count, a column count
and the entries; `data r c` is meaningful for `r < rows` and `c < cols`. -/
structure vnl_matrix (K : Type) where
  rows : Nat
  cols : Nat
  data : Nat → Nat → K

namespace vnl_matrix

/-- Entry access `m[r][c]`. -/
def get (m : vnl_matrix K) (r c : Nat) : K := m.data r c

/-- Entry assignment `m[r][c] = v`. -/
def put (m : vnl_matrix K) (r c : Nat) (v : K) : vnl_matrix K :=
  ⟨m.rows, m.cols, fun r1 c1 => if r1 = r ∧ c1 = c then v else m.data r1 c1⟩

/-- Assignment `m.fill(v)`: every entry of the matrix becomes `v`. -/
def fill (m : vnl_matrix K) (v : K) : vnl_matrix K :=
  ⟨m.rows, m.cols, fun r c => if r < m.rows ∧ c < m.cols then v else m.data r c⟩

/-- Assignment `m.fill_diagonal(v)`: every diagonal entry becomes `v`. -/
def fill_diagonal (m : vnl_matrix K) (v : K) : vnl_matrix K :=
  ⟨m.rows, m.cols, fun r c => if r = c ∧ r < m.rows ∧ c < m.cols then v else m.data r c⟩

/-- Constructor `vnl_matrix<double>(r, c, v)`: an `r × c` matrix filled with `v`. -/
def filled (r c : Nat) (v : K) : vnl_matrix K := ⟨r, c, fun _ _ => v⟩

/-- Product `m * vec` of a matrix and a `vnl_vector<double>` (a vector is the
function giving its components). -/
def mulVec (m : vnl_matrix K) (vec : Nat → K) : Nat → K :=
  fun r => ∑ c in Finset.range m.cols, m.data r c * vec c

/-- The 4x4 block of a matrix as a Mathlib matrix. -/
def toMatrix4 (m : vnl_matrix K) : Matrix (Fin 4) (Fin 4) K :=
  fun i j => m.data i.val j.val

end vnl_matrix

/-- The four-component `vnl_vector<double>` with components `a b c d`. -/
def vec4 (a b c d : K) : Nat → K :=
  fun n => if n = 0 then a else if n = 1 then b else if n = 2 then c else if n = 3 then d else 0

/-- Modelled from the spec: `vnl_inverse` lives in `vnl/vnl_inverse.h`, which is
not part of the sources at hand; the spec says "invert the 4×4 matrix".  The
inverse of the 4x4 matrix is the adjugate (cofactor) matrix divided by the
determinant.  On a singular matrix the C++ result is unusable (NaN/Inf or an
unset matrix); here it is the zero matrix. -/
def vnl_inverse (m : vnl_matrix K) : vnl_matrix K :=
  ⟨4, 4, fun r c =>
    if h : r < 4 ∧ c < 4 then
      ((m.toMatrix4.det)⁻¹ • m.toMatrix4.adjugate) ⟨r, h.1⟩ ⟨c, h.2⟩
    else 0⟩

/-! ## Collaborators: vpgl_lvcs and vpgl_utm -/

/-- The enumeration `vpgl_lvcs::cs_names` of global coordinate systems.  The
camera code compares against `utm` and `wgs84` and has a fall-through for the
remaining names. -/
inductive cs_names where
  | wgs84
  | nad27n
  | wgs72
  | utm
  deriving DecidableEq, Repr

/-- The coordinate context `vpgl_lvcs`, as far as the camera uses it: the name
of its global coordinate system and its two conversions, each taking the frame
in which the global point is expressed.  `local_to_global lx ly lz frame` gives
`(gx, gy, gz)`; `global_to_local gx gy gz frame` gives `(lx, ly, lz)`. -/
structure vpgl_lvcs (K : Type) where
  cs_name : cs_names
  local_to_global : K → K → K → cs_names → K × K × K
  global_to_local : K → K → K → cs_names → K × K × K

/-- The UTM converter `vpgl_utm`, whose two `transform` overloads are
`to_latlon zone x y z south_flag = (lat, lon, elev)` and
`to_utm lat lon = (x, y, zone)`. -/
structure vpgl_utm (K : Type) where
  to_latlon : Int → K → K → K → Bool → K × K × K
  to_utm : K → K → K × K × Int

/-- Everything the camera code takes from outside: the UTM converter, the
square root, and the constructor
`vpgl_lvcs(lat, lon, elev, vpgl_lvcs::wgs84, vpgl_lvcs::DEG, vpgl_lvcs::METERS)`. -/
structure vpgl_externals (K : Type) where
  utm : vpgl_utm K
  sqrt : K → K
  lvcs_wgs84 : K → K → K → vpgl_lvcs K

/-! ## The camera -/

/-- The state of a `vpgl_geo_camera`. -/
structure vpgl_geo_camera (K : Type) where
  trans_matrix_ : vnl_matrix K
  lvcs_ : Option (vpgl_lvcs K)
  is_utm_ : Bool
  utm_zone_ : Int
  northing_ : Int
  scale_tag_ : Bool
  sx_ : K
  sy_ : K

namespace vpgl_geo_camera

/-- Default constructor `vpgl_geo_camera()`: the 4x4 identity matrix, no
context, not UTM, `scale_tag_ = false`, pixel spacing 0.  `set_size(4, 4)`
allocates the entries without assigning them: their contents are `uninit` until
`fill(0)` assigns them.  The constructor does not assign `utm_zone_` and
`northing_`; their contents are the last two arguments. -/
def default (uninit : Nat → Nat → K) (utm_zone northing : Int) : vpgl_geo_camera K :=
  { trans_matrix_ := (((⟨4, 4, uninit⟩ : vnl_matrix K).fill 0).fill_diagonal 1)
    lvcs_ := none
    is_utm_ := false
    utm_zone_ := utm_zone
    northing_ := northing
    scale_tag_ := false
    sx_ := 0
    sy_ := 0 }

/-- Modelled from the spec: `set_lvcs` is defined in `vpgl_geo_camera.h`, which
is not part of the sources at hand; the spec says the context is "optional,
exclusively owned by the camera state; deep-copied on copy".  The camera takes
a copy of the given context, or none. -/
def set_lvcs (cam : vpgl_geo_camera K) (lvcs : Option (vpgl_lvcs K)) : vpgl_geo_camera K :=
  { cam with lvcs_ := lvcs }

/-- Pixel to geographic coordinates, `img_to_global(i, j, lon, lat)`; the result
is `(lon, lat)`. -/
def img_to_global (utm : vpgl_utm K) (cam : vpgl_geo_camera K) (i j : K) : K × K :=
  let T := cam.trans_matrix_
  let v0 := if cam.scale_tag_ then T.get 0 3 + i * T.get 0 0 else T.get 0 3 + i
  let v1 := if cam.scale_tag_ then T.get 1 3 + j * T.get 1 1 else T.get 1 3 - j
  let v2 : K := 0
  if cam.is_utm_ then
    let south_flag : Bool := decide (cam.northing_ > 0)
    let r := utm.to_latlon cam.utm_zone_ v0 v1 v2 south_flag
    (r.2.1, r.1)
  else
    (v0, v1)

/-- Geographic coordinates to pixel, `global_to_img(lon, lat, gz, u, v)`; the
result is `(u, v)`. -/
def global_to_img (utm : vpgl_utm K) (cam : vpgl_geo_camera K) (lon lat gz : K) : K × K :=
  let T := cam.trans_matrix_
  let x1 := if cam.is_utm_ then (utm.to_utm lat lon).1 else lon
  let y1 := if cam.is_utm_ then (utm.to_utm lat lon).2.1 else lat
  let z1 := gz
  let vec := vec4 x1 y1 z1 1
  let tm := T.put 2 2 1
  if cam.scale_tag_ then
    ((vec 0 - T.get 0 3) / T.get 0 0, (vec 1 - T.get 1 3) / T.get 1 1)
  else
    let res := (vnl_inverse tm).mulVec vec
    (res 0, res 1)

/-- Pixel to UTM coordinates, `img_to_global_utm(i, j, x, y)`; the result is
`(x, y)`. -/
def img_to_global_utm (utm : vpgl_utm K) (cam : vpgl_geo_camera K) (i j : K) : K × K :=
  let T := cam.trans_matrix_
  let v0 := if cam.scale_tag_ then T.get 0 3 + i * T.get 0 0 else T.get 0 3 + i
  let v1 := if cam.scale_tag_ then T.get 1 3 + j * T.get 1 1 else T.get 1 3 - j
  if cam.is_utm_ then
    (v0, v1)
  else
    let r := utm.to_utm v0 v1
    (r.1, r.2.1)

/-- UTM coordinates to pixel, `global_utm_to_img(x, y, zone, elev, u, v)`; the
result is `(u, v)`. -/
def global_utm_to_img (utm : vpgl_utm K) (cam : vpgl_geo_camera K) (x y : K) (zone : Int)
    (elev : K) : K × K :=
  let T := cam.trans_matrix_
  let r := utm.to_latlon zone x y elev false
  let vec0 := if cam.is_utm_ then x else r.1
  let vec1 := if cam.is_utm_ then y else r.2.1
  let vec2 := if cam.is_utm_ then elev else r.2.2
  let vec := vec4 vec0 vec1 vec2 1
  let tm := T.put 2 2 1
  if cam.scale_tag_ then
    ((vec 0 - T.get 0 3) / T.get 0 0, (vec 1 - T.get 1 3) / T.get 1 1)
  else
    let res := (vnl_inverse tm).mulVec vec
    (res 0, res 1)

/-- Local to global coordinates, `local_to_global(lx, ly, lz, gx, gy, gz)`; the
result is `(gx, gy, gz)`. -/
def local_to_global (cam : vpgl_geo_camera K) (lx ly lz : K) : K × K × K :=
  match cam.lvcs_ with
  | some lvcs =>
    if lvcs.cs_name = cs_names.utm then
      if cam.is_utm_ then
        lvcs.local_to_global lx ly lz cs_names.utm
      else
        lvcs.local_to_global lx ly lz cs_names.wgs84
    else
      lvcs.local_to_global lx ly lz cs_names.wgs84
  | none => (lx, ly, lz)

/-- Global to local coordinates, `global_to_local(gx, gy, gz, lx, ly, lz)`.
The result is the returned flag and the contents of `(lx, ly, lz)` after the
call, `out` being their contents before it. -/
def global_to_local (cam : vpgl_geo_camera K) (gx gy gz : K) (out : K × K × K) :
    Bool × (K × K × K) :=
  match cam.lvcs_ with
  | none => (false, out)
  | some lvcs =>
    if lvcs.cs_name = cs_names.utm then
      (true, lvcs.global_to_local gx gy gz cs_names.utm)
    else if lvcs.cs_name = cs_names.wgs84 then
      (true, lvcs.global_to_local gx gy gz cs_names.wgs84)
    else
      (false, out)

/-- Projection of a local point to the image, `project(x, y, z, u, v)`; the
result is `(u, v)`. -/
def project (utm : vpgl_utm K) (cam : vpgl_geo_camera K) (x y z : K) : K × K :=
  match cam.lvcs_ with
  | some lvcs =>
    if lvcs.cs_name = cs_names.utm then
      if cam.is_utm_ then
        let g := cam.local_to_global x y z
        cam.global_utm_to_img utm g.1 g.2.1 cam.utm_zone_ g.2.2
      else
        let g := cam.local_to_global x y z
        cam.global_to_img utm g.1 g.2.1 g.2.2
    else
      let g := cam.local_to_global x y z
      cam.global_to_img utm g.1 g.2.1 g.2.2
  | none => cam.global_to_img utm x y z

/-- Backprojection of a pixel to local coordinates, `backproject(u, v, x, y, z)`.
The result is the contents of `(x, y, z)` after the call, `out` being their
contents before it. -/
def backproject (utm : vpgl_utm K) (cam : vpgl_geo_camera K) (u v : K) (out : K × K × K) :
    K × K × K :=
  let T := cam.trans_matrix_
  let vec0 := if cam.scale_tag_ then T.get 0 3 + T.get 0 0 * u else T.get 0 3 + u
  let vec1 := if cam.scale_tag_ then T.get 1 3 + T.get 1 1 * v else T.get 1 3 - v
  let vec2 : K := 0
  -- the last statement: `if (lvcs_) lvcs_->global_to_local(lon, lat, elev, wgs84, x, y, z);`
  let last (lon lat elev : K) : K × K × K :=
    match cam.lvcs_ with
    | some lvcs => lvcs.global_to_local lon lat elev cs_names.wgs84
    | none => out
  if cam.is_utm_ then
    let r := utm.to_latlon cam.utm_zone_ vec0 vec1 vec2 false
    match cam.lvcs_ with
    | some lvcs =>
      if lvcs.cs_name = cs_names.utm then
        lvcs.global_to_local vec0 vec1 vec2 cs_names.utm
      else
        last r.2.1 r.1 r.2.2
    | none => last r.2.1 r.1 r.2.2
  else
    last vec0 vec1 vec2

/-- Pixel spacing, `extract_pixel_size()`: sets `sx_` and `sy_`. -/
def extract_pixel_size (ext : vpgl_externals K) (cam : vpgl_geo_camera K) : vpgl_geo_camera K :=
  if cam.is_utm_ && cam.scale_tag_ then
    { cam with sx_ := cam.trans_matrix_.get 0 0, sy_ := |cam.trans_matrix_.get 1 1| }
  else
    let lvcs : vpgl_lvcs K :=
      match cam.lvcs_ with
      | some l => l
      | none =>
        let g := cam.img_to_global ext.utm 0 0
        ext.lvcs_wgs84 g.2 g.1 0
    let g0 := cam.img_to_global ext.utm 0 0
    let gx := cam.img_to_global ext.utm 100000 0
    let gy := cam.img_to_global ext.utm 0 100000
    let d0 := lvcs.global_to_local g0.1 g0.2 0 cs_names.wgs84
    let d1 := lvcs.global_to_local gx.1 gx.2 0 cs_names.wgs84
    let sx := ext.sqrt ((d1.1 - d0.1) * (d1.1 - d0.1) + (d1.2.1 - d0.2.1) * (d1.2.1 - d0.2.1))
      / 100000
    let d2 := lvcs.global_to_local gy.1 gy.2 0 cs_names.wgs84
    let sy := ext.sqrt ((d2.1 - d0.1) * (d2.1 - d0.1) + (d2.2.1 - d0.2.1) * (d2.2.1 - d0.2.1))
      / 100000
    { cam with sx_ := sx, sy_ := sy }

/-- Camera from a GDAL geotransform,
`load_from_geotransform(geotransform, utm_zone, northing, lvcs)`; the result is
the returned flag and the camera after the call.  The local
`vnl_matrix_fixed<double, 4, 4> trans_matrix` is declared without an
initialiser: its contents are `uninit` until `fill(0)` assigns them. -/
def load_from_geotransform (ext : vpgl_externals K) (cam : vpgl_geo_camera K)
    (geotransform : Fin 6 → K) (utm_zone northing : Int) (lvcs : Option (vpgl_lvcs K))
    (uninit : Nat → Nat → K) : Bool × vpgl_geo_camera K :=
  let m0 : vnl_matrix K := ((⟨4, 4, uninit⟩ : vnl_matrix K).fill 0).fill_diagonal 1
  let m1 := m0.put 0 3 (geotransform 0)
  let m2 := m1.put 0 0 (geotransform 1)
  let m3 := m2.put 0 1 (geotransform 2)
  let m4 := m3.put 1 3 (geotransform 3)
  let m5 := m4.put 1 0 (geotransform 4)
  let trans_matrix := m5.put 1 1 (geotransform 5)
  let cam1 : vpgl_geo_camera K :=
    { cam with
      trans_matrix_ := trans_matrix
      scale_tag_ := true
      is_utm_ := decide (utm_zone > 0)
      utm_zone_ := utm_zone
      northing_ := northing }
  let cam2 := cam1.set_lvcs lvcs
  (true, cam2.extract_pixel_size ext)

end vpgl_geo_camera

/-! ## The GeoTIFF header adapter -/

/-- Assignment `m.copy_in(p)`: the entries of the matrix are read row by row
from the array `p`. -/
def vnl_matrix.copy_in (m : vnl_matrix K) (p : Nat → K) : vnl_matrix K :=
  ⟨m.rows, m.cols, fun r c => if r < m.rows ∧ c < m.cols then p (r * m.cols + c) else m.data r c⟩

/-- The enumeration `vil_geotiff_header::GTIF_HEMISPH`, `NORTH = 0`, `SOUTH = 1`. -/
inductive GTIF_HEMISPH where
  | NORTH
  | SOUTH
  deriving DecidableEq, Repr

/-- The value of a `GTIF_HEMISPH` when it is passed as an `unsigned`. -/
def GTIF_HEMISPH.toNat : GTIF_HEMISPH → Nat
  | GTIF_HEMISPH.NORTH => 0
  | GTIF_HEMISPH.SOUTH => 1

/-- Modelled from the spec: `vil_geotiff_header` is declared in
`vil/file_formats/vil_geotiff_header.h`, which is not part of the sources at
hand.  The spec gives the header-metadata source as `has_explicit_transform()`,
`tie_points() → sequence of 6-tuples`, `pixel_scale() → (sx,sy,sz)` and the
model/unit predicates.  A query that returns `bool` and fills outputs in C++ is
an `Option` here: `none` for `false`. -/
structure vil_geotiff_header (K : Type) where
  gtif_tiepoints : List (Fin 6 → K)
  gtif_trans_matrix : Option (Nat → K)
  gtif_pixelscale : Option (K × K × K)
  GCS_WGS84_MET_DEG : Bool
  PCS_WGS84_UTM_zone : Option (Int × GTIF_HEMISPH)
  PCS_NAD83_UTM_zone : Option (Int × GTIF_HEMISPH)

/-- An image resource, as far as `load_from_resource` looks at it: whether the
cast to `vil_tiff_image` succeeds, whether `is_GEOTIFF()` holds, and the header
that `get_geotiff_header()` returns (`none` for a null pointer). -/
structure vil_image_resource (K : Type) where
  is_tiff : Bool
  is_GEOTIFF : Bool
  get_geotiff_header : Option (vil_geotiff_header K)

namespace vpgl_geo_camera

/-- Modelled from the spec: the constructor `vpgl_geo_camera(trans_matrix, lvcs)`
is defined in `vpgl_geo_camera.h`, which is not part of the sources at hand; the
spec names the "explicit (matrix, context) construction".  The camera holds the
matrix and a copy of the context and is neither UTM nor in scale format (the
adapters call `set_utm` and `set_scale_format` afterwards).  The members the
constructor does not assign are the remaining arguments. -/
def of_matrix (trans_matrix : vnl_matrix K) (lvcs : Option (vpgl_lvcs K))
    (utm_zone northing : Int) (sx sy : K) : vpgl_geo_camera K :=
  { trans_matrix_ := trans_matrix
    lvcs_ := lvcs
    is_utm_ := false
    utm_zone_ := utm_zone
    northing_ := northing
    scale_tag_ := false
    sx_ := sx
    sy_ := sy }

/-- Modelled from the spec: `set_utm(utm_zone, northing)` is defined in
`vpgl_geo_camera.h`, which is not part of the sources at hand; the spec lists
`set_utm()` among the mutations and the UTM metadata as `is_utm`, `utm_zone` and
the hemisphere flag.  The camera becomes UTM with the given zone and flag. -/
def set_utm (cam : vpgl_geo_camera K) (utm_zone : Int) (northing : Nat) : vpgl_geo_camera K :=
  { cam with is_utm_ := true, utm_zone_ := utm_zone, northing_ := (northing : Int) }

/-- Modelled from the spec: `set_scale_format(tag)` is defined in
`vpgl_geo_camera.h`, which is not part of the sources at hand; the spec calls
`scale_tag` the "flag selecting the diagonal fast-path formula".  The flag is
assigned. -/
def set_scale_format (cam : vpgl_geo_camera K) (scale_tag : Bool) : vpgl_geo_camera K :=
  { cam with scale_tag_ := scale_tag }

/-- Transformation matrix from pixel scale and tie points,
`comp_trans_matrix(sx1, sy1, sz1, tiepoints, trans_matrix, scale_tag)`.  The
result is `none` when an `assert` fails (with assertions compiled out the same
runs read `tiepoints[0]` out of range); otherwise it is the returned flag and
the contents of `trans_matrix` after the call.  The local
`vnl_matrix<double> m(4, 4)` is allocated without an initial value: its contents
are `uninit` until `m.fill(0.0)` assigns them. -/
def comp_trans_matrix (sx1 sy1 sz1 : K) (tiepoints : List (List K))
    (_trans_matrix : vnl_matrix K) (scale_tag : Bool) (uninit : Nat → Nat → K) :
    Option (Bool × vnl_matrix K) :=
  match tiepoints with
  | [] => none
  | t :: _ =>
    if t.length ≠ 6 then none
    else
      let I := t.getD 0 0
      let J := t.getD 1 0
      let K1 := t.getD 2 0
      let X := t.getD 3 0
      let Y := t.getD 4 0
      let Z := t.getD 5 0
      let sx := if scale_tag then sx1 else 1
      let sy := if scale_tag then sy1 else 1
      let sz := if scale_tag then sz1 else 1
      let Tx := X - I * sx
      let Ty := Y + J * sy
      let Tz := Z - K1 * sz
      let m0 : vnl_matrix K := (⟨4, 4, uninit⟩ : vnl_matrix K).fill 0
      let m1 := m0.put 0 0 sx
      let m2 := m1.put 1 1 (-1 * sy)
      let m3 := m2.put 2 2 sz
      let m4 := m3.put 3 3 1
      let m5 := m4.put 0 3 Tx
      let m6 := m5.put 1 3 Ty
      let m := m6.put 2 3 Tz
      some (true, m)

/-- Camera from a GeoTIFF resource, `load_from_resource(geotiff_img, lvcs)`.
The result is `none` when the run reaches a failed assertion of
`comp_trans_matrix`; otherwise it is the returned flag and the camera after the
call.  The contents of the matrix that `comp_trans_matrix` allocates are
`uninit`. -/
def load_from_resource (ext : vpgl_externals K) (cam : vpgl_geo_camera K)
    (geotiff_img : vil_image_resource K) (lvcs : Option (vpgl_lvcs K))
    (uninit : Nat → Nat → K) : Option (Bool × vpgl_geo_camera K) :=
  if !geotiff_img.is_tiff then some (false, cam)
  else if !geotiff_img.is_GEOTIFF then some (false, cam)
  else
    match geotiff_img.get_geotiff_header with
    | none => some (false, cam)
    | some gtif =>
      let tiepoints : List (List K) := gtif.gtif_tiepoints.map List.ofFn
      let trans_matrix0 : vnl_matrix K := vnl_matrix.filled 4 4 0
      -- the statements from "validate trans_matrix" to the end of the function
      let rest (trans_matrix : vnl_matrix K) (scale_tag : Bool) :
          Option (Bool × vpgl_geo_camera K) :=
        if trans_matrix.rows ≠ 4 ∨ trans_matrix.cols ≠ 4 then some (false, cam)
        else
          let cam1 : vpgl_geo_camera K :=
            { cam with trans_matrix_ := trans_matrix, scale_tag_ := scale_tag, is_utm_ := false }
          let cam2 := cam1.set_lvcs lvcs
          if gtif.GCS_WGS84_MET_DEG then some (true, cam2.extract_pixel_size ext)
          else
            match gtif.PCS_WGS84_UTM_zone.orElse (fun _ => gtif.PCS_NAD83_UTM_zone) with
            | some zh => some (true, (cam2.set_utm zh.1 zh.2.toNat).extract_pixel_size ext)
            | none => some (false, cam2)
      match gtif.gtif_trans_matrix with
      | some trans_matrix_values => rest (trans_matrix0.copy_in trans_matrix_values) false
      | none =>
        match gtif.gtif_pixelscale with
        | some s =>
          match comp_trans_matrix s.1 s.2.1 s.2.2 tiepoints trans_matrix0 true uninit with
          | none => none
          | some r => rest r.2 true
        | none => some (false, cam)

end vpgl_geo_camera

/-! ## std::string and size_t -/

/-- The value of `std::string::npos`, the largest `std::size_t` (64 bits). -/
def npos : Nat := 2 ^ 64 - 1

/-- Addition of two `std::size_t` values: it wraps around at `2 ^ 64`. -/
def size_add (a b : Nat) : Nat := (a + b) % 2 ^ 64

/-- Subtraction of two `std::size_t` values: it wraps around at `2 ^ 64`. -/
def size_sub (a b : Nat) : Nat := (a + 2 ^ 64 - b % 2 ^ 64) % 2 ^ 64

namespace std_string

/-- The call `s.find_first_of(c)` on a `std::string` (a list of characters): the
index of the first `c`, or `npos`. -/
def find_first_of (s : List Char) (c : Char) : Nat :=
  if c ∈ s then s.indexOf c else npos

/-- The call `s.find(c)`: the index of the first `c`, or `npos`. -/
def find (s : List Char) (c : Char) : Nat :=
  if c ∈ s then s.indexOf c else npos

/-- The call `s.find_last_of(c)`: the index of the last `c`, or `npos`. -/
def find_last_of (s : List Char) (c : Char) : Nat :=
  if c ∈ s then s.length - 1 - s.reverse.indexOf c else npos

/-- The call `s.substr(pos, len)`: the characters from `pos` on, at most `len` of
them; `none` when `pos > s.size()`, where the call throws `std::out_of_range`. -/
def substr (s : List Char) (pos len : Nat) : Option (List Char) :=
  if pos > s.length then none else some ((s.drop pos).take len)

end std_string

/-- What the filename adapters take from outside: `vul_file::strip_directory`,
the `float` that `std::stringstream str(s); str >> x;` stores in `x`, and the
rounding `round_float` of a positive number to the nearest `float`. -/
structure text_externals (K : Type) where
  strip_directory : List Char → List Char
  read_float : List Char → K
  round_float : K → K

/-- The rounding of a number to `float`, which the single-precision operations
`lat + scale` and `lat - scale` apply to their exact result: `0` is a `float`,
and the rounding of a negative number is the negated rounding of its
magnitude. -/
def text_externals.to_float (txt : text_externals K) (x : K) : K :=
  if x = 0 then 0 else if x < 0 then -txt.round_float (-x) else txt.round_float x

/-! ## The filename adapters -/

namespace vpgl_geo_camera

/-- Camera from an image file name of the form `xxx_N35W73_S0.6x0.6_xxx.tif`,
keeping hemisphere-relative coordinates:
`init_geo_camera(img_name, ni, nj, lvcs, camera)`.  The result is `none` when a
`substr` call throws; otherwise it is the returned flag and the camera that
`camera` points to after the call.  `vnl_matrix<double>(4, 4, 0, nullptr)`
copies no value into the matrix: its contents are `uninit`.  The variables
`lat`, `lon`, `scale_lat`, `scale_lon` are `float`: `lat + scale_lat` and
`lat - scale_lat` are rounded by `to_float` before the `double` term is added.
The members that the constructor of the camera does not assign are the last
four arguments. -/
def init_geo_camera (ext : vpgl_externals K) (txt : text_externals K) (img_name : List Char)
    (ni nj : Nat) (lvcs : Option (vpgl_lvcs K)) (uninit : Nat → Nat → K)
    (utm_zone northing : Int) (sx sy : K) : Option (Bool × vpgl_geo_camera K) := do
  let name0 := txt.strip_directory img_name
  let name ← std_string.substr name0 (size_add (std_string.find_first_of name0 '_') 1)
    name0.length
  let n_coords ← std_string.substr name 0 (std_string.find_first_of name '_')
  let n_scale ← std_string.substr name (size_add (std_string.find_first_of name '_') 1)
    (size_sub (size_sub (std_string.find_last_of name '_') (std_string.find_first_of name '_')) 1)
  let hemisphere : Char := if std_string.find n_coords 'N' < n_coords.length then 'N' else 'S'
  let direction : Char := if std_string.find n_coords 'E' < n_coords.length then 'E' else 'W'
  let n_str1 ← std_string.substr n_coords
    (size_add (std_string.find_first_of n_coords hemisphere) 1)
    (size_sub (size_sub (std_string.find_first_of n_coords direction)
      (std_string.find_first_of n_coords hemisphere)) 1)
  let lat := txt.read_float n_str1
  let n_str2 ← std_string.substr n_coords
    (size_add (std_string.find_first_of n_coords direction) 1) n_coords.length
  let lon := txt.read_float n_str2
  let n_str3 ← std_string.substr n_scale (size_add (std_string.find_first_of n_scale 'S') 1)
    (size_sub (size_sub (std_string.find_first_of n_scale 'x')
      (std_string.find_first_of n_scale 'S')) 1)
  let scale_lat := txt.read_float n_str3
  let n_str4 ← std_string.substr n_scale (size_add (std_string.find_first_of n_scale 'x') 1)
    n_scale.length
  let scale_lon := txt.read_float n_str4
  let m0 : vnl_matrix K := ⟨4, 4, uninit⟩
  let m1 :=
    if direction = 'E' then
      (m0.put 0 3 (lon - 1 / 2 / ((ni : K) - 1))).put 0 0 (scale_lon / ((ni : K) - 1))
    else
      (m0.put 0 3 (lon + 1 / 2 / ((ni : K) - 1))).put 0 0 (-scale_lon / ((ni : K) - 1))
  let trans_matrix :=
    if hemisphere = 'N' then
      (m1.put 1 1 (-scale_lat / ((nj : K) - 1))).put 1 3
        (txt.to_float (lat + scale_lat) + 1 / 2 / ((nj : K) - 1))
    else
      (m1.put 1 1 (scale_lat / ((nj : K) - 1))).put 1 3
        (txt.to_float (lat - scale_lat) - 1 / 2 / ((nj : K) - 1))
  let camera := of_matrix trans_matrix lvcs utm_zone northing sx sy
  let camera := camera.set_scale_format true
  let camera := camera.extract_pixel_size ext
  pure (true, camera)

/-- Camera from an image file name, in global WGS84 coordinates (south and west
negative): `init_geo_camera_from_filename(img_name, ni, nj, lvcs, camera)`.  The
result and the last five arguments are as for `init_geo_camera`.  The variables
`lat`, `lon`, `scale` are `float`: `lat + scale` is rounded by `to_float` before
the `double` term is added. -/
def init_geo_camera_from_filename (ext : vpgl_externals K) (txt : text_externals K)
    (img_name : List Char) (ni nj : Nat) (lvcs : Option (vpgl_lvcs K)) (uninit : Nat → Nat → K)
    (utm_zone northing : Int) (sx sy : K) : Option (Bool × vpgl_geo_camera K) := do
  let name0 := txt.strip_directory img_name
  let name ← std_string.substr name0 (size_add (std_string.find_first_of name0 '_') 1)
    name0.length
  let n_coords ← std_string.substr name 0 (std_string.find_first_of name '_')
  let n_scale ← std_string.substr name (size_add (std_string.find_first_of name '_') 1)
    (size_sub (size_sub (std_string.find_last_of name '_') (std_string.find_first_of name '_')) 1)
  let hemisphere : Char := if std_string.find n_coords 'N' < n_coords.length then 'N' else 'S'
  let direction : Char := if std_string.find n_coords 'E' < n_coords.length then 'E' else 'W'
  let n_str1 ← std_string.substr n_coords
    (size_add (std_string.find_first_of n_coords hemisphere) 1)
    (size_sub (size_sub (std_string.find_first_of n_coords direction)
      (std_string.find_first_of n_coords hemisphere)) 1)
  let lat0 := txt.read_float n_str1
  let n_str2 ← std_string.substr n_coords
    (size_add (std_string.find_first_of n_coords direction) 1) n_coords.length
  let lon0 := txt.read_float n_str2
  let n_str3 ← std_string.substr n_scale (size_add (std_string.find_first_of n_scale 'S') 1)
    (size_sub (size_sub (std_string.find_first_of n_scale 'x')
      (std_string.find_first_of n_scale 'S')) 1)
  let scale := txt.read_float n_str3
  let lat := if hemisphere = 'S' then -lat0 else lat0
  let lon := if direction = 'W' then -lon0 else lon0
  let m0 : vnl_matrix K := ⟨4, 4, uninit⟩
  let m1 := m0.put 0 3 (lon - 1 / 2 / ((ni : K) - 1))
  let m2 := m1.put 0 0 (scale / ((ni : K) - 1))
  let m3 := m2.put 1 1 (-scale / ((nj : K) - 1))
  let trans_matrix := m3.put 1 3 (txt.to_float (lat + scale) + 1 / 2 / ((nj : K) - 1))
  let camera := of_matrix trans_matrix lvcs utm_zone northing sx sy
  let camera := camera.set_scale_format true
  let camera := camera.extract_pixel_size ext
  pure (true, camera)

end vpgl_geo_camera

/-! ## The world-file adapter -/

/-- An input stream `std::ifstream` that has been opened, as far as the
extraction of numbers goes: the outcomes of the extractions still to come (the
number read, or `none` where the text is not a number) and the fail state. -/
structure ifstream (K : Type) where
  pending : List (Option K)
  fail : Bool

/-- The extraction `ifs >> x`: the stream after it and the contents of `x` after
it.  A stream in the fail state extracts nothing and leaves `x` as it is; an
extraction that finds no number stores `0` and sets the fail state. -/
def ifstream.extract (ifs : ifstream K) (x : K) : ifstream K × K :=
  if ifs.fail then (ifs, x)
  else
    match ifs.pending with
    | some v :: more => (⟨more, false⟩, v)
    | none :: more => (⟨none :: more, true⟩, 0)
    | [] => (⟨[], true⟩, 0)

namespace vpgl_geo_camera

/-- Camera from a world file, `init_geo_camera(tfw_name, lvcs, utm_zone,
northing, camera)`.  `tfw` is what opening `tfw_name` gives: `none` when the
file cannot be opened, otherwise the outcomes of the extractions from it.  The
result is the returned flag and what `camera` points to after the call,
`camera` being what it pointed to before.  The members that the constructor of
the camera does not assign are the last four arguments. -/
def init_geo_camera_tfw (ext : vpgl_externals K) (tfw : Option (List (Option K)))
    (lvcs : Option (vpgl_lvcs K)) (utm_zone : Int) (northing : Nat)
    (camera : Option (vpgl_geo_camera K)) (utm_zone0 northing0 : Int) (sx sy : K) :
    Bool × Option (vpgl_geo_camera K) :=
  match tfw with
  | none => (false, camera)
  | some content =>
    let ifs0 : ifstream K := ⟨content, false⟩
    let m0 : vnl_matrix K := vnl_matrix.filled 4 4 0
    let r1 := ifs0.extract (m0.get 0 0)
    let m1 := m0.put 0 0 r1.2
    let r2 := r1.1.extract (m1.get 0 1)
    let m2 := m1.put 0 1 r2.2
    let r3 := r2.1.extract (m2.get 1 0)
    let m3 := m2.put 1 0 r3.2
    let r4 := r3.1.extract (m3.get 1 1)
    let m4 := m3.put 1 1 r4.2
    let r5 := r4.1.extract (m4.get 0 3)
    let m5 := m4.put 0 3 r5.2
    let r6 := r5.1.extract (m5.get 1 3)
    let m6 := m5.put 1 3 r6.2
    let trans_matrix := m6.put 3 3 1
    let cam0 := of_matrix trans_matrix lvcs utm_zone0 northing0 sx sy
    let cam1 := if utm_zone ≠ 0 then cam0.set_utm utm_zone northing else cam0
    let cam2 := cam1.set_scale_format true
    (true, some (cam2.extract_pixel_size ext))

/-- World-file export, `save_as_tfw(tfw_filename)`: the six numbers written, in
the order of the lines.  The numbers are taken as written exactly (the code
prints them with 12 significant digits). -/
def save_as_tfw (cam : vpgl_geo_camera K) : List K :=
  [cam.trans_matrix_.get 0 0, cam.trans_matrix_.get 0 1, cam.trans_matrix_.get 1 0,
    cam.trans_matrix_.get 1 1, cam.trans_matrix_.get 0 3, cam.trans_matrix_.get 1 3]

end vpgl_geo_camera

/-! ## translate, equality and binary I/O -/

/-- Modelled from the spec: `vnl_matrix<double>::set_size(r, c)` is declared in
`vnl/vnl_matrix.h`, which is not part of the sources at hand; the spec's binary
record gives the "matrix row/col counts" before the entries.  A matrix that
already has the size is left as it is; otherwise it gets the new size and its
contents `uninit` are not assigned. -/
def vnl_matrix.set_size (m : vnl_matrix K) (r c : Nat) (uninit : Nat → Nat → K) : vnl_matrix K :=
  if m.rows = r ∧ m.cols = c then m else ⟨r, c, uninit⟩

/-- Modelled from the spec: `vnl_matrix<double>::operator==` is declared in
`vnl/vnl_matrix.h`, which is not part of the sources at hand; the spec speaks of
"identical matrices".  Two matrices are equal when they have the same size and
equal entries. -/
def vnl_matrix.operator_eq (a b : vnl_matrix K) : Bool :=
  decide (a.rows = b.rows ∧ a.cols = b.cols ∧
    ∀ r, r < a.rows → ∀ c, c < a.cols → a.data r c = b.data r c)

/-- One value of a binary stream of the `vsl` library, with the C++ type it was
written as. -/
inductive vsl_token (K : Type) where
  | short (v : Int)
  | unsigned (v : Nat)
  | int (v : Int)
  | double (v : K)
  | bool (v : Bool)

/-- A binary input stream `vsl_b_istream`: the values still to be read, and
whether the stream is good (`!is` is `!good`). -/
structure vsl_b_istream (K : Type) where
  data : List (vsl_token K)
  good : Bool

/-- Modelled from the spec: the `vsl_b_read` overloads are defined in the `vsl`
library, which is not part of the sources at hand; the spec gives the record as
a sequence of typed values.  A read on a good stream whose next value has the
type asked for returns it and advances; any other read leaves the variable as
it was and the stream not good. -/
def vsl_b_read_short (s : vsl_b_istream K) (v : Int) : vsl_b_istream K × Int :=
  if s.good then
    match s.data with
    | vsl_token.short x :: more => (⟨more, true⟩, x)
    | _ => (⟨s.data, false⟩, v)
  else (s, v)

/-- Modelled from the spec: `vsl_b_read(is, unsigned &)`, see `vsl_b_read_short`. -/
def vsl_b_read_unsigned (s : vsl_b_istream K) (v : Nat) : vsl_b_istream K × Nat :=
  if s.good then
    match s.data with
    | vsl_token.unsigned x :: more => (⟨more, true⟩, x)
    | _ => (⟨s.data, false⟩, v)
  else (s, v)

/-- Modelled from the spec: `vsl_b_read(is, int &)`, see `vsl_b_read_short`. -/
def vsl_b_read_int (s : vsl_b_istream K) (v : Int) : vsl_b_istream K × Int :=
  if s.good then
    match s.data with
    | vsl_token.int x :: more => (⟨more, true⟩, x)
    | _ => (⟨s.data, false⟩, v)
  else (s, v)

/-- Modelled from the spec: `vsl_b_read(is, double &)`, see `vsl_b_read_short`. -/
def vsl_b_read_double (s : vsl_b_istream K) (v : K) : vsl_b_istream K × K :=
  if s.good then
    match s.data with
    | vsl_token.double x :: more => (⟨more, true⟩, x)
    | _ => (⟨s.data, false⟩, v)
  else (s, v)

/-- Modelled from the spec: `vsl_b_read(is, bool &)`, see `vsl_b_read_short`. -/
def vsl_b_read_bool (s : vsl_b_istream K) (v : Bool) : vsl_b_istream K × Bool :=
  if s.good then
    match s.data with
    | vsl_token.bool x :: more => (⟨more, true⟩, x)
    | _ => (⟨s.data, false⟩, v)
  else (s, v)

/-- What the camera takes from the context for binary I/O and comparison: the
values `vpgl_lvcs::b_write` writes, `vpgl_lvcs::b_read` (the stream and the
context after the call, from the stream and the context before it), and
`vpgl_lvcs::operator==`. -/
structure vsl_externals (K : Type) where
  lvcs_b_write : vpgl_lvcs K → List (vsl_token K)
  lvcs_b_read : vsl_b_istream K → vpgl_lvcs K → vsl_b_istream K × vpgl_lvcs K
  lvcs_eq : vpgl_lvcs K → vpgl_lvcs K → Bool

namespace vpgl_geo_camera

/-- Translation of the camera, `translate(tx, ty, z)`. -/
def translate (cam : vpgl_geo_camera K) (tx ty _z : K) : vpgl_geo_camera K :=
  let T := cam.trans_matrix_
  if cam.scale_tag_ then
    let m1 := T.put 0 3 (T.get 0 3 + tx * T.get 0 0)
    let m2 := m1.put 1 3 (m1.get 1 3 + ty * m1.get 1 1)
    { cam with trans_matrix_ := m2 }
  else
    let m1 := T.put 0 3 (T.get 0 3 + tx)
    let m2 := m1.put 1 3 (m1.get 1 3 - ty)
    { cam with trans_matrix_ := m2 }

/-- Comparison `operator==(rhs)`: `none` when the matrices are equal and one of
the two cameras has no context, where the code dereferences a null pointer. -/
def operator_eq (io : vsl_externals K) (cam rhs : vpgl_geo_camera K) : Option Bool :=
  if cam.trans_matrix_.operator_eq rhs.trans_matrix_ then
    match cam.lvcs_, rhs.lvcs_ with
    | some a, some b => some (io.lvcs_eq a b)
    | _, _ => none
  else some false

/-- Modelled from the spec: `version()` is defined in `vpgl_geo_camera.h`, which
is not part of the sources at hand; the spec gives the "version tag (currently
`1`)". -/
def version : Int := 1

/-- The values that the two loops of `b_write` write: the entries of the matrix
row by row. -/
def b_write_entries (m : vnl_matrix K) : List (vsl_token K) :=
  (List.range m.rows).flatMap fun i =>
    (List.range m.cols).map fun j => vsl_token.double (m.get i j)

/-- Binary save, `b_write(os)`: the values written to the stream, in order;
`none` when the camera has no context, where the code dereferences a null
pointer. -/
def b_write (io : vsl_externals K) (cam : vpgl_geo_camera K) : Option (List (vsl_token K)) :=
  match cam.lvcs_ with
  | none => none
  | some lvcs =>
    some ([vsl_token.short version, vsl_token.unsigned cam.trans_matrix_.rows,
        vsl_token.unsigned cam.trans_matrix_.cols]
      ++ b_write_entries cam.trans_matrix_
      ++ io.lvcs_b_write lvcs
      ++ [vsl_token.bool cam.is_utm_, vsl_token.int cam.utm_zone_,
        vsl_token.int cam.northing_, vsl_token.bool cam.scale_tag_])

/-- The two loops of `b_read`: for `i < nrows` and `j < ncols`, in this order,
`vsl_b_read(is, trans_matrix_[i][j])`. -/
def b_read_entries (nrows ncols : Nat) (s : vsl_b_istream K) (m : vnl_matrix K) :
    vsl_b_istream K × vnl_matrix K :=
  (List.range nrows).foldl
    (fun st i =>
      (List.range ncols).foldl
        (fun st1 j =>
          let r := vsl_b_read_double st1.1 (st1.2.get i j)
          (r.1, st1.2.put i j r.2))
        st)
    (s, m)

/-- Binary load, `b_read(is)`: the camera and the stream after the call.  The
local variables `ver`, `nrows`, `ncols` are declared without a value: their
contents before the reads are `ver0`, `nrows0`, `ncols0`; `uninit` is the
contents of the matrix after a `set_size` that changes the size.  The context
that is read goes to the local variable `lvcs_` declared inside the `case`, not
to the member `lvcs_` of the camera. -/
def b_read (ext : vpgl_externals K) (io : vsl_externals K) (cam : vpgl_geo_camera K)
    (s : vsl_b_istream K) (ver0 : Int) (nrows0 ncols0 : Nat) (uninit : Nat → Nat → K) :
    vpgl_geo_camera K × vsl_b_istream K :=
  if !s.good then (cam, s)
  else
    let r0 := vsl_b_read_short s ver0
    let ver := r0.2
    if ver = 1 then
      let r1 := vsl_b_read_unsigned r0.1 nrows0
      let nrows := r1.2
      let r2 := vsl_b_read_unsigned r1.1 ncols0
      let ncols := r2.2
      let m0 := cam.trans_matrix_.set_size nrows ncols uninit
      let r3 := b_read_entries nrows ncols r2.1 m0
      let local_lvcs := io.lvcs_b_read r3.1 (ext.lvcs_wgs84 0 0 0)
      let r4 := vsl_b_read_bool local_lvcs.1 cam.is_utm_
      let r5 := vsl_b_read_int r4.1 cam.utm_zone_
      let r6 := vsl_b_read_int r5.1 cam.northing_
      let r7 := vsl_b_read_bool r6.1 cam.scale_tag_
      ({ cam with
          trans_matrix_ := r3.2
          is_utm_ := r4.2
          utm_zone_ := r5.2
          northing_ := r6.2
          scale_tag_ := r7.2 }, r7.1)
    else
      (cam, ⟨r0.1.data, false⟩)

end vpgl_geo_camera

/-! ## The image corners in UTM and the geographic position in backproject -/

namespace vpgl_geo_camera

/-- The UTM coordinates of the image corners `(0, 0)` and `(ni, nj)`,
`img_four_corners_in_utm(ni, nj, elev, e1, n1, e2, n2)`.  The result is the
returned flag and the contents of `(e1, n1, e2, n2)` after the call, `out` being
their contents before it. -/
def img_four_corners_in_utm (utm : vpgl_utm K) (cam : vpgl_geo_camera K) (ni nj : Nat)
    (_elev : K) (out : K × K × K × K) : Bool × (K × K × K × K) :=
  if !cam.is_utm_ then (false, out)
  else
    let g1 := cam.img_to_global utm 0 0
    let lon1 := g1.1
    let lat1 := g1.2
    let r1 := utm.to_utm lat1 lon1
    let g2 := cam.img_to_global utm (ni : K) (nj : K)
    let lon2 := g2.1
    let lat2 := g2.2
    let r2 := utm.to_utm lat2 lon2
    (true, (r1.1, r1.2.1, r2.1, r2.2.1))

/-- The contents `(lon, lat, elev)` of the three variables of `backproject` when
the run reaches the last statement,
`lvcs_->global_to_local(lon, lat, elev, vpgl_lvcs::wgs84, x, y, z)`. -/
def backproject_lon_lat (utm : vpgl_utm K) (cam : vpgl_geo_camera K) (u v : K) : K × K × K :=
  let T := cam.trans_matrix_
  let vec0 := if cam.scale_tag_ then T.get 0 3 + T.get 0 0 * u else T.get 0 3 + u
  let vec1 := if cam.scale_tag_ then T.get 1 3 + T.get 1 1 * v else T.get 1 3 - v
  let vec2 : K := 0
  if cam.is_utm_ then
    let r := utm.to_latlon cam.utm_zone_ vec0 vec1 vec2 false
    (r.2.1, r.1, r.2.2)
  else
    (vec0, vec1, vec2)

end vpgl_geo_camera

/-! ## Predicates used in the statements -/

/-- The matrix `tm` that `global_to_img` and `global_utm_to_img` invert: the
camera matrix with `tm[2][2] = 1`. -/
def vpgl_geo_camera.tm (cam : vpgl_geo_camera K) : vnl_matrix K :=
  cam.trans_matrix_.put 2 2 1

/-- A 4x4 matrix is invertible: its determinant is not zero. -/
def vnl_matrix.invertible4 (m : vnl_matrix K) : Prop := m.toMatrix4.det ≠ 0

/-- Unit pixel spacing with the row axis pointing down: the first, second and
fourth columns of the matrix are `(1, 0, 0, 0)`, `(0, -1, 0, 0)` and
`(T[0][3], T[1][3], 0, 1)`.  This is the shape the branch `scale_tag_ = false` of
`img_to_global` assumes ("assumes scale is 1"). -/
def vnl_matrix.unit_spacing (m : vnl_matrix K) : Prop :=
  m.get 0 0 = 1 ∧ m.get 1 0 = 0 ∧ m.get 2 0 = 0 ∧ m.get 3 0 = 0 ∧
  m.get 0 1 = 0 ∧ m.get 1 1 = -1 ∧ m.get 2 1 = 0 ∧ m.get 3 1 = 0 ∧
  m.get 2 3 = 0 ∧ m.get 3 3 = 1

/-- The two conversions of a context are mutually inverse in each frame. -/
def vpgl_lvcs.mutually_inverse (l : vpgl_lvcs K) : Prop :=
  ∀ (frame : cs_names) (a b c : K),
    l.local_to_global (l.global_to_local a b c frame).1 (l.global_to_local a b c frame).2.1
        (l.global_to_local a b c frame).2.2 frame = (a, b, c) ∧
    l.global_to_local (l.local_to_global a b c frame).1 (l.local_to_global a b c frame).2.1
        (l.local_to_global a b c frame).2.2 frame = (a, b, c)

/-- A numeric field of a file name: digits and dots only. -/
def numeric_field (s : List Char) : Prop := ∀ c ∈ s, c.isDigit = true ∨ c = '.'

/-- The coordinate token `<h><lat><d><lon>` of a file name. -/
def tile_coords (h : Char) (lat : List Char) (d : Char) (lon : List Char) : List Char :=
  h :: lat ++ d :: lon

/-- The scale token `S<s1>x<s2>` of a file name. -/
def tile_scale (s1 s2 : List Char) : List Char := 'S' :: s1 ++ 'x' :: s2

/-- The file name `<pre>_<h><lat><d><lon>_S<s1>x<s2>_<suf>`. -/
def tile_name (pre : List Char) (h : Char) (lat : List Char) (d : Char)
    (lon s1 s2 suf : List Char) : List Char :=
  pre ++ '_' :: (tile_coords h lat d lon ++ '_' :: tile_scale s1 s2 ++ '_' :: suf)

/-- The file name is well formed: no underscore in the prefix and the suffix,
hemisphere `N` or `S`, direction `E` or `W`, numeric fields, and a length that a
`std::string` can have. -/
def tile_well_formed (pre : List Char) (h : Char) (lat : List Char) (d : Char)
    (lon s1 s2 suf : List Char) : Prop :=
  '_' ∉ pre ∧ (h = 'N' ∨ h = 'S') ∧ (d = 'E' ∨ d = 'W') ∧
  numeric_field lat ∧ numeric_field lon ∧ numeric_field s1 ∧ numeric_field s2 ∧
  '_' ∉ suf ∧ (tile_name pre h lat d lon s1 s2 suf).length < npos

/-- Two matrices are entrywise equal: same size and equal entries. -/
def vnl_matrix.same (a b : vnl_matrix K) : Prop :=
  a.rows = b.rows ∧ a.cols = b.cols ∧ ∀ r c, r < a.rows → c < a.cols → a.get r c = b.get r c

/-- A matrix is exactly 4x4. -/
def vnl_matrix.is_4x4 (m : vnl_matrix K) : Prop := m.rows = 4 ∧ m.cols = 4

/-- The context's `b_read` consumes exactly the record that the context's
`b_write` wrote for `l` and leaves the stream good. -/
def vsl_externals.lvcs_record_consumed (io : vsl_externals K) (l : vpgl_lvcs K) : Prop :=
  ∀ (more : List (vsl_token K)) (l0 : vpgl_lvcs K),
    (io.lvcs_b_read ⟨io.lvcs_b_write l ++ more, true⟩ l0).1 = ⟨more, true⟩

/-- The context's own write and read are a round trip on `l`: `b_read` consumes
exactly the record written for `l` and yields `l`. -/
def vsl_externals.lvcs_round_trip (io : vsl_externals K) (l : vpgl_lvcs K) : Prop :=
  ∀ (more : List (vsl_token K)) (l0 : vpgl_lvcs K),
    io.lvcs_b_read ⟨io.lvcs_b_write l ++ more, true⟩ l0 = (⟨more, true⟩, l)

/-- The Euclidean distance of the local x and y components of two local points,
with the square root `sqrt`. -/
def dist_xy (sqrt : K → K) (a b : K × K × K) : K :=
  sqrt ((b.1 - a.1) * (b.1 - a.1) + (b.2.1 - a.2.1) * (b.2.1 - a.2.1))

/-! ## The conversions in the words of the specification -/

/-- The geographic position of a pixel in `backproject` as the specification
words it: the `(lon, lat)` that `img_to_global(u, v)` returns. -/
def vpgl_geo_camera.backproject_lon_lat_spec (utm : vpgl_utm K) (cam : vpgl_geo_camera K)
    (u v : K) : K × K :=
  cam.img_to_global utm u v

/-- The result of `img_to_global_utm(i, j)` on a camera that is not UTM as the
specification words it: the `(easting, northing)` of `to_utm(lat, lon)`, where
`(lon, lat) = img_to_global(i, j)`. -/
def vpgl_geo_camera.img_to_global_utm_spec (utm : vpgl_utm K) (cam : vpgl_geo_camera K)
    (i j : K) : K × K :=
  let g := cam.img_to_global utm i j
  let lon := g.1
  let lat := g.2
  let r := utm.to_utm lat lon
  (r.1, r.2.1)

/-- The result of `global_utm_to_img(x, y, zone, elev)` on a camera that is not
UTM as the specification words it: `global_to_img(lon, lat, z)`, where
`(lat, lon, z) = to_latlon(zone, x, y, elev)`. -/
def vpgl_geo_camera.global_utm_to_img_spec (utm : vpgl_utm K) (cam : vpgl_geo_camera K)
    (x y : K) (zone : Int) (elev : K) : K × K :=
  let r := utm.to_latlon zone x y elev false
  let lat := r.1
  let lon := r.2.1
  let z := r.2.2
  cam.global_to_img utm lon lat z

/-! ## Concrete objects used to exercise the definitions -/

/-- A stand-in UTM converter over `ℚ`: it shifts by the zone and swaps the axes. -/
def utm_sample : vpgl_utm ℚ :=
  { to_latlon := fun zone x y z south => (y + zone, x, if south then z + 1 else z)
    to_utm := fun lat lon => (lon, lat - 1, 1) }

/-- A second stand-in UTM converter over `ℚ`. -/
def utm_sample2 : vpgl_utm ℚ :=
  { to_latlon := fun _ x y z _ => (x, y, z)
    to_utm := fun lat lon => (lat, lon, 2) }

/-- A stand-in context over `ℚ` of the given kind: a translation by
`(100, 200, 300)` in the UTM frame and by `(1, 2, 3)` in every other frame. -/
def lvcs_sample (kind : cs_names) : vpgl_lvcs ℚ :=
  { cs_name := kind
    local_to_global := fun x y z frame =>
      if frame = cs_names.utm then (x + 100, y + 200, z + 300) else (x + 1, y + 2, z + 3)
    global_to_local := fun x y z frame =>
      if frame = cs_names.utm then (x - 100, y - 200, z - 300) else (x - 1, y - 2, z - 3) }

/-- A scale-format camera over `ℚ`: pixel size `(2, -3)`, origin `(5, 7)`, a
rotation term `T[0][1] = 11`, no context, not UTM. -/
def cam_scale_sample : vpgl_geo_camera ℚ :=
  { trans_matrix_ :=
      (((((vnl_matrix.filled 4 4 (0 : ℚ)).put 0 0 2).put 1 1 (-3)).put 0 3 5).put 1 3 7).put 0 1 11
    lvcs_ := none
    is_utm_ := false
    utm_zone_ := 0
    northing_ := 0
    scale_tag_ := true
    sx_ := 0
    sy_ := 0 }

/-- A scale-format camera over `ℚ` with the pixel size and origin of
`cam_scale_sample`, other matrix entries that differ (`T[0][1] = 0`,
`T[1][0] = 13`, `T[2][2] = 9`), a context and other metadata. -/
def cam_scale_sample2 : vpgl_geo_camera ℚ :=
  { trans_matrix_ :=
      ((((((vnl_matrix.filled 4 4 (0 : ℚ)).put 0 0 2).put 1 1 (-3)).put 0 3 5).put 1 3 7).put
        1 0 13).put 2 2 9
    lvcs_ := some (lvcs_sample cs_names.wgs84)
    is_utm_ := false
    utm_zone_ := 17
    northing_ := 1
    scale_tag_ := true
    sx_ := 1
    sy_ := 1 }

/-- Stand-in over `ℚ` for the contents of storage that has not been assigned:
no entry is `0` or `1`. -/
def uninit_sample : Nat → Nat → ℚ := fun r c => 7 + (r : ℚ) + 10 * (c : ℚ)

/-- The default-constructed camera over `ℚ`. -/
def cam_default_sample : vpgl_geo_camera ℚ := vpgl_geo_camera.default uninit_sample 0 0

/-- A camera over `ℚ` with `scale_tag_ = false` and unit pixel spacing: rows
`(1, 0, 4, 5)`, `(0, -1, 6, 7)`, `(0, 0, 0, 0)`, `(0, 0, 8, 1)`. -/
def cam_unit_sample : vpgl_geo_camera ℚ :=
  { trans_matrix_ :=
      ((((((((vnl_matrix.filled 4 4 (0 : ℚ)).put 0 0 1).put 1 1 (-1)).put 0 3 5).put 1 3 7).put
        0 2 4).put 1 2 6).put 3 2 8).put 3 3 1
    lvcs_ := none
    is_utm_ := false
    utm_zone_ := 0
    northing_ := 0
    scale_tag_ := false
    sx_ := 0
    sy_ := 0 }

/-- The default-constructed camera over `ℚ` with a WGS84 context attached. -/
def cam_default_wgs84_sample : vpgl_geo_camera ℚ :=
  { cam_default_sample with lvcs_ := some (lvcs_sample cs_names.wgs84) }

/-- A UTM camera over `ℚ` with a UTM context, `scale_tag_ = false` and the unit
spacing matrix of `cam_unit_sample`. -/
def cam_utm_unit_sample : vpgl_geo_camera ℚ :=
  { cam_unit_sample with
    lvcs_ := some (lvcs_sample cs_names.utm)
    is_utm_ := true
    utm_zone_ := 17 }

/-- Stand-ins over `ℚ` for the collaborators of the camera. -/
def ext_sample : vpgl_externals ℚ :=
  { utm := utm_sample
    sqrt := fun x => x
    lvcs_wgs84 := fun _ _ _ => lvcs_sample cs_names.wgs84 }

/-- A geotransform with rotation terms: `(10, 2, 3, 20, 5, 7)`. -/
def gt_sample : Fin 6 → ℚ := ![10, 2, 3, 20, 5, 7]

/-- The camera that `load_from_geotransform` builds from `gt_sample` with
`utm_zone = 0`, `northing = 0` and no context. -/
def cam_gt_sample : vpgl_geo_camera ℚ :=
  (vpgl_geo_camera.load_from_geotransform ext_sample cam_default_sample gt_sample 0 0 none
    uninit_sample).2

/-- The camera that `load_from_geotransform` builds from `gt_sample` with
`utm_zone = 0`, `northing = 0` and a context whose coordinate system is UTM. -/
def cam_gt_utm_lvcs_sample : vpgl_geo_camera ℚ :=
  (vpgl_geo_camera.load_from_geotransform ext_sample cam_default_sample gt_sample 0 0
    (some (lvcs_sample cs_names.utm)) uninit_sample).2

/-- A GeoTIFF header over `ℚ` with no explicit transform, the pixel scale
`(1, 1, 1)`, an empty tie-point list and the geographic WGS84 model. -/
def gtif_no_tiepoints_sample : vil_geotiff_header ℚ :=
  { gtif_tiepoints := []
    gtif_trans_matrix := none
    gtif_pixelscale := some (1, 1, 1)
    GCS_WGS84_MET_DEG := true
    PCS_WGS84_UTM_zone := none
    PCS_NAD83_UTM_zone := none }

/-- The decimal number at the start of a string, `0` when there is none. -/
def read_decimal_sample (s : List Char) : ℚ :=
  let ip := s.takeWhile Char.isDigit
  let fp :=
    match s.dropWhile Char.isDigit with
    | '.' :: r => r.takeWhile Char.isDigit
    | _ => []
  let toNat (l : List Char) : Nat := l.foldl (fun n c => 10 * n + (c.toNat - 48)) 0
  (toNat ip : ℚ) + (toNat fp : ℚ) / (10 : ℚ) ^ fp.length

/-- The exponent of a positive number `a` over `ℚ`: the integer `e` with
`2 ^ e ≤ a < 2 ^ (e + 1)`, found in at most `fuel` halvings or doublings. -/
def float_exponent_sample : Nat → ℚ → Int
  | 0, _ => 0
  | fuel + 1, a =>
    if a < 1 then float_exponent_sample fuel (a * 2) - 1
    else if 2 ≤ a then float_exponent_sample fuel (a / 2) + 1
    else 0

/-- A stand-in over `ℚ` for the rounding of a positive number to `float`: the
nearest number with 24 significant bits, a tie going to the even one.  The range
of the exponent of a `float` is not modelled. -/
def float_round_sample (a : ℚ) : ℚ :=
  let ulp : ℚ := 2 ^ (float_exponent_sample 300 a - 23)
  let q := a / ulp
  let f : Int := ⌊q⌋
  let m : Int :=
    if q - f < 1 / 2 then f else if 1 / 2 < q - f then f + 1 else if f % 2 = 0 then f else f + 1
  m * ulp

/-- A stand-in over `ℚ` for the extraction of a `float` from a string: the
decimal number at the start of the string, rounded to `float`; `0` when there is
none. -/
def read_float_sample (s : List Char) : ℚ :=
  if read_decimal_sample s = 0 then 0 else float_round_sample (read_decimal_sample s)

/-- Stand-ins over `ℚ` for the text services and the `float` rounding: the file
names used below have no directory part, so `strip_directory` returns them
unchanged. -/
def txt_sample : text_externals ℚ :=
  { strip_directory := fun s => s
    read_float := read_float_sample
    round_float := float_round_sample }

/-- The file name `xxx_N35W73_S0.6x0.6_xxx.tif`. -/
def name_n35w73_sample : List Char :=
  tile_name ['x', 'x', 'x'] 'N' ['3', '5'] 'W' ['7', '3'] ['0', '.', '6'] ['0', '.', '6']
    ['x', 'x', 'x', '.', 't', 'i', 'f']

/-- The file name `xxx_N35W73_S1x2_xxx.tif`, whose two scales differ. -/
def name_s1x2_sample : List Char :=
  tile_name ['x', 'x', 'x'] 'N' ['3', '5'] 'W' ['7', '3'] ['1'] ['2']
    ['x', 'x', 'x', '.', 't', 'i', 'f']

/-- The file name `xxx_S35E73_S0.6x0.3_xxx.tif`. -/
def name_s35e73_sample : List Char :=
  tile_name ['x', 'x', 'x'] 'S' ['3', '5'] 'E' ['7', '3'] ['0', '.', '6'] ['0', '.', '3']
    ['x', 'x', 'x', '.', 't', 'i', 'f']

/-- A geotransform without rotation terms: `(10, 2, 0, 20, 0, -7)`. -/
def gt_norot_sample : Fin 6 → ℚ := ![10, 2, 0, 20, 0, -7]

/-- The camera that `load_from_geotransform` builds from `gt_norot_sample` with
`utm_zone = 0`, `northing = 0` and no context. -/
def cam_gt_norot_sample : vpgl_geo_camera ℚ :=
  (vpgl_geo_camera.load_from_geotransform ext_sample cam_default_sample gt_norot_sample 0 0
    none uninit_sample).2

/-- The index of a coordinate system name in the enumeration. -/
def cs_names.index : cs_names → Nat
  | cs_names.wgs84 => 0
  | cs_names.nad27n => 1
  | cs_names.wgs72 => 2
  | cs_names.utm => 3

/-- The coordinate system name with the given index. -/
def cs_names.of_index (n : Nat) : cs_names :=
  if n = 1 then cs_names.nad27n else if n = 2 then cs_names.wgs72
  else if n = 3 then cs_names.utm else cs_names.wgs84

/-- Stand-ins over `ℚ` for the binary I/O and the comparison of the contexts
`lvcs_sample kind`: the record of a context is the index of its kind. -/
def io_sample : vsl_externals ℚ :=
  { lvcs_b_write := fun l => [vsl_token.unsigned l.cs_name.index]
    lvcs_b_read := fun s l0 =>
      match s.data with
      | vsl_token.unsigned k :: more => (⟨more, s.good⟩, lvcs_sample (cs_names.of_index k))
      | _ => (⟨s.data, false⟩, l0)
    lvcs_eq := fun a b => decide (a.cs_name = b.cs_name) }

/-- A stand-in over `ℚ` for the square root: the quotient of the integer square
roots of numerator and denominator, `0` on negative numbers.  It is exact on
squares and never negative. -/
def sqrt_sample (x : ℚ) : ℚ :=
  if 0 ≤ x then (Nat.sqrt x.num.toNat : ℚ) / (Nat.sqrt x.den : ℚ) else 0

/-- Stand-ins over `ℚ` for the collaborators of the camera, with `sqrt_sample`. -/
def ext_sqrt_sample : vpgl_externals ℚ :=
  { utm := utm_sample
    sqrt := sqrt_sample
    lvcs_wgs84 := fun _ _ _ => lvcs_sample cs_names.wgs84 }

/-- A UTM scale-format camera over `ℚ` with `T[0][0] = 0.6`, `T[1][1] = -0.6` and
no context. -/
def cam_utm_scale_sample : vpgl_geo_camera ℚ :=
  { trans_matrix_ := ((vnl_matrix.filled 4 4 (0 : ℚ)).put 0 0 (3 / 5)).put 1 1 (-3 / 5)
    lvcs_ := none
    is_utm_ := true
    utm_zone_ := 17
    northing_ := 0
    scale_tag_ := true
    sx_ := 0
    sy_ := 0 }

/-- A UTM scale-format camera over `ℚ` with the matrix of `cam_scale_sample` and
a UTM context. -/
def cam_utm_lvcs_scale_sample : vpgl_geo_camera ℚ :=
  { cam_scale_sample with
    lvcs_ := some (lvcs_sample cs_names.utm)
    is_utm_ := true
    utm_zone_ := 17 }

/-- A version-1 binary record whose matrix is 2x3. -/
def record_2x3_sample : List (vsl_token ℚ) :=
  [vsl_token.short 1, vsl_token.unsigned 2, vsl_token.unsigned 3,
    vsl_token.double 1, vsl_token.double 2, vsl_token.double 3,
    vsl_token.double 4, vsl_token.double 5, vsl_token.double 6,
    vsl_token.unsigned 0,
    vsl_token.bool false, vsl_token.int 0, vsl_token.int 0, vsl_token.bool true]

/-- A stand-in UTM converter over `ℚ` whose latitude depends on the hemisphere
flag: a southern northing is counted from 10000000. -/
def utm_south_sample : vpgl_utm ℚ :=
  { to_latlon := fun zone x y z south => (if south then y - 10000000 else y, x + zone, z)
    to_utm := fun lat lon => (lon, lat, 1) }

/-- A UTM scale-format camera over `ℚ` of the southern hemisphere
(`northing_ = 1`) with the matrix of `cam_scale_sample` and a WGS84 context. -/
def cam_utm_south_sample : vpgl_geo_camera ℚ :=
  { cam_scale_sample with
    lvcs_ := some (lvcs_sample cs_names.wgs84)
    is_utm_ := true
    utm_zone_ := 17
    northing_ := 1 }

/-! ## The inverse of a 4x4 matrix -/

theorem vnl_inverse_left (m : vnl_matrix K) (hdet : m.toMatrix4.det ≠ 0) :
    ((m.toMatrix4.det)⁻¹ • m.toMatrix4.adjugate) * m.toMatrix4 = 1 := by
  rw [Matrix.smul_mul, Matrix.adjugate_mul, smul_smul, inv_mul_cancel₀ hdet, one_smul]

/-- If `vec` is the product of an invertible `m` with `w`, the product of
`vnl_inverse m` with `vec` is `w`. -/
theorem vnl_inverse_mulVec (m : vnl_matrix K) (hdet : m.toMatrix4.det ≠ 0) (vec w : Nat → K)
    (h : ∀ k, k < 4 → vec k = ∑ c in Finset.range 4, m.data k c * w c)
    (r : Nat) (hr : r < 4) : (vnl_inverse m).mulVec vec r = w r := by
  have hN := vnl_inverse_left m hdet
  have hvec : ∀ c : Fin 4, vec c.val = (m.toMatrix4.mulVec fun i : Fin 4 => w i.val) c := by
    intro c
    rw [h c.val c.isLt, Finset.sum_range]
    rfl
  have key : (vnl_inverse m).mulVec vec r
      = (((m.toMatrix4.det)⁻¹ • m.toMatrix4.adjugate).mulVec
          (m.toMatrix4.mulVec fun i : Fin 4 => w i.val)) ⟨r, hr⟩ := by
    simp only [vnl_matrix.mulVec, vnl_inverse, Matrix.mulVec, Matrix.dotProduct]
    rw [Finset.sum_range]
    refine Finset.sum_congr rfl ?_
    intro c _
    rw [dif_pos ⟨hr, c.isLt⟩, hvec c]
    rfl
  rw [key, Matrix.mulVec_mulVec, hN, Matrix.one_mulVec]

/-- On a matrix with unit pixel spacing and `m[2][2] = 1`, the product with the
pixel vector `(i, j, 0, 1)` is the native vector `(m[0][3] + i, m[1][3] - j, 0, 1)`. -/
theorem unit_spacing_mulVec (m : vnl_matrix K) (hm : m.unit_spacing) (i j : K)
    (k : Nat) (hk : k < 4) :
    vec4 (m.get 0 3 + i) (m.get 1 3 - j) 0 1 k
      = ∑ c in Finset.range 4, m.data k c * vec4 i j 0 1 c := by
  obtain ⟨h00, h10, h20, h30, h01, h11, h21, h31, h23, h33⟩ := hm
  simp only [vnl_matrix.get] at *
  interval_cases k <;> simp [Finset.sum_range_succ, vec4, *] <;> ring

/-! ## Pixel to native coordinates and back, scale format -/

/-- C1: on a camera with `scale_tag_ = true` and `is_utm_ = false` whose matrix
has `T[0][0] ≠ 0` and `T[1][1] ≠ 0`, `global_to_img` applied to the `(lon, lat)`
that `img_to_global` returns for the pixel `(i, j)`, with any elevation `gz`,
returns `(i, j)`. -/
theorem global_to_img_img_to_global_scale (utm : vpgl_utm K) (cam : vpgl_geo_camera K)
    (hs : cam.scale_tag_ = true) (hu : cam.is_utm_ = false)
    (h00 : cam.trans_matrix_.get 0 0 ≠ 0) (h11 : cam.trans_matrix_.get 1 1 ≠ 0)
    (i j gz : K) :
    cam.global_to_img utm (cam.img_to_global utm i j).1 (cam.img_to_global utm i j).2 gz
      = (i, j) := by
  simp only [vpgl_geo_camera.global_to_img, vpgl_geo_camera.img_to_global, hs, hu, vec4]
  simp [h00, h11]

/-- Witness of C1 on `cam_scale_sample` at the pixel `(4, 9)` and elevation `6`. -/
theorem global_to_img_img_to_global_scale_witness :
    cam_scale_sample.scale_tag_ = true ∧ cam_scale_sample.is_utm_ = false ∧
    cam_scale_sample.trans_matrix_.get 0 0 ≠ 0 ∧ cam_scale_sample.trans_matrix_.get 1 1 ≠ 0 ∧
    cam_scale_sample.global_to_img utm_sample
      (cam_scale_sample.img_to_global utm_sample 4 9).1
      (cam_scale_sample.img_to_global utm_sample 4 9).2 6 = (4, 9) :=
  ⟨rfl, rfl, by norm_num [cam_scale_sample, vnl_matrix.get, vnl_matrix.put],
    by norm_num [cam_scale_sample, vnl_matrix.get, vnl_matrix.put],
    global_to_img_img_to_global_scale utm_sample cam_scale_sample rfl rfl
      (by norm_num [cam_scale_sample, vnl_matrix.get, vnl_matrix.put])
      (by norm_num [cam_scale_sample, vnl_matrix.get, vnl_matrix.put]) 4 9 6⟩

/-- C2: on a camera with `scale_tag_ = true` and `is_utm_ = false`,
`img_to_global(i, j)` is `(T[0][3] + i*T[0][0], T[1][3] + j*T[1][1])` and
`global_to_img(x, y, z)` is `((x - T[0][3])/T[0][0], (y - T[1][3])/T[1][1])`.
Any other such camera `cam1` that agrees on the four entries `T[0][0]`,
`T[1][1]`, `T[0][3]`, `T[1][3]` gives the same two results, whatever its other
matrix entries, its UTM converter and the elevation `z1` are. -/
theorem scale_format_formulas (utm utm1 : vpgl_utm K) (cam cam1 : vpgl_geo_camera K)
    (hs : cam.scale_tag_ = true) (hu : cam.is_utm_ = false)
    (hs1 : cam1.scale_tag_ = true) (hu1 : cam1.is_utm_ = false)
    (e00 : cam1.trans_matrix_.get 0 0 = cam.trans_matrix_.get 0 0)
    (e11 : cam1.trans_matrix_.get 1 1 = cam.trans_matrix_.get 1 1)
    (e03 : cam1.trans_matrix_.get 0 3 = cam.trans_matrix_.get 0 3)
    (e13 : cam1.trans_matrix_.get 1 3 = cam.trans_matrix_.get 1 3)
    (i j x y z z1 : K) :
    cam.img_to_global utm i j
      = (cam.trans_matrix_.get 0 3 + i * cam.trans_matrix_.get 0 0,
         cam.trans_matrix_.get 1 3 + j * cam.trans_matrix_.get 1 1) ∧
    cam.global_to_img utm x y z
      = ((x - cam.trans_matrix_.get 0 3) / cam.trans_matrix_.get 0 0,
         (y - cam.trans_matrix_.get 1 3) / cam.trans_matrix_.get 1 1) ∧
    cam1.img_to_global utm1 i j = cam.img_to_global utm i j ∧
    cam1.global_to_img utm1 x y z1 = cam.global_to_img utm x y z := by
  simp [vpgl_geo_camera.global_to_img, vpgl_geo_camera.img_to_global, hs, hu, hs1, hu1, vec4,
    e00, e11, e03, e13]

/-- Witness of C2: `cam_scale_sample` and `cam_scale_sample2` share the four
entries and differ in `T[0][1]`, `T[1][0]`, `T[2][2]`, context and metadata. -/
theorem scale_format_formulas_witness :
    cam_scale_sample.img_to_global utm_sample 4 9 = (5 + 4 * 2, 7 + 9 * (-3)) ∧
    cam_scale_sample.global_to_img utm_sample 13 (-20) 6 = ((13 - 5) / 2, (-20 - 7) / (-3)) ∧
    cam_scale_sample2.img_to_global utm_sample2 4 9
      = cam_scale_sample.img_to_global utm_sample 4 9 ∧
    cam_scale_sample2.global_to_img utm_sample2 13 (-20) 1
      = cam_scale_sample.global_to_img utm_sample 13 (-20) 6 :=
  scale_format_formulas utm_sample utm_sample2 cam_scale_sample cam_scale_sample2
    rfl rfl rfl rfl
    (by simp [cam_scale_sample, cam_scale_sample2, vnl_matrix.get, vnl_matrix.put])
    (by simp [cam_scale_sample, cam_scale_sample2, vnl_matrix.get, vnl_matrix.put])
    (by simp [cam_scale_sample, cam_scale_sample2, vnl_matrix.get, vnl_matrix.put])
    (by simp [cam_scale_sample, cam_scale_sample2, vnl_matrix.get, vnl_matrix.put])
    4 9 13 (-20) 6 1

/-! ## Pixel to native coordinates and back, general format -/

theorem unit_spacing_put (m : vnl_matrix K) (hm : m.unit_spacing) (v : K) :
    (m.put 2 2 v).unit_spacing := by
  simpa [vnl_matrix.unit_spacing, vnl_matrix.get, vnl_matrix.put] using hm

/-- The general-format branch of `global_to_img` undoes the general-format
branch of `img_to_global` on a matrix with unit pixel spacing. -/
theorem inverse_tm_native (cam : vpgl_geo_camera K) (hm : cam.trans_matrix_.unit_spacing)
    (hdet : cam.tm.invertible4) (i j : K) (r : Nat) (hr : r < 4) :
    (vnl_inverse cam.tm).mulVec
        (vec4 (cam.trans_matrix_.get 0 3 + i) (cam.trans_matrix_.get 1 3 - j) 0 1) r
      = vec4 i j 0 1 r := by
  refine vnl_inverse_mulVec cam.tm hdet _ _ ?_ r hr
  intro k hk
  have h := unit_spacing_mulVec cam.tm (unit_spacing_put _ hm 1) i j k hk
  simpa [vpgl_geo_camera.tm, vnl_matrix.get, vnl_matrix.put] using h

/-- C3, as amended: on a camera with `scale_tag_ = false` and `is_utm_ = false`
whose matrix with `T[2][2]` forced to 1 is invertible and which has unit pixel
spacing (columns `(1,0,0,0)`, `(0,-1,0,0)`, `(T[0][3], T[1][3], 0, 1)`),
`global_to_img` applied at elevation 0 to the `(lon, lat)` that `img_to_global`
returns for the pixel `(i, j)` returns `(i, j)`. -/
theorem global_to_img_img_to_global_unit (utm : vpgl_utm K) (cam : vpgl_geo_camera K)
    (hs : cam.scale_tag_ = false) (hu : cam.is_utm_ = false)
    (hdet : cam.tm.invertible4) (hm : cam.trans_matrix_.unit_spacing) (i j : K) :
    cam.global_to_img utm (cam.img_to_global utm i j).1 (cam.img_to_global utm i j).2 0
      = (i, j) := by
  have h0 := inverse_tm_native cam hm hdet i j 0 (by norm_num)
  have h1 := inverse_tm_native cam hm hdet i j 1 (by norm_num)
  simp only [vpgl_geo_camera.tm] at h0 h1
  simp only [vpgl_geo_camera.global_to_img, vpgl_geo_camera.img_to_global, hs, hu]
  simp [h0, h1, vec4]

theorem cam_unit_sample_tm :
    cam_unit_sample.tm.toMatrix4 = !![1, 0, 4, 5; 0, -1, 6, 7; 0, 0, 1, 0; 0, 0, 8, 1] := by
  ext a b
  fin_cases a <;> fin_cases b <;>
    simp [cam_unit_sample, vpgl_geo_camera.tm, vnl_matrix.toMatrix4, vnl_matrix.put,
      vnl_matrix.filled, Matrix.vecHead, Matrix.vecTail]

theorem cam_unit_sample_invertible : cam_unit_sample.tm.invertible4 := by
  unfold vnl_matrix.invertible4
  rw [cam_unit_sample_tm]
  simp [Matrix.det_succ_row_zero, Fin.sum_univ_succ, Matrix.submatrix, Fin.succAbove]

theorem cam_unit_sample_unit_spacing : cam_unit_sample.trans_matrix_.unit_spacing := by
  simp [cam_unit_sample, vnl_matrix.unit_spacing, vnl_matrix.get, vnl_matrix.put,
    vnl_matrix.filled]

/-- Witness of C3 as amended, on `cam_unit_sample` at the pixel `(4, 9)`. -/
theorem global_to_img_img_to_global_unit_witness :
    cam_unit_sample.scale_tag_ = false ∧ cam_unit_sample.is_utm_ = false ∧
    cam_unit_sample.tm.invertible4 ∧ cam_unit_sample.trans_matrix_.unit_spacing ∧
    cam_unit_sample.global_to_img utm_sample
      (cam_unit_sample.img_to_global utm_sample 4 9).1
      (cam_unit_sample.img_to_global utm_sample 4 9).2 0 = (4, 9) :=
  ⟨rfl, rfl, cam_unit_sample_invertible, cam_unit_sample_unit_spacing,
    global_to_img_img_to_global_unit utm_sample cam_unit_sample rfl rfl
      cam_unit_sample_invertible cam_unit_sample_unit_spacing 4 9⟩

theorem cam_default_sample_tm : cam_default_sample.tm.toMatrix4 = 1 := by
  ext a b
  fin_cases a <;> fin_cases b <;>
    simp [cam_default_sample, vpgl_geo_camera.default, vpgl_geo_camera.tm,
      vnl_matrix.toMatrix4, vnl_matrix.put, vnl_matrix.filled, vnl_matrix.fill,
      vnl_matrix.fill_diagonal]

theorem cam_default_sample_invertible : cam_default_sample.tm.invertible4 := by
  unfold vnl_matrix.invertible4
  rw [cam_default_sample_tm]
  simp

/-- On the default-constructed camera the matrix that is inverted is the
identity, so the product with its inverse returns a vector unchanged. -/
theorem cam_default_sample_inverse (a b c d : ℚ) (r : Nat) (hr : r < 4) :
    (vnl_inverse cam_default_sample.tm).mulVec (vec4 a b c d) r = vec4 a b c d r := by
  refine vnl_inverse_mulVec _ cam_default_sample_invertible _ _ ?_ r hr
  intro k hk
  have h : ∀ x y : Nat, x < 4 → y < 4 →
      cam_default_sample.tm.data x y = if x = y then 1 else 0 := by
    intro x y hx hy
    have := congrFun (congrFun cam_default_sample_tm ⟨x, hx⟩) ⟨y, hy⟩
    simpa [vnl_matrix.toMatrix4, Matrix.one_apply] using this
  interval_cases k <;> simp [Finset.sum_range_succ, vec4, h]

/-- C3, counterexample: the default-constructed camera (identity matrix,
`scale_tag_ = false`, not UTM) has an invertible matrix, and the round trip of
the pixel `(0, 1)` at elevation 0 returns `(0, -1)`, not `(0, 1)`. -/
theorem default_camera_round_trip_fails :
    cam_default_sample.scale_tag_ = false ∧ cam_default_sample.is_utm_ = false ∧
    cam_default_sample.tm.invertible4 ∧
    cam_default_sample.img_to_global utm_sample 0 1 = (0, -1) ∧
    cam_default_sample.global_to_img utm_sample
      (cam_default_sample.img_to_global utm_sample 0 1).1
      (cam_default_sample.img_to_global utm_sample 0 1).2 0 = (0, -1) ∧
    cam_default_sample.global_to_img utm_sample
      (cam_default_sample.img_to_global utm_sample 0 1).1
      (cam_default_sample.img_to_global utm_sample 0 1).2 0 ≠ (0, 1) := by
  have hfwd : cam_default_sample.img_to_global utm_sample 0 1 = (0, -1) := by
    simp [cam_default_sample, vpgl_geo_camera.default, vpgl_geo_camera.img_to_global,
      vnl_matrix.get, vnl_matrix.fill, vnl_matrix.fill_diagonal, vnl_matrix.filled]
  have hback : cam_default_sample.global_to_img utm_sample 0 (-1) 0 = (0, -1) := by
    have h0 := cam_default_sample_inverse 0 (-1) 0 1 0 (by norm_num)
    have h1 := cam_default_sample_inverse 0 (-1) 0 1 1 (by norm_num)
    simp only [vpgl_geo_camera.tm] at h0 h1
    have hs : cam_default_sample.scale_tag_ = false := rfl
    have hu : cam_default_sample.is_utm_ = false := rfl
    simp only [vpgl_geo_camera.global_to_img, hs, hu]
    simp [h0, h1, vec4]
  refine ⟨rfl, rfl, cam_default_sample_invertible, hfwd, ?_, ?_⟩
  · rw [hfwd]; exact hback
  · rw [hfwd]
    simp only [hback]
    norm_num

/-! ## Projection and backprojection -/

theorem lvcs_sample_mutually_inverse (kind : cs_names) : (lvcs_sample kind).mutually_inverse := by
  intro frame a b c
  by_cases h : frame = cs_names.utm <;> simp [lvcs_sample, h]

/-- C4, as amended: on a camera with an attached context whose UTM-ness matches
the camera's, whose conversions are mutually inverse in each frame, and whose
transform is either in scale format with `T[0][0] ≠ 0` and `T[1][1] ≠ 0`, or in
general format with an invertible matrix of unit pixel spacing,
`project(backproject(u, v)) = (u, v)` for every pixel `(u, v)`. -/
theorem project_backproject_matching (utm : vpgl_utm K) (cam : vpgl_geo_camera K)
    (l : vpgl_lvcs K) (hl : cam.lvcs_ = some l)
    (hmatch : (l.cs_name = cs_names.utm ∧ cam.is_utm_ = true) ∨
      (l.cs_name = cs_names.wgs84 ∧ cam.is_utm_ = false))
    (hinv : l.mutually_inverse)
    (hT : (cam.scale_tag_ = true ∧ cam.trans_matrix_.get 0 0 ≠ 0 ∧
        cam.trans_matrix_.get 1 1 ≠ 0) ∨
      (cam.scale_tag_ = false ∧ cam.tm.invertible4 ∧ cam.trans_matrix_.unit_spacing))
    (u v : K) (out : K × K × K) :
    cam.project utm (cam.backproject utm u v out).1 (cam.backproject utm u v out).2.1
      (cam.backproject utm u v out).2.2 = (u, v) := by
  rcases hmatch with ⟨hk, hu⟩ | ⟨hk, hu⟩ <;> rcases hT with ⟨hs, h00, h11⟩ | ⟨hs, hdet, hm⟩
  · have hi := (hinv cs_names.utm (cam.trans_matrix_.get 0 3 + cam.trans_matrix_.get 0 0 * u)
      (cam.trans_matrix_.get 1 3 + cam.trans_matrix_.get 1 1 * v) 0).1
    simp only [vpgl_geo_camera.project, vpgl_geo_camera.backproject,
      vpgl_geo_camera.local_to_global, vpgl_geo_camera.global_utm_to_img, hl, hk, hu, hs]
    simp [hi, vec4, h00, h11]
  · have hi := (hinv cs_names.utm (cam.trans_matrix_.get 0 3 + u)
      (cam.trans_matrix_.get 1 3 - v) 0).1
    have h0 := inverse_tm_native cam hm hdet u v 0 (by norm_num)
    have h1 := inverse_tm_native cam hm hdet u v 1 (by norm_num)
    simp only [vpgl_geo_camera.tm] at h0 h1
    simp only [vpgl_geo_camera.project, vpgl_geo_camera.backproject,
      vpgl_geo_camera.local_to_global, vpgl_geo_camera.global_utm_to_img, hl, hk, hu, hs]
    simp [hi, h0, h1, vec4]
  · have hi := (hinv cs_names.wgs84 (cam.trans_matrix_.get 0 3 + cam.trans_matrix_.get 0 0 * u)
      (cam.trans_matrix_.get 1 3 + cam.trans_matrix_.get 1 1 * v) 0).1
    simp only [vpgl_geo_camera.project, vpgl_geo_camera.backproject,
      vpgl_geo_camera.local_to_global, vpgl_geo_camera.global_to_img, hl, hk, hu, hs]
    simp [hi, vec4, h00, h11]
  · have hi := (hinv cs_names.wgs84 (cam.trans_matrix_.get 0 3 + u)
      (cam.trans_matrix_.get 1 3 - v) 0).1
    have h0 := inverse_tm_native cam hm hdet u v 0 (by norm_num)
    have h1 := inverse_tm_native cam hm hdet u v 1 (by norm_num)
    simp only [vpgl_geo_camera.tm] at h0 h1
    simp only [vpgl_geo_camera.project, vpgl_geo_camera.backproject,
      vpgl_geo_camera.local_to_global, vpgl_geo_camera.global_to_img, hl, hk, hu, hs]
    simp [hi, h0, h1, vec4]

/-- Witness of C4 as amended, on the UTM camera `cam_utm_unit_sample` (UTM
context, general format, unit pixel spacing) at the pixel `(4, 9)`. -/
theorem project_backproject_matching_witness :
    cam_utm_unit_sample.lvcs_ = some (lvcs_sample cs_names.utm) ∧
    (lvcs_sample cs_names.utm).cs_name = cs_names.utm ∧ cam_utm_unit_sample.is_utm_ = true ∧
    (lvcs_sample cs_names.utm).mutually_inverse ∧
    cam_utm_unit_sample.scale_tag_ = false ∧ cam_utm_unit_sample.tm.invertible4 ∧
    cam_utm_unit_sample.trans_matrix_.unit_spacing ∧
    cam_utm_unit_sample.project utm_sample
      (cam_utm_unit_sample.backproject utm_sample 4 9 (0, 0, 0)).1
      (cam_utm_unit_sample.backproject utm_sample 4 9 (0, 0, 0)).2.1
      (cam_utm_unit_sample.backproject utm_sample 4 9 (0, 0, 0)).2.2 = (4, 9) :=
  ⟨rfl, rfl, rfl, lvcs_sample_mutually_inverse _, rfl, cam_unit_sample_invertible,
    cam_unit_sample_unit_spacing,
    project_backproject_matching utm_sample cam_utm_unit_sample (lvcs_sample cs_names.utm) rfl
      (Or.inl ⟨rfl, rfl⟩) (lvcs_sample_mutually_inverse _)
      (Or.inr ⟨rfl, cam_unit_sample_invertible, cam_unit_sample_unit_spacing⟩) 4 9 (0, 0, 0)⟩

/-- C4, counterexample: the default-constructed camera with a WGS84 context
(matching UTM-ness, mutually inverse conversions, identity matrix, general
format): backprojecting the pixel `(0, 1)` and projecting the result gives
`(0, -1)`, not `(0, 1)`. -/
theorem project_backproject_default_fails :
    cam_default_wgs84_sample.lvcs_ = some (lvcs_sample cs_names.wgs84) ∧
    (lvcs_sample cs_names.wgs84).cs_name = cs_names.wgs84 ∧
    cam_default_wgs84_sample.is_utm_ = false ∧
    (lvcs_sample cs_names.wgs84).mutually_inverse ∧
    cam_default_wgs84_sample.tm.invertible4 ∧
    cam_default_wgs84_sample.backproject utm_sample 0 1 (0, 0, 0) = (-1, -3, -3) ∧
    cam_default_wgs84_sample.project utm_sample (-1) (-3) (-3) = (0, -1) ∧
    cam_default_wgs84_sample.project utm_sample
      (cam_default_wgs84_sample.backproject utm_sample 0 1 (0, 0, 0)).1
      (cam_default_wgs84_sample.backproject utm_sample 0 1 (0, 0, 0)).2.1
      (cam_default_wgs84_sample.backproject utm_sample 0 1 (0, 0, 0)).2.2 ≠ (0, 1) := by
  have hback : cam_default_wgs84_sample.backproject utm_sample 0 1 (0, 0, 0) = (-1, -3, -3) := by
    simp [cam_default_wgs84_sample, cam_default_sample, vpgl_geo_camera.default,
      vpgl_geo_camera.backproject, lvcs_sample, vnl_matrix.get, vnl_matrix.fill,
      vnl_matrix.fill_diagonal, vnl_matrix.filled]
    norm_num
  have hproj : cam_default_wgs84_sample.project utm_sample (-1) (-3) (-3) = (0, -1) := by
    have h0 := cam_default_sample_inverse 0 (-1) 0 1 0 (by norm_num)
    have h1 := cam_default_sample_inverse 0 (-1) 0 1 1 (by norm_num)
    simp only [vpgl_geo_camera.tm] at h0 h1
    have hl : cam_default_wgs84_sample.lvcs_ = some (lvcs_sample cs_names.wgs84) := rfl
    have hs : cam_default_wgs84_sample.scale_tag_ = false := rfl
    have hu : cam_default_wgs84_sample.is_utm_ = false := rfl
    have ht : cam_default_wgs84_sample.trans_matrix_ = cam_default_sample.trans_matrix_ := rfl
    have hg : (lvcs_sample cs_names.wgs84).local_to_global (-1) (-3) (-3) cs_names.wgs84
        = (0, -1, 0) := by
      simp [lvcs_sample]; norm_num
    have hk : (lvcs_sample cs_names.wgs84).cs_name ≠ cs_names.utm := by
      simp [lvcs_sample]
    simp only [vpgl_geo_camera.project, vpgl_geo_camera.local_to_global,
      vpgl_geo_camera.global_to_img, hl, hs, hu, ht, hg, if_neg hk]
    simp [h0, h1, vec4]
  refine ⟨rfl, rfl, rfl, lvcs_sample_mutually_inverse _, cam_default_sample_invertible,
    hback, hproj, ?_⟩
  rw [hback]
  simp only [hproj]
  norm_num

/-! ## Frame dispatch of local_to_global and global_to_local -/

/-- C5: `local_to_global` resolves its frame from the context kind and
`is_utm_`.  With no context it returns `(lx, ly, lz)` unchanged; with a UTM
context and `is_utm_ = true` it returns the context's conversion in the UTM
frame; with a UTM context and `is_utm_ = false`, and with a WGS84 context and
either value `b` of `is_utm_`, it returns the context's conversion in the WGS84
frame.  The camera `cam` and the context `l` give the remaining components. -/
theorem local_to_global_dispatch (cam : vpgl_geo_camera K) (l : vpgl_lvcs K) (b : Bool)
    (lx ly lz : K) :
    ({ cam with lvcs_ := none } : vpgl_geo_camera K).local_to_global lx ly lz = (lx, ly, lz) ∧
    ({ cam with lvcs_ := some { l with cs_name := cs_names.utm }, is_utm_ := true } :
        vpgl_geo_camera K).local_to_global lx ly lz
      = l.local_to_global lx ly lz cs_names.utm ∧
    ({ cam with lvcs_ := some { l with cs_name := cs_names.utm }, is_utm_ := false } :
        vpgl_geo_camera K).local_to_global lx ly lz
      = l.local_to_global lx ly lz cs_names.wgs84 ∧
    ({ cam with lvcs_ := some { l with cs_name := cs_names.wgs84 }, is_utm_ := b } :
        vpgl_geo_camera K).local_to_global lx ly lz
      = l.local_to_global lx ly lz cs_names.wgs84 := by
  simp [vpgl_geo_camera.local_to_global]

theorem extract_pixel_size_fields (ext : vpgl_externals K) (cam : vpgl_geo_camera K) :
    (cam.extract_pixel_size ext).trans_matrix_ = cam.trans_matrix_ ∧
    (cam.extract_pixel_size ext).lvcs_ = cam.lvcs_ ∧
    (cam.extract_pixel_size ext).is_utm_ = cam.is_utm_ ∧
    (cam.extract_pixel_size ext).utm_zone_ = cam.utm_zone_ ∧
    (cam.extract_pixel_size ext).northing_ = cam.northing_ ∧
    (cam.extract_pixel_size ext).scale_tag_ = cam.scale_tag_ := by
  unfold vpgl_geo_camera.extract_pixel_size
  split <;> simp

theorem cam_gt_utm_lvcs_sample_fields :
    cam_gt_utm_lvcs_sample.lvcs_ = some (lvcs_sample cs_names.utm) ∧
    cam_gt_utm_lvcs_sample.is_utm_ = false := by
  unfold cam_gt_utm_lvcs_sample vpgl_geo_camera.load_from_geotransform
  simp only [(extract_pixel_size_fields _ _).2.1, (extract_pixel_size_fields _ _).2.2.1]
  simp [vpgl_geo_camera.set_lvcs]

/-- C6, the code at the failing input: on the camera that
`load_from_geotransform` builds with zone 0 and a UTM context (so that
`is_utm_ = false`), `local_to_global` converts in the WGS84 frame and
`global_to_local` converts in the UTM frame; with a context whose conversions
are mutually inverse in each frame, the local point `(0, 0, 0)` comes back as
`(-99, -198, -297)`. -/
theorem global_to_local_frame_mismatch :
    cam_gt_utm_lvcs_sample.lvcs_ = some (lvcs_sample cs_names.utm) ∧
    cam_gt_utm_lvcs_sample.is_utm_ = false ∧
    (lvcs_sample cs_names.utm).mutually_inverse ∧
    cam_gt_utm_lvcs_sample.local_to_global 0 0 0
      = (lvcs_sample cs_names.utm).local_to_global 0 0 0 cs_names.wgs84 ∧
    cam_gt_utm_lvcs_sample.local_to_global 0 0 0 = (1, 2, 3) ∧
    cam_gt_utm_lvcs_sample.global_to_local 1 2 3 (0, 0, 0)
      = (true, (lvcs_sample cs_names.utm).global_to_local 1 2 3 cs_names.utm) ∧
    cam_gt_utm_lvcs_sample.global_to_local 1 2 3 (0, 0, 0) = (true, (-99, -198, -297)) := by
  obtain ⟨hl, hu⟩ := cam_gt_utm_lvcs_sample_fields
  refine ⟨hl, hu, lvcs_sample_mutually_inverse _, ?_, ?_, ?_, ?_⟩
  · simp [vpgl_geo_camera.local_to_global, hl, hu, lvcs_sample]
  · simp [vpgl_geo_camera.local_to_global, hl, hu, lvcs_sample]
  · simp [vpgl_geo_camera.global_to_local, hl, lvcs_sample]
  · simp [vpgl_geo_camera.global_to_local, hl, lvcs_sample]
    norm_num

/-- C7: on a camera whose context, if any, is of kind WGS84 or UTM,
`global_to_local` returns `false` exactly when no context is attached, and
when it returns `false` the outputs `(lx, ly, lz)` keep their contents `out`. -/
theorem global_to_local_false_iff (cam : vpgl_geo_camera K)
    (hkind : ∀ l, cam.lvcs_ = some l → l.cs_name = cs_names.wgs84 ∨ l.cs_name = cs_names.utm)
    (gx gy gz : K) (out : K × K × K) :
    ((cam.global_to_local gx gy gz out).1 = false ↔ cam.lvcs_ = none) ∧
    ((cam.global_to_local gx gy gz out).1 = false →
      (cam.global_to_local gx gy gz out).2 = out) := by
  unfold vpgl_geo_camera.global_to_local
  cases hl : cam.lvcs_ with
  | none => simp
  | some l =>
    rcases hkind l hl with h | h <;> simp [h]

/-- Witness of C7 on `cam_scale_sample2`, whose context is of kind WGS84: the
call succeeds and a context is attached. -/
theorem global_to_local_false_iff_witness :
    (∀ l, cam_scale_sample2.lvcs_ = some l →
      l.cs_name = cs_names.wgs84 ∨ l.cs_name = cs_names.utm) ∧
    (((cam_scale_sample2.global_to_local 1 2 3 (0, 0, 0)).1 = false ↔
        cam_scale_sample2.lvcs_ = none) ∧
      ((cam_scale_sample2.global_to_local 1 2 3 (0, 0, 0)).1 = false →
        (cam_scale_sample2.global_to_local 1 2 3 (0, 0, 0)).2 = (0, 0, 0))) :=
  have hk : ∀ l, cam_scale_sample2.lvcs_ = some l →
      l.cs_name = cs_names.wgs84 ∨ l.cs_name = cs_names.utm := by
    intro l hl
    have h : l = lvcs_sample cs_names.wgs84 := by
      simpa [cam_scale_sample2] using hl.symm
    left
    rw [h]
    rfl
  ⟨hk, global_to_local_false_iff cam_scale_sample2 hk 1 2 3 (0, 0, 0)⟩

/-- C8, the code at the failing input: on the non-UTM camera `cam_scale_sample`,
which has no context, `backproject` leaves its outputs as they were (here
`(0, 0, 0)`), whereas the native coordinates of the pixel `(4, 9)` are
`(13, -20)`; projecting what `backproject` left gives `(-5/2, 7/3)`, not
`(4, 9)`. -/
theorem backproject_no_context_unassigned :
    cam_scale_sample.lvcs_ = none ∧ cam_scale_sample.is_utm_ = false ∧
    cam_scale_sample.scale_tag_ = true ∧
    cam_scale_sample.img_to_global utm_sample 4 9 = (13, -20) ∧
    cam_scale_sample.backproject utm_sample 4 9 (0, 0, 0) = (0, 0, 0) ∧
    cam_scale_sample.project utm_sample
      (cam_scale_sample.backproject utm_sample 4 9 (0, 0, 0)).1
      (cam_scale_sample.backproject utm_sample 4 9 (0, 0, 0)).2.1
      (cam_scale_sample.backproject utm_sample 4 9 (0, 0, 0)).2.2 = (-5 / 2, 7 / 3) := by
  have hback : cam_scale_sample.backproject utm_sample 4 9 (0, 0, 0) = (0, 0, 0) := by
    simp [cam_scale_sample, vpgl_geo_camera.backproject]
  refine ⟨rfl, rfl, rfl, ?_, hback, ?_⟩
  · simp [cam_scale_sample, vpgl_geo_camera.img_to_global, vnl_matrix.get, vnl_matrix.put,
      vnl_matrix.filled]
    norm_num
  · rw [hback]
    simp [cam_scale_sample, vpgl_geo_camera.project, vpgl_geo_camera.global_to_img,
      vnl_matrix.get, vnl_matrix.put, vnl_matrix.filled, vec4]

/-! ## The GDAL geotransform adapter -/

/-- C9: `load_from_geotransform` returns `true` and leaves a 4x4 matrix whose
rows are `(GT1, GT2, 0, GT0)`, `(GT4, GT5, 0, GT3)`, `(0, 0, 1, 0)`,
`(0, 0, 0, 1)`, whatever the contents `uninit` of the local matrix before
`fill(0)` and whatever the camera held before; reading
`T[0][3], T[0][0], T[0][1], T[1][3], T[1][0], T[1][1]` back from the camera gives
the six numbers of the geotransform. -/
theorem load_from_geotransform_matrix (ext : vpgl_externals K) (cam : vpgl_geo_camera K)
    (geotransform : Fin 6 → K) (utm_zone northing : Int) (lvcs : Option (vpgl_lvcs K))
    (uninit : Nat → Nat → K) :
    (cam.load_from_geotransform ext geotransform utm_zone northing lvcs uninit).1 = true ∧
    (cam.load_from_geotransform ext geotransform utm_zone northing lvcs uninit).2.trans_matrix_.rows
      = 4 ∧
    (cam.load_from_geotransform ext geotransform utm_zone northing lvcs uninit).2.trans_matrix_.cols
      = 4 ∧
    (∀ r c : Fin 4,
      (cam.load_from_geotransform ext geotransform utm_zone northing lvcs
          uninit).2.trans_matrix_.get r.val c.val
        = !![geotransform 1, geotransform 2, 0, geotransform 0;
             geotransform 4, geotransform 5, 0, geotransform 3;
             0, 0, 1, 0;
             0, 0, 0, 1] r c) ∧
    (∀ k : Fin 6,
      ![(cam.load_from_geotransform ext geotransform utm_zone northing
            lvcs uninit).2.trans_matrix_.get 0 3,
        (cam.load_from_geotransform ext geotransform utm_zone northing
            lvcs uninit).2.trans_matrix_.get 0 0,
        (cam.load_from_geotransform ext geotransform utm_zone northing
            lvcs uninit).2.trans_matrix_.get 0 1,
        (cam.load_from_geotransform ext geotransform utm_zone northing
            lvcs uninit).2.trans_matrix_.get 1 3,
        (cam.load_from_geotransform ext geotransform utm_zone northing
            lvcs uninit).2.trans_matrix_.get 1 0,
        (cam.load_from_geotransform ext geotransform utm_zone northing
            lvcs uninit).2.trans_matrix_.get 1 1] k = geotransform k) := by
  unfold vpgl_geo_camera.load_from_geotransform
  simp only [(extract_pixel_size_fields _ _).1, vpgl_geo_camera.set_lvcs]
  refine ⟨trivial, rfl, rfl, ?_, ?_⟩
  · intro r c
    fin_cases r <;> fin_cases c <;>
      simp [vnl_matrix.get, vnl_matrix.put, vnl_matrix.fill, vnl_matrix.fill_diagonal,
        vnl_matrix.filled, Matrix.vecHead, Matrix.vecTail]
  · intro k
    fin_cases k <;>
      simp [vnl_matrix.get, vnl_matrix.put, vnl_matrix.fill, vnl_matrix.fill_diagonal,
        vnl_matrix.filled, Matrix.vecHead, Matrix.vecTail]
    rfl

theorem cam_gt_sample_fields :
    cam_gt_sample.scale_tag_ = true ∧ cam_gt_sample.is_utm_ = false ∧
    cam_gt_sample.trans_matrix_.get 0 3 = 10 ∧ cam_gt_sample.trans_matrix_.get 0 0 = 2 ∧
    cam_gt_sample.trans_matrix_.get 1 3 = 20 ∧ cam_gt_sample.trans_matrix_.get 1 1 = 7 := by
  unfold cam_gt_sample vpgl_geo_camera.load_from_geotransform
  simp only [(extract_pixel_size_fields _ _).1, (extract_pixel_size_fields _ _).2.2.1,
    (extract_pixel_size_fields _ _).2.2.2.2.2, vpgl_geo_camera.set_lvcs]
  have g0 : gt_sample 0 = 10 := rfl
  have g1 : gt_sample 1 = 2 := rfl
  have g3 : gt_sample 3 = 20 := rfl
  have g5 : gt_sample 5 = 7 := rfl
  simp [g0, g1, g3, g5, vnl_matrix.get, vnl_matrix.put, vnl_matrix.fill,
    vnl_matrix.fill_diagonal, vnl_matrix.filled]

/-- C10, the code at the failing input: the camera that `load_from_geotransform`
builds from the geotransform `(10, 2, 3, 20, 5, 7)` with zone 0 maps the pixel
`(1, 1)` to `(12, 27)`, whereas the documented relation gives
`Xgeo = 10 + 1*2 + 1*3 = 15` and `Ygeo = 20 + 1*5 + 1*7 = 32`. -/
theorem load_from_geotransform_drops_rotation :
    cam_gt_sample.img_to_global utm_sample 1 1 = (12, 27) ∧
    cam_gt_sample.img_to_global utm_sample 1 1
      ≠ (gt_sample 0 + 1 * gt_sample 1 + 1 * gt_sample 2,
         gt_sample 3 + 1 * gt_sample 4 + 1 * gt_sample 5) := by
  obtain ⟨hs, hu, h03, h00, h13, h11⟩ := cam_gt_sample_fields
  have h : cam_gt_sample.img_to_global utm_sample 1 1 = (12, 27) := by
    simp only [vpgl_geo_camera.img_to_global, hs, hu, h03, h00, h13, h11]
    norm_num
  have g0 : gt_sample 0 = 10 := rfl
  have g1 : gt_sample 1 = 2 := rfl
  have g2 : gt_sample 2 = 3 := rfl
  have g3 : gt_sample 3 = 20 := rfl
  have g4 : gt_sample 4 = 5 := rfl
  have g5 : gt_sample 5 = 7 := rfl
  refine ⟨h, ?_⟩
  rw [h, g0, g1, g2, g3, g4, g5]
  norm_num

/-- C11: after `load_from_geotransform(GT, utm_zone, northing, lvcs)` the camera
has `scale_tag_ = true`, `utm_zone_` and `northing_` equal to the arguments, and
`is_utm_ = true` exactly when `utm_zone > 0`. -/
theorem load_from_geotransform_metadata (ext : vpgl_externals K) (cam : vpgl_geo_camera K)
    (geotransform : Fin 6 → K) (utm_zone northing : Int) (lvcs : Option (vpgl_lvcs K))
    (uninit : Nat → Nat → K) :
    (cam.load_from_geotransform ext geotransform utm_zone northing lvcs uninit).2.scale_tag_
      = true ∧
    (cam.load_from_geotransform ext geotransform utm_zone northing lvcs uninit).2.utm_zone_
      = utm_zone ∧
    (cam.load_from_geotransform ext geotransform utm_zone northing lvcs uninit).2.northing_
      = northing ∧
    ((cam.load_from_geotransform ext geotransform utm_zone northing lvcs uninit).2.is_utm_
        = true ↔ utm_zone > 0) := by
  unfold vpgl_geo_camera.load_from_geotransform
  simp only [(extract_pixel_size_fields _ _).2.2.1, (extract_pixel_size_fields _ _).2.2.2.1,
    (extract_pixel_size_fields _ _).2.2.2.2.1, (extract_pixel_size_fields _ _).2.2.2.2.2,
    vpgl_geo_camera.set_lvcs]
  simp

/-! ## The GeoTIFF header adapter -/

/-- With a first tie point of six components `comp_trans_matrix` returns `true`
and a 4x4 matrix. -/
theorem comp_trans_matrix_some (sx sy sz : K) (t : List K) (ts : List (List K))
    (old : vnl_matrix K) (b : Bool) (uninit : Nat → Nat → K) (ht : t.length = 6) :
    ∃ m : vnl_matrix K,
      vpgl_geo_camera.comp_trans_matrix sx sy sz (t :: ts) old b uninit = some (true, m) ∧
      m.rows = 4 ∧ m.cols = 4 := by
  have h : ¬ (t.length ≠ 6) := by simp [ht]
  simp only [vpgl_geo_camera.comp_trans_matrix, if_neg h]
  exact ⟨_, rfl, rfl, rfl⟩

/-- C12: with `scale_tag = true` and a tie-point list whose first element is
`(I, J, K, X, Y, Z)`, `comp_trans_matrix` returns `true` and sets the matrix to
the 4x4 matrix with rows `(sx, 0, 0, X - I*sx)`, `(0, -sy, 0, Y + J*sy)`,
`(0, 0, sz, Z - K*sz)`, `(0, 0, 0, 1)`, whatever the contents `uninit` of the
local matrix before `fill(0.0)`; the result is the same for any other tie points
`more1` after the first and any previous matrix `old1`. -/
theorem comp_trans_matrix_scale (sx sy sz I J K1 X Y Z : K) (more more1 : List (List K))
    (old old1 : vnl_matrix K) (uninit : Nat → Nat → K) :
    ∃ m : vnl_matrix K,
      vpgl_geo_camera.comp_trans_matrix sx sy sz ([I, J, K1, X, Y, Z] :: more) old true uninit
        = some (true, m) ∧
      m.rows = 4 ∧ m.cols = 4 ∧
      (∀ r c : Fin 4, m.get r.val c.val
        = !![sx, 0, 0, X - I * sx;
             0, -sy, 0, Y + J * sy;
             0, 0, sz, Z - K1 * sz;
             0, 0, 0, 1] r c) ∧
      vpgl_geo_camera.comp_trans_matrix sx sy sz ([I, J, K1, X, Y, Z] :: more1) old1 true
        uninit = some (true, m) := by
  refine ⟨_, rfl, rfl, rfl, ?_, rfl⟩
  intro r c
  fin_cases r <;> fin_cases c <;>
    simp [vnl_matrix.get, vnl_matrix.put, vnl_matrix.fill, vnl_matrix.filled, Matrix.vecHead,
      Matrix.vecTail]

/-- C13: for a GeoTIFF resource that has a header, `load_from_resource` returns
`true` exactly when the header provides an explicit transform, or a pixel scale
with a non-empty tie-point list, and the model is geographic WGS84
degrees/meters, UTM-WGS84 or UTM-NAD83.  When a transform can be formed and the
model is none of the three, it returns `false`. -/
theorem load_from_resource_true_iff (ext : vpgl_externals K) (cam : vpgl_geo_camera K)
    (gtif : vil_geotiff_header K) (lvcs : Option (vpgl_lvcs K)) (uninit : Nat → Nat → K) :
    ((∃ cam1, cam.load_from_resource ext ⟨true, true, some gtif⟩ lvcs uninit
        = some (true, cam1)) ↔
      (gtif.gtif_trans_matrix.isSome = true ∨
        (gtif.gtif_pixelscale.isSome = true ∧ gtif.gtif_tiepoints ≠ [])) ∧
      (gtif.GCS_WGS84_MET_DEG = true ∨ gtif.PCS_WGS84_UTM_zone.isSome = true ∨
        gtif.PCS_NAD83_UTM_zone.isSome = true)) ∧
    ((gtif.gtif_trans_matrix.isSome = true ∨
        (gtif.gtif_pixelscale.isSome = true ∧ gtif.gtif_tiepoints ≠ [])) →
      (gtif.GCS_WGS84_MET_DEG = false ∧ gtif.PCS_WGS84_UTM_zone = none ∧
        gtif.PCS_NAD83_UTM_zone = none) →
      ∃ cam1, cam.load_from_resource ext ⟨true, true, some gtif⟩ lvcs uninit
        = some (false, cam1)) := by
  obtain ⟨tp, tm, ps, g, w, n⟩ := gtif
  cases tm <;> cases ps <;> cases tp <;> cases g <;> cases w <;> cases n <;>
    simp [vpgl_geo_camera.load_from_resource, vpgl_geo_camera.comp_trans_matrix,
      vnl_matrix.copy_in, vnl_matrix.filled, vnl_matrix.put, vnl_matrix.fill]

/-- C14, the code at the failing input: for the header
`gtif_no_tiepoints_sample` (no explicit transform, pixel scale `(1, 1, 1)`,
empty tie-point list) `load_from_resource` calls `comp_trans_matrix` with the
empty list, whose first assertion `tiepoints.size() > 0` fails; no flag is
returned. -/
theorem load_from_resource_empty_tiepoints :
    gtif_no_tiepoints_sample.gtif_trans_matrix = none ∧
    gtif_no_tiepoints_sample.gtif_tiepoints = [] ∧
    gtif_no_tiepoints_sample.gtif_pixelscale = some (1, 1, 1) ∧
    vpgl_geo_camera.comp_trans_matrix (1 : ℚ) 1 1 [] (vnl_matrix.filled 4 4 0) true
      uninit_sample = none ∧
    cam_default_sample.load_from_resource ext_sample
      ⟨true, true, some gtif_no_tiepoints_sample⟩ none uninit_sample = none := by
  refine ⟨rfl, rfl, rfl, rfl, ?_⟩
  simp [vpgl_geo_camera.load_from_resource, gtif_no_tiepoints_sample,
    vpgl_geo_camera.comp_trans_matrix]

/-! ## The filename adapters -/

theorem size_add_of_lt (a b : Nat) (h : a + b < 2 ^ 64) : size_add a b = a + b := by
  unfold size_add
  exact Nat.mod_eq_of_lt h

theorem size_sub_of_le (a b : Nat) (hb : b ≤ a) (ha : a < 2 ^ 64) : size_sub a b = a - b := by
  unfold size_sub
  have hb2 : b % 2 ^ 64 = b := Nat.mod_eq_of_lt (lt_of_le_of_lt hb ha)
  rw [hb2]
  have : a + 2 ^ 64 - b = (a - b) + 2 ^ 64 := by omega
  rw [this, Nat.add_mod_right]
  exact Nat.mod_eq_of_lt (by omega)

theorem find_first_of_append (a b : List Char) (c : Char) (h : c ∉ a) :
    std_string.find_first_of (a ++ c :: b) c = a.length := by
  unfold std_string.find_first_of
  rw [if_pos (by simp), List.indexOf_append_of_not_mem h]
  simp

theorem find_append (a b : List Char) (c : Char) (h : c ∉ a) :
    std_string.find (a ++ c :: b) c = a.length := find_first_of_append a b c h

theorem find_of_not_mem (s : List Char) (c : Char) (h : c ∉ s) : std_string.find s c = npos := by
  unfold std_string.find
  rw [if_neg h]

theorem find_last_of_append (a b : List Char) (c : Char) (h : c ∉ b) :
    std_string.find_last_of (a ++ c :: b) c = a.length := by
  unfold std_string.find_last_of
  rw [if_pos (by simp)]
  have hr : (a ++ c :: b).reverse = b.reverse ++ c :: a.reverse := by simp
  rw [hr, List.indexOf_append_of_not_mem (by simpa using h)]
  simp

/-- head field -/
theorem substr_head (a b : List Char) (c : Char) (h : c ∉ a) :
    std_string.substr (a ++ c :: b) 0 (std_string.find_first_of (a ++ c :: b) c) = some a := by
  rw [find_first_of_append a b c h]
  simp [std_string.substr]

/-- tail field -/
theorem substr_tail (a b : List Char) (c : Char) (h : c ∉ a) (n : Nat) (hn : b.length ≤ n)
    (hlen : (a ++ c :: b).length < npos) :
    std_string.substr (a ++ c :: b) (size_add (std_string.find_first_of (a ++ c :: b) c) 1) n
      = some b := by
  have hl : a.length + 1 < 2 ^ 64 := by
    simp [npos] at hlen
    omega
  rw [find_first_of_append a b c h, size_add_of_lt _ _ hl]
  unfold std_string.substr
  rw [if_neg (by simp)]
  have : List.drop (a.length + 1) (a ++ c :: b) = b := by
    rw [List.drop_append_eq_append_drop]
    simp
  rw [this, List.take_of_length_le hn]

/-- middle field: between `c1` at index 0 and the first `c2` -/
theorem substr_middle (m t : List Char) (c1 c2 : Char) (h12 : c2 ≠ c1) (h : c2 ∉ m)
    (hlen : (c1 :: m ++ c2 :: t).length < npos) :
    std_string.substr (c1 :: m ++ c2 :: t)
      (size_add (std_string.find_first_of (c1 :: m ++ c2 :: t) c1) 1)
      (size_sub (size_sub (std_string.find_first_of (c1 :: m ++ c2 :: t) c2)
        (std_string.find_first_of (c1 :: m ++ c2 :: t) c1)) 1) = some m := by
  have hl : m.length + 2 < 2 ^ 64 := by
    simp [npos] at hlen
    omega
  have h1 : std_string.find_first_of (c1 :: m ++ c2 :: t) c1 = 0 := by
    have := find_first_of_append [] (m ++ c2 :: t) c1 (by simp)
    simpa using this
  have h2 : std_string.find_first_of (c1 :: m ++ c2 :: t) c2 = m.length + 1 := by
    have := find_first_of_append (c1 :: m) t c2 (by simp [h12, h])
    simpa using this
  have e1 : size_add 0 1 = 1 := size_add_of_lt _ _ (by norm_num)
  have e2 : size_sub (m.length + 1) 0 = m.length + 1 :=
    size_sub_of_le _ _ (Nat.zero_le _) (by omega)
  have e3 : size_sub (m.length + 1) 1 = m.length := size_sub_of_le _ _ (by omega) (by omega)
  rw [h1, h2, e1, e2, e3]
  simp [std_string.substr]

/-- the scale token: between the first `c` and the last `c` -/
theorem substr_between (a m t : List Char) (c : Char) (ha : c ∉ a) (ht : c ∉ t)
    (hlen : (a ++ c :: m ++ c :: t).length < npos) :
    std_string.substr (a ++ c :: m ++ c :: t)
      (size_add (std_string.find_first_of (a ++ c :: m ++ c :: t) c) 1)
      (size_sub (size_sub (std_string.find_last_of (a ++ c :: m ++ c :: t) c)
        (std_string.find_first_of (a ++ c :: m ++ c :: t) c)) 1) = some m := by
  have hl : a.length + m.length + 2 < 2 ^ 64 := by
    simp [npos] at hlen
    omega
  have h1 : std_string.find_first_of (a ++ c :: m ++ c :: t) c = a.length := by
    have := find_first_of_append a (m ++ c :: t) c ha
    simpa using this
  have h2 : std_string.find_last_of (a ++ c :: m ++ c :: t) c = a.length + (m.length + 1) := by
    have := find_last_of_append (a ++ c :: m) t c ht
    simpa using this
  have e1 : size_add a.length 1 = a.length + 1 := size_add_of_lt _ _ (by omega)
  have e2 : size_sub (a.length + (m.length + 1)) a.length = m.length + 1 := by
    rw [size_sub_of_le _ _ (by omega) (by omega)]
    omega
  have e3 : size_sub (m.length + 1) 1 = m.length := size_sub_of_le _ _ (by omega) (by omega)
  rw [h1, h2, e1, e2, e3]
  unfold std_string.substr
  rw [if_neg (by simp)]
  have : List.drop (a.length + 1) (a ++ c :: m ++ c :: t) = m ++ c :: t := by
    have e : a ++ c :: m ++ c :: t = (a ++ [c]) ++ (m ++ c :: t) := by simp
    rw [e, List.drop_append_eq_append_drop]
    simp
  rw [this]
  simp

theorem not_mem_of_numeric (s : List Char) (hs : numeric_field s) (c : Char)
    (hc : c.isDigit = false) (hc2 : c ≠ '.') : c ∉ s := by
  intro hmem
  rcases hs c hmem with h | h
  · rw [hc] at h; exact Bool.noConfusion h
  · exact hc2 h

/-- What the statements shared by the two filename adapters extract from a well
formed file name. -/
theorem tile_name_fields (pre : List Char) (h : Char) (lat : List Char) (d : Char)
    (lon s1 s2 suf : List Char) (hwf : tile_well_formed pre h lat d lon s1 s2 suf) :
    let name0 := tile_name pre h lat d lon s1 s2 suf
    let name := tile_coords h lat d lon ++ '_' :: tile_scale s1 s2 ++ '_' :: suf
    let n_coords := tile_coords h lat d lon
    let n_scale := tile_scale s1 s2
    std_string.substr name0 (size_add (std_string.find_first_of name0 '_') 1) name0.length
      = some name ∧
    std_string.substr name 0 (std_string.find_first_of name '_') = some n_coords ∧
    std_string.substr name (size_add (std_string.find_first_of name '_') 1)
      (size_sub (size_sub (std_string.find_last_of name '_')
        (std_string.find_first_of name '_')) 1) = some n_scale ∧
    (if std_string.find n_coords 'N' < n_coords.length then 'N' else 'S') = h ∧
    (if std_string.find n_coords 'E' < n_coords.length then 'E' else 'W') = d ∧
    std_string.substr n_coords (size_add (std_string.find_first_of n_coords h) 1)
      (size_sub (size_sub (std_string.find_first_of n_coords d)
        (std_string.find_first_of n_coords h)) 1) = some lat ∧
    std_string.substr n_coords (size_add (std_string.find_first_of n_coords d) 1)
      n_coords.length = some lon ∧
    std_string.substr n_scale (size_add (std_string.find_first_of n_scale 'S') 1)
      (size_sub (size_sub (std_string.find_first_of n_scale 'x')
        (std_string.find_first_of n_scale 'S')) 1) = some s1 ∧
    std_string.substr n_scale (size_add (std_string.find_first_of n_scale 'x') 1)
      n_scale.length = some s2 := by
  obtain ⟨hpre, hh, hd, hlat, hlon, hs1, hs2, hsuf, hlen⟩ := hwf
  have hlen2 : pre.length + (1 + (1 + lat.length + (1 + lon.length)) +
      (1 + (1 + s1.length + (1 + s2.length))) + (1 + suf.length)) < npos := by
    simpa [tile_name, tile_coords, tile_scale, Nat.add_assoc, Nat.add_comm, Nat.add_left_comm]
      using hlen
  have hu_lat : '_' ∉ lat := not_mem_of_numeric _ hlat _ (by decide) (by decide)
  have hu_lon : '_' ∉ lon := not_mem_of_numeric _ hlon _ (by decide) (by decide)
  have hu_s1 : '_' ∉ s1 := not_mem_of_numeric _ hs1 _ (by decide) (by decide)
  have hu_s2 : '_' ∉ s2 := not_mem_of_numeric _ hs2 _ (by decide) (by decide)
  have hx_s1 : 'x' ∉ s1 := not_mem_of_numeric _ hs1 _ (by decide) (by decide)
  have hN_lat : 'N' ∉ lat := not_mem_of_numeric _ hlat _ (by decide) (by decide)
  have hN_lon : 'N' ∉ lon := not_mem_of_numeric _ hlon _ (by decide) (by decide)
  have hE_lat : 'E' ∉ lat := not_mem_of_numeric _ hlat _ (by decide) (by decide)
  have hE_lon : 'E' ∉ lon := not_mem_of_numeric _ hlon _ (by decide) (by decide)
  have hW_lat : 'W' ∉ lat := not_mem_of_numeric _ hlat _ (by decide) (by decide)
  have hu_coords : '_' ∉ tile_coords h lat d lon := by
    rcases hh with rfl | rfl <;> rcases hd with rfl | rfl <;>
      simp [tile_coords, hu_lat, hu_lon]
  have hu_scale : '_' ∉ tile_scale s1 s2 := by
    simp [tile_scale, hu_s1, hu_s2]
  have hdh : d ≠ h := by
    rcases hh with rfl | rfl <;> rcases hd with rfl | rfl <;> decide
  have hd_lat : d ∉ lat := by
    rcases hd with rfl | rfl
    · exact hE_lat
    · exact hW_lat
  have hcl : (tile_coords h lat d lon).length < npos := by
    simp only [tile_coords, List.length_append, List.length_cons]
    omega
  have hsl : (tile_scale s1 s2).length < npos := by
    simp only [tile_scale, List.length_append, List.length_cons]
    omega
  refine ⟨?_, ?_, ?_, ?_, ?_, ?_, ?_, ?_, ?_⟩
  · refine substr_tail pre _ '_' hpre _ ?_ hlen
    simp only [tile_name, List.length_append, List.length_cons]
    omega
  · have e : tile_coords h lat d lon ++ '_' :: tile_scale s1 s2 ++ '_' :: suf
        = tile_coords h lat d lon ++ '_' :: (tile_scale s1 s2 ++ '_' :: suf) := by simp
    rw [e]
    exact substr_head _ _ '_' hu_coords
  · refine substr_between _ _ _ '_' hu_coords hsuf ?_
    simp only [tile_coords, tile_scale, List.length_append, List.length_cons]
    omega
  · rcases hh with rfl | rfl
    · have : std_string.find (tile_coords 'N' lat d lon) 'N' = 0 := by
        have := find_append [] (lat ++ d :: lon) 'N' (by simp)
        simpa [tile_coords] using this
      rw [this, if_pos (by simp [tile_coords])]
    · have hnot : 'N' ∉ tile_coords 'S' lat d lon := by
        rcases hd with rfl | rfl <;> simp [tile_coords, hN_lat, hN_lon]
      rw [find_of_not_mem _ _ hnot, if_neg (by omega)]
  · rcases hd with rfl | rfl
    · have : std_string.find (tile_coords h lat 'E' lon) 'E' = lat.length + 1 := by
        have := find_append (h :: lat) lon 'E' (by
          rcases hh with rfl | rfl <;> simp [hE_lat])
        simpa [tile_coords] using this
      rw [this, if_pos (by simp [tile_coords])]
    · have hnot : 'E' ∉ tile_coords h lat 'W' lon := by
        rcases hh with rfl | rfl <;> simp [tile_coords, hE_lat, hE_lon]
      rw [find_of_not_mem _ _ hnot, if_neg (by omega)]
  · exact substr_middle lat lon h d hdh hd_lat hcl
  · refine substr_tail (h :: lat) lon d ?_ _ ?_ hcl
    · simp [hdh, hd_lat]
    · simp only [tile_coords, List.length_append, List.length_cons]
      omega
  · exact substr_middle s1 s2 'S' 'x' (by decide) hx_s1 hsl
  · refine substr_tail ('S' :: s1) s2 'x' ?_ _ ?_ hsl
    · simp [hx_s1]
    · simp only [tile_scale, List.length_append, List.length_cons]
      omega

/-- The camera that `init_geo_camera_from_filename` builds from a well formed
file name. -/
theorem from_filename_tile (ext : vpgl_externals K) (txt : text_externals K)
    (img_name pre : List Char) (h : Char) (lat : List Char) (d : Char)
    (lon s1 s2 suf : List Char) (ni nj : Nat) (lvcs : Option (vpgl_lvcs K))
    (uninit : Nat → Nat → K) (utm_zone northing : Int) (sx sy : K)
    (hwf : tile_well_formed pre h lat d lon s1 s2 suf)
    (hstrip : txt.strip_directory img_name = tile_name pre h lat d lon s1 s2 suf) :
    ∃ cam : vpgl_geo_camera K,
      vpgl_geo_camera.init_geo_camera_from_filename ext txt img_name ni nj lvcs uninit utm_zone
        northing sx sy = some (true, cam) ∧
      cam.scale_tag_ = true ∧ cam.is_utm_ = false ∧
      cam.trans_matrix_.get 0 3
        = (if d = 'W' then -txt.read_float lon else txt.read_float lon)
          - 1 / 2 / ((ni : K) - 1) ∧
      cam.trans_matrix_.get 0 0 = txt.read_float s1 / ((ni : K) - 1) ∧
      cam.trans_matrix_.get 1 1 = -txt.read_float s1 / ((nj : K) - 1) ∧
      cam.trans_matrix_.get 1 3
        = txt.to_float ((if h = 'S' then -txt.read_float lat else txt.read_float lat)
            + txt.read_float s1) + 1 / 2 / ((nj : K) - 1) := by
  obtain ⟨f1, f2, f3, f4, f5, f6, f7, f8, -⟩ := tile_name_fields pre h lat d lon s1 s2 suf hwf
  simp only [vpgl_geo_camera.init_geo_camera_from_filename, hstrip, f1, f2, f3, f4, f5, f6, f7,
    f8, Option.bind_eq_bind, Option.some_bind, Option.pure_def, bind_pure_comp, Option.map_some']
  refine ⟨_, rfl, ?_, ?_, ?_, ?_, ?_, ?_⟩
  · rw [(extract_pixel_size_fields _ _).2.2.2.2.2]; rfl
  · rw [(extract_pixel_size_fields _ _).2.2.1]; rfl
  · rw [(extract_pixel_size_fields _ _).1]
    simp [vpgl_geo_camera.set_scale_format, vpgl_geo_camera.of_matrix, vnl_matrix.get,
      vnl_matrix.put]
  · rw [(extract_pixel_size_fields _ _).1]
    simp [vpgl_geo_camera.set_scale_format, vpgl_geo_camera.of_matrix, vnl_matrix.get,
      vnl_matrix.put]
  · rw [(extract_pixel_size_fields _ _).1]
    simp [vpgl_geo_camera.set_scale_format, vpgl_geo_camera.of_matrix, vnl_matrix.get,
      vnl_matrix.put]
  · rw [(extract_pixel_size_fields _ _).1]
    simp [vpgl_geo_camera.set_scale_format, vpgl_geo_camera.of_matrix, vnl_matrix.get,
      vnl_matrix.put]

/-- The camera that `init_geo_camera` builds from a well formed file name. -/
theorem init_geo_camera_tile (ext : vpgl_externals K) (txt : text_externals K)
    (img_name pre : List Char) (h : Char) (lat : List Char) (d : Char)
    (lon s1 s2 suf : List Char) (ni nj : Nat) (lvcs : Option (vpgl_lvcs K))
    (uninit : Nat → Nat → K) (utm_zone northing : Int) (sx sy : K)
    (hwf : tile_well_formed pre h lat d lon s1 s2 suf)
    (hstrip : txt.strip_directory img_name = tile_name pre h lat d lon s1 s2 suf) :
    ∃ cam : vpgl_geo_camera K,
      vpgl_geo_camera.init_geo_camera ext txt img_name ni nj lvcs uninit utm_zone
        northing sx sy = some (true, cam) ∧
      cam.scale_tag_ = true ∧ cam.is_utm_ = false ∧
      cam.trans_matrix_.get 0 3
        = (if d = 'E' then txt.read_float lon - 1 / 2 / ((ni : K) - 1)
            else txt.read_float lon + 1 / 2 / ((ni : K) - 1)) ∧
      cam.trans_matrix_.get 0 0
        = (if d = 'E' then txt.read_float s2 / ((ni : K) - 1)
            else -txt.read_float s2 / ((ni : K) - 1)) ∧
      cam.trans_matrix_.get 1 1
        = (if h = 'N' then -txt.read_float s1 / ((nj : K) - 1)
            else txt.read_float s1 / ((nj : K) - 1)) ∧
      cam.trans_matrix_.get 1 3
        = (if h = 'N' then
            txt.to_float (txt.read_float lat + txt.read_float s1) + 1 / 2 / ((nj : K) - 1)
          else
            txt.to_float (txt.read_float lat - txt.read_float s1)
              - 1 / 2 / ((nj : K) - 1)) := by
  obtain ⟨f1, f2, f3, f4, f5, f6, f7, f8, f9⟩ := tile_name_fields pre h lat d lon s1 s2 suf hwf
  simp only [vpgl_geo_camera.init_geo_camera, hstrip, f1, f2, f3, f4, f5, f6, f7,
    f8, f9, Option.bind_eq_bind, Option.some_bind, Option.pure_def, bind_pure_comp,
    Option.map_some']
  obtain ⟨-, hh, hd, -⟩ := hwf
  refine ⟨_, rfl, ?_, ?_, ?_, ?_, ?_, ?_⟩
  · rw [(extract_pixel_size_fields _ _).2.2.2.2.2]; rfl
  · rw [(extract_pixel_size_fields _ _).2.2.1]; rfl
  all_goals
    rw [(extract_pixel_size_fields _ _).1]
    rcases hh with rfl | rfl <;> rcases hd with rfl | rfl <;>
      simp [vpgl_geo_camera.set_scale_format, vpgl_geo_camera.of_matrix, vnl_matrix.get,
        vnl_matrix.put]

theorem substr_after_find_total (s : List Char) (c : Char) (hlen : s.length < npos) (n : Nat) :
    std_string.substr s (size_add (std_string.find_first_of s c) 1) n
      = some ((s.drop (size_add (std_string.find_first_of s c) 1)).take n) := by
  unfold std_string.substr
  rw [if_neg]
  unfold std_string.find_first_of
  have hn : s.length < 2 ^ 64 - 1 := hlen
  by_cases hc : c ∈ s
  · rw [if_pos hc]
    have h1 : s.indexOf c < s.length := List.indexOf_lt_length.mpr hc
    rw [size_add_of_lt _ _ (by omega)]
    omega
  · rw [if_neg hc]
    have : size_add npos 1 = 0 := by
      simp [size_add, npos]
    rw [this]
    omega

theorem substr_zero_total (s : List Char) (n : Nat) :
    std_string.substr s 0 n = some (s.take n) := by
  simp [std_string.substr]

theorem length_take_drop_lt (s : List Char) (hlen : s.length < npos) (p n : Nat) :
    ((s.drop p).take n).length < npos := by
  have h1 : ((s.drop p).take n).length ≤ s.length := by
    simp only [List.length_take, List.length_drop]
    omega
  omega

theorem length_take_lt (s : List Char) (hlen : s.length < npos) (n : Nat) :
    (s.take n).length < npos := by
  have h1 : (s.take n).length ≤ s.length := by
    simp only [List.length_take]
    omega
  omega


theorem substr_after_find_some (s : List Char) (c : Char) (hlen : s.length < npos) :
    ∃ f : Nat → List Char, ∀ n,
      std_string.substr s (size_add (std_string.find_first_of s c) 1) n = some (f n) ∧
      (f n).length < npos :=
  ⟨fun n => (s.drop (size_add (std_string.find_first_of s c) 1)).take n,
    fun n => ⟨substr_after_find_total s c hlen n, length_take_drop_lt s hlen _ n⟩⟩

theorem substr_zero_some (s : List Char) (hlen : s.length < npos) :
    ∃ f : Nat → List Char, ∀ n,
      std_string.substr s 0 n = some (f n) ∧ (f n).length < npos :=
  ⟨fun n => s.take n, fun n => ⟨substr_zero_total s n, length_take_lt s hlen n⟩⟩

/-- No `substr` call of `init_geo_camera` throws, and the adapter returns `true`
with a camera, whatever the file name is. -/
theorem init_geo_camera_total (ext : vpgl_externals K) (txt : text_externals K)
    (img_name : List Char) (ni nj : Nat) (lvcs : Option (vpgl_lvcs K))
    (uninit : Nat → Nat → K) (utm_zone northing : Int) (sx sy : K)
    (hlen : (txt.strip_directory img_name).length < npos) :
    ∃ cam, vpgl_geo_camera.init_geo_camera ext txt img_name ni nj lvcs uninit utm_zone
      northing sx sy = some (true, cam) := by
  unfold vpgl_geo_camera.init_geo_camera
  obtain ⟨f1, hf1⟩ := substr_after_find_some _ '_' hlen
  simp only [Option.bind_eq_bind, (hf1 _).1, Option.some_bind]
  have hl1 := (hf1 (txt.strip_directory img_name).length).2
  generalize f1 (txt.strip_directory img_name).length = name at *
  obtain ⟨f2, hf2⟩ := substr_zero_some name hl1
  obtain ⟨f3, hf3⟩ := substr_after_find_some name '_' hl1
  simp only [(hf2 _).1, (hf3 _).1, Option.some_bind]
  have hl2 := (hf2 (std_string.find_first_of name '_')).2
  generalize f2 (std_string.find_first_of name '_') = n_coords at *
  have hl3 := (hf3 (size_sub (size_sub (std_string.find_last_of name '_')
    (std_string.find_first_of name '_')) 1)).2
  generalize f3 (size_sub (size_sub (std_string.find_last_of name '_')
    (std_string.find_first_of name '_')) 1) = n_scale at *
  generalize (if std_string.find n_coords 'N' < n_coords.length then 'N' else 'S')
    = hemisphere
  generalize (if std_string.find n_coords 'E' < n_coords.length then 'E' else 'W')
    = direction
  obtain ⟨f4, hf4⟩ := substr_after_find_some n_coords hemisphere hl2
  obtain ⟨f5, hf5⟩ := substr_after_find_some n_coords direction hl2
  obtain ⟨f6, hf6⟩ := substr_after_find_some n_scale 'S' hl3
  obtain ⟨f7, hf7⟩ := substr_after_find_some n_scale 'x' hl3
  simp only [(hf4 _).1, (hf5 _).1, (hf6 _).1, (hf7 _).1, Option.some_bind, Option.pure_def]
  exact ⟨_, rfl⟩

/-- No `substr` call of `init_geo_camera_from_filename` throws, and the adapter
returns `true` with a camera, whatever the file name is. -/
theorem from_filename_total (ext : vpgl_externals K) (txt : text_externals K)
    (img_name : List Char) (ni nj : Nat) (lvcs : Option (vpgl_lvcs K))
    (uninit : Nat → Nat → K) (utm_zone northing : Int) (sx sy : K)
    (hlen : (txt.strip_directory img_name).length < npos) :
    ∃ cam, vpgl_geo_camera.init_geo_camera_from_filename ext txt img_name ni nj lvcs uninit
      utm_zone northing sx sy = some (true, cam) := by
  unfold vpgl_geo_camera.init_geo_camera_from_filename
  obtain ⟨f1, hf1⟩ := substr_after_find_some _ '_' hlen
  simp only [Option.bind_eq_bind, (hf1 _).1, Option.some_bind]
  have hl1 := (hf1 (txt.strip_directory img_name).length).2
  generalize f1 (txt.strip_directory img_name).length = name at *
  obtain ⟨f2, hf2⟩ := substr_zero_some name hl1
  obtain ⟨f3, hf3⟩ := substr_after_find_some name '_' hl1
  simp only [(hf2 _).1, (hf3 _).1, Option.some_bind]
  have hl2 := (hf2 (std_string.find_first_of name '_')).2
  generalize f2 (std_string.find_first_of name '_') = n_coords at *
  have hl3 := (hf3 (size_sub (size_sub (std_string.find_last_of name '_')
    (std_string.find_first_of name '_')) 1)).2
  generalize f3 (size_sub (size_sub (std_string.find_last_of name '_')
    (std_string.find_first_of name '_')) 1) = n_scale at *
  generalize (if std_string.find n_coords 'N' < n_coords.length then 'N' else 'S')
    = hemisphere
  generalize (if std_string.find n_coords 'E' < n_coords.length then 'E' else 'W')
    = direction
  obtain ⟨f4, hf4⟩ := substr_after_find_some n_coords hemisphere hl2
  obtain ⟨f5, hf5⟩ := substr_after_find_some n_coords direction hl2
  obtain ⟨f6, hf6⟩ := substr_after_find_some n_scale 'S' hl3
  simp only [(hf4 _).1, (hf5 _).1, (hf6 _).1, Option.some_bind, Option.pure_def]
  exact ⟨_, rfl⟩

theorem read_decimal_sample_values :
    read_decimal_sample ['3', '5'] = 35 ∧ read_decimal_sample ['7', '3'] = 73 ∧
    read_decimal_sample ['0', '.', '6'] = 3 / 5 ∧ read_decimal_sample ['0', '.', '3'] = 3 / 10 ∧
    read_decimal_sample ['1'] = 1 ∧ read_decimal_sample ['2'] = 2 := by
  refine ⟨?_, ?_, ?_, ?_, ?_, ?_⟩
  all_goals simp [read_decimal_sample, List.takeWhile, List.dropWhile]
  all_goals norm_num

/-- The rounding `to_float` is symmetric: the rounding of `-x` is the negated
rounding of `x`. -/
theorem to_float_neg (txt : text_externals K) (x : K) :
    txt.to_float (-x) = -txt.to_float x := by
  unfold text_externals.to_float
  rcases lt_trichotomy x 0 with h | h | h
  · have h1 : ¬ (-x = 0) := by
      intro h0
      rw [neg_eq_zero] at h0
      exact absurd h0 h.ne
    have h2 : ¬ (-x < 0) := by
      rw [neg_lt_zero]
      exact not_lt.mpr h.le
    rw [if_neg h1, if_neg h2, if_neg h.ne, if_pos h, neg_neg]
  · subst h
    simp
  · have h1 : ¬ (-x = 0) := by
      intro h0
      rw [neg_eq_zero] at h0
      exact absurd h0 h.ne.symm
    have h2 : -x < 0 := neg_lt_zero.mpr h
    rw [if_neg h1, if_pos h2, if_neg h.ne.symm, if_neg (not_lt.mpr h.le), neg_neg]

theorem float_round_sample_values :
    float_round_sample 35 = 35 ∧ float_round_sample 73 = 73 ∧
    float_round_sample (3 / 5) = 5033165 / 8388608 ∧
    float_round_sample (3 / 10) = 5033165 / 16777216 ∧
    float_round_sample 1 = 1 ∧ float_round_sample 2 = 2 ∧
    float_round_sample (35 + 5033165 / 8388608) = 4666163 / 131072 := by
  refine ⟨?_, ?_, ?_, ?_, ?_, ?_, ?_⟩ <;> decide!

/-- The stand-in rounds as single precision does above `2 ^ 24`: `16777217` is not
a `float` and goes to `16777216`. -/
theorem float_round_sample_large : float_round_sample 16777217 = 16777216 := by decide!

theorem read_float_sample_values :
    read_float_sample ['3', '5'] = 35 ∧ read_float_sample ['7', '3'] = 73 ∧
    read_float_sample ['0', '.', '6'] = 5033165 / 8388608 ∧
    read_float_sample ['0', '.', '3'] = 5033165 / 16777216 ∧
    read_float_sample ['1'] = 1 ∧ read_float_sample ['2'] = 2 := by
  obtain ⟨d35, d73, d06, d03, d1, d2⟩ := read_decimal_sample_values
  obtain ⟨f35, f73, f06, f03, f1, f2, -⟩ := float_round_sample_values
  unfold read_float_sample
  rw [d35, d73, d06, d03, d1, d2, f35, f73, f06, f03, f1, f2]
  norm_num

theorem name_n35w73_sample_well_formed :
    tile_well_formed ['x', 'x', 'x'] 'N' ['3', '5'] 'W' ['7', '3'] ['0', '.', '6']
      ['0', '.', '6'] ['x', 'x', 'x', '.', 't', 'i', 'f'] := by
  simp [tile_well_formed, numeric_field, tile_name, tile_coords, tile_scale, npos]

theorem name_s1x2_sample_well_formed :
    tile_well_formed ['x', 'x', 'x'] 'N' ['3', '5'] 'W' ['7', '3'] ['1'] ['2']
      ['x', 'x', 'x', '.', 't', 'i', 'f'] := by
  simp [tile_well_formed, numeric_field, tile_name, tile_coords, tile_scale, npos]

theorem name_s35e73_sample_well_formed :
    tile_well_formed ['x', 'x', 'x'] 'S' ['3', '5'] 'E' ['7', '3'] ['0', '.', '6']
      ['0', '.', '3'] ['x', 'x', 'x', '.', 't', 'i', 'f'] := by
  simp [tile_well_formed, numeric_field, tile_name, tile_coords, tile_scale, npos]

/-- C15, as amended: for a file name `<pre>_N<lat>W<lon>_S<s1>x<s2>_<suf>` that
is well formed (no underscore in `pre` and in `suf`, fields of digits and dots)
and `ni, nj ≥ 2`, the camera built by `init_geo_camera_from_filename` maps the
pixel `(0, 0)` to `x = -lon - 0.5/(ni-1)` and `y = to_float(lat + s1) + 0.5/(nj-1)`,
where `lat`, `lon`, `s1` are the `float` values read from the fields and the sum
`lat + s1` is rounded to `float`: the half-unit correction moves the origin
outward, away from the tile.  When the sum `lat + s1` is a `float`,
`y = lat + s1 + 0.5/(nj-1)`. -/
theorem from_filename_origin (ext : vpgl_externals K) (txt : text_externals K)
    (utm : vpgl_utm K) (img_name pre lat lon s1 s2 suf : List Char) (ni nj : Nat)
    (lvcs : Option (vpgl_lvcs K)) (uninit : Nat → Nat → K) (utm_zone northing : Int)
    (sx sy : K)
    (hwf : tile_well_formed pre 'N' lat 'W' lon s1 s2 suf)
    (hstrip : txt.strip_directory img_name = tile_name pre 'N' lat 'W' lon s1 s2 suf)
    (_hni : 2 ≤ ni) (_hnj : 2 ≤ nj) :
    ∃ cam : vpgl_geo_camera K,
      vpgl_geo_camera.init_geo_camera_from_filename ext txt img_name ni nj lvcs uninit utm_zone
        northing sx sy = some (true, cam) ∧
      cam.img_to_global utm 0 0
        = (-txt.read_float lon - 1 / 2 / ((ni : K) - 1),
           txt.to_float (txt.read_float lat + txt.read_float s1) + 1 / 2 / ((nj : K) - 1)) ∧
      (txt.to_float (txt.read_float lat + txt.read_float s1)
          = txt.read_float lat + txt.read_float s1 →
        cam.img_to_global utm 0 0
          = (-txt.read_float lon - 1 / 2 / ((ni : K) - 1),
             txt.read_float lat + txt.read_float s1 + 1 / 2 / ((nj : K) - 1))) := by
  obtain ⟨cam, hres, hs, hu, h03, -, -, h13⟩ :=
    from_filename_tile ext txt img_name pre 'N' lat 'W' lon s1 s2 suf ni nj lvcs uninit
      utm_zone northing sx sy hwf hstrip
  have hval : cam.img_to_global utm 0 0
      = (-txt.read_float lon - 1 / 2 / ((ni : K) - 1),
         txt.to_float (txt.read_float lat + txt.read_float s1) + 1 / 2 / ((nj : K) - 1)) := by
    simp only [vpgl_geo_camera.img_to_global, hs, hu, h03, h13]
    simp
  refine ⟨cam, hres, hval, ?_⟩
  intro hexact
  rw [hval, hexact]

theorem to_float_sample_sum :
    txt_sample.to_float (35 + 5033165 / 8388608) = 4666163 / 131072 := by
  have hne : ¬ ((35 + 5033165 / 8388608 : ℚ) = 0) := by norm_num
  have hpos : ¬ ((35 + 5033165 / 8388608 : ℚ) < 0) := by norm_num
  unfold text_externals.to_float
  rw [if_neg hne, if_neg hpos]
  exact float_round_sample_values.2.2.2.2.2.2

/-- Witness of C15 as amended: the file name `xxx_N35W73_S0.6x0.6_xxx.tif` with
`ni = nj = 1001`.  The field `0.6` is read as the `float`
`5033165/8388608 = 0.60000002384185791015625`, the sum with `35` is rounded to the
`float` `4666163/131072 = 35.59999847412109375`, and the pixel `(0, 0)` is mapped
to `(-73.0005, 35.60049847412109375)`. -/
theorem from_filename_origin_witness :
    tile_well_formed ['x', 'x', 'x'] 'N' ['3', '5'] 'W' ['7', '3'] ['0', '.', '6']
      ['0', '.', '6'] ['x', 'x', 'x', '.', 't', 'i', 'f'] ∧
    txt_sample.strip_directory name_n35w73_sample = name_n35w73_sample ∧
    2 ≤ 1001 ∧
    txt_sample.read_float ['3', '5'] = 35 ∧ txt_sample.read_float ['7', '3'] = 73 ∧
    txt_sample.read_float ['0', '.', '6'] = 5033165 / 8388608 ∧
    txt_sample.to_float (35 + 5033165 / 8388608) = 4666163 / 131072 ∧
    ∃ cam : vpgl_geo_camera ℚ,
      vpgl_geo_camera.init_geo_camera_from_filename ext_sample txt_sample name_n35w73_sample
        1001 1001 none uninit_sample 0 0 0 0 = some (true, cam) ∧
      cam.img_to_global utm_sample 0 0
        = (-73 - 1 / 2 / 1000, 4666163 / 131072 + 1 / 2 / 1000) := by
  obtain ⟨cam, hres, hval, -⟩ :=
    from_filename_origin ext_sample txt_sample utm_sample name_n35w73_sample _ _ _ _ _ _
      1001 1001 none uninit_sample 0 0 0 0 name_n35w73_sample_well_formed rfl
      (by norm_num) (by norm_num)
  obtain ⟨r35, r73, r06, -, -, -⟩ := read_float_sample_values
  have hrd : txt_sample.read_float = read_float_sample := rfl
  refine ⟨name_n35w73_sample_well_formed, rfl, by norm_num, ?_, ?_, ?_, to_float_sample_sum,
    cam, hres, ?_⟩
  · rw [hrd, r35]
  · rw [hrd, r73]
  · rw [hrd, r06]
  · rw [hval, hrd, r35, r73, r06, to_float_sample_sum]
    norm_num

/-- C15, counterexample: from the file name `xxx_N35W73_S0.6x0.6_xxx.tif` with
`ni = nj = 1001` the adapter builds a camera that maps the pixel `(0, 0)` to
`(-73 - 0.5/1000, 35.59999847412109375 + 0.5/1000)`, on the outer side of the
corner in both axes, not to `(-73 + 0.5/1000, 35.6 - 0.5/1000)`. -/
theorem from_filename_origin_outward :
    (vpgl_geo_camera.init_geo_camera_from_filename ext_sample txt_sample name_n35w73_sample
        1001 1001 none uninit_sample 0 0 0 0).map
      (fun r => (r.1, r.2.img_to_global utm_sample 0 0))
      = some (true, (-73 - 1 / 2 / 1000, 4666163 / 131072 + 1 / 2 / 1000)) ∧
    (-73 - 1 / 2 / 1000 : ℚ) < -73 ∧ (-73 : ℚ) < -73 + 1 / 2 / 1000 ∧
    (35 + 3 / 5 - 1 / 2 / 1000 : ℚ) < 35 + 3 / 5 ∧
    (35 + 3 / 5 : ℚ) < 4666163 / 131072 + 1 / 2 / 1000 ∧
    ((-73 - 1 / 2 / 1000 : ℚ), (4666163 / 131072 + 1 / 2 / 1000 : ℚ))
      ≠ (-73 + 1 / 2 / 1000, 35 + 3 / 5 - 1 / 2 / 1000) := by
  obtain ⟨cam, hres, hs, hu, h03, -, -, h13⟩ :=
    from_filename_tile ext_sample txt_sample name_n35w73_sample _ _ _ _ _ _ _ _ 1001 1001 none
      uninit_sample 0 0 0 0 name_n35w73_sample_well_formed rfl
  obtain ⟨r35, r73, r06, -, -, -⟩ := read_float_sample_values
  have hrd : txt_sample.read_float = read_float_sample := rfl
  refine ⟨?_, by norm_num, by norm_num, by norm_num, by norm_num, ?_⟩
  · rw [hres]
    have hNS : ¬ ('N' = 'S') := by decide
    simp only [Option.map_some', vpgl_geo_camera.img_to_global, hs, hu, h03, h13, hrd, r35,
      r73, r06, if_neg hNS, to_float_sample_sum]
    norm_num
  · intro h
    have h2 := congrArg Prod.fst h
    norm_num at h2

/-- C16, as amended: for a well formed file name and `ni, nj ≥ 2`, at every
pixel `(i, j)` the `y` of the global-convention camera is the `y` of the
native-convention camera, negated when the hemisphere is `S`; the `x` of the
global-convention camera is the `x` of the native-convention camera, negated
when the direction is `W`, provided the two scales of the file name are equal
(the global-convention adapter reads only the first scale and uses it for both
axes). -/
theorem filename_adapters_sign (ext : vpgl_externals K) (txt : text_externals K)
    (utm : vpgl_utm K) (img_name pre : List Char) (h : Char) (lat : List Char) (d : Char)
    (lon s1 s2 suf : List Char) (ni nj : Nat) (lvcs : Option (vpgl_lvcs K))
    (uninit : Nat → Nat → K) (utm_zone northing : Int) (sx sy : K)
    (hwf : tile_well_formed pre h lat d lon s1 s2 suf)
    (hstrip : txt.strip_directory img_name = tile_name pre h lat d lon s1 s2 suf)
    (_hni : 2 ≤ ni) (_hnj : 2 ≤ nj) (i j : K) :
    ∃ cam_g cam_n : vpgl_geo_camera K,
      vpgl_geo_camera.init_geo_camera_from_filename ext txt img_name ni nj lvcs uninit utm_zone
        northing sx sy = some (true, cam_g) ∧
      vpgl_geo_camera.init_geo_camera ext txt img_name ni nj lvcs uninit utm_zone
        northing sx sy = some (true, cam_n) ∧
      (cam_g.img_to_global utm i j).2
        = (if h = 'S' then -(cam_n.img_to_global utm i j).2
            else (cam_n.img_to_global utm i j).2) ∧
      (txt.read_float s1 = txt.read_float s2 →
        (cam_g.img_to_global utm i j).1
          = (if d = 'W' then -(cam_n.img_to_global utm i j).1
              else (cam_n.img_to_global utm i j).1)) := by
  obtain ⟨cg, hg, gs, gu, g03, g00, g11, g13⟩ :=
    from_filename_tile ext txt img_name pre h lat d lon s1 s2 suf ni nj lvcs uninit
      utm_zone northing sx sy hwf hstrip
  obtain ⟨cn, hn, ns, nu, n03, n00, n11, n13⟩ :=
    init_geo_camera_tile ext txt img_name pre h lat d lon s1 s2 suf ni nj lvcs uninit
      utm_zone northing sx sy hwf hstrip
  obtain ⟨-, hh, hd, -⟩ := hwf
  have hSN : ¬ ('S' = 'N') := by decide
  have hNS : ¬ ('N' = 'S') := by decide
  have hWE : ¬ ('W' = 'E') := by decide
  have hEW : ¬ ('E' = 'W') := by decide
  refine ⟨cg, cn, hg, hn, ?_, ?_⟩
  · simp only [vpgl_geo_camera.img_to_global, gs, gu, ns, nu, g13, g11, n13, n11]
    rcases hh with rfl | rfl
    · simp only [if_neg hNS, if_true, Bool.false_eq_true, if_false]
    · have hfl : txt.to_float (-txt.read_float lat + txt.read_float s1)
          = -txt.to_float (txt.read_float lat - txt.read_float s1) := by
        rw [← to_float_neg, neg_sub, neg_add_eq_sub]
      simp only [if_neg hSN, if_true, Bool.false_eq_true, if_false, hfl]
      ring
  · intro hsc
    simp only [vpgl_geo_camera.img_to_global, gs, gu, ns, nu, g03, g00, n03, n00, hsc]
    rcases hd with rfl | rfl
    · simp only [if_neg hEW, if_true, Bool.false_eq_true, if_false]
    · simp only [if_neg hWE, if_true, Bool.false_eq_true, if_false]
      ring

/-- Witness of C16 as amended: the file name `xxx_S35E73_S0.6x0.3_xxx.tif`
(southern hemisphere, two different scales) with `ni = nj = 1001` at the pixel
`(4, 9)`. -/
theorem filename_adapters_sign_witness :
    tile_well_formed ['x', 'x', 'x'] 'S' ['3', '5'] 'E' ['7', '3'] ['0', '.', '6']
      ['0', '.', '3'] ['x', 'x', 'x', '.', 't', 'i', 'f'] ∧
    txt_sample.strip_directory name_s35e73_sample = name_s35e73_sample ∧
    2 ≤ 1001 ∧
    ∃ cam_g cam_n : vpgl_geo_camera ℚ,
      vpgl_geo_camera.init_geo_camera_from_filename ext_sample txt_sample name_s35e73_sample
        1001 1001 none (fun _ _ => 0) 0 0 0 0 = some (true, cam_g) ∧
      vpgl_geo_camera.init_geo_camera ext_sample txt_sample name_s35e73_sample
        1001 1001 none (fun _ _ => 0) 0 0 0 0 = some (true, cam_n) ∧
      (cam_g.img_to_global utm_sample 4 9).2
        = (if 'S' = 'S' then -(cam_n.img_to_global utm_sample 4 9).2
            else (cam_n.img_to_global utm_sample 4 9).2) ∧
      (txt_sample.read_float ['0', '.', '6'] = txt_sample.read_float ['0', '.', '3'] →
        (cam_g.img_to_global utm_sample 4 9).1
          = (if 'E' = 'W' then -(cam_n.img_to_global utm_sample 4 9).1
              else (cam_n.img_to_global utm_sample 4 9).1)) :=
  ⟨name_s35e73_sample_well_formed, rfl, by norm_num,
    filename_adapters_sign ext_sample txt_sample utm_sample name_s35e73_sample _ _ _ _ _ _ _ _
      1001 1001 none (fun _ _ => 0) 0 0 0 0 name_s35e73_sample_well_formed rfl
      (by norm_num) (by norm_num) 4 9⟩

/-- C16, counterexample: for the file name `xxx_N35W73_S1x2_xxx.tif` (direction
`W`, scales 1 and 2) with `ni = nj = 2`, the pixel `(1, 0)` has `x = -145/2` in
the global-convention camera and `x = 143/2` in the native-convention camera:
the first is not the second negated. -/
theorem filename_adapters_scale_mismatch :
    (vpgl_geo_camera.init_geo_camera_from_filename ext_sample txt_sample name_s1x2_sample
        2 2 none (fun _ _ => 0) 0 0 0 0).map (fun r => (r.2.img_to_global utm_sample 1 0).1)
      = some (-145 / 2) ∧
    (vpgl_geo_camera.init_geo_camera ext_sample txt_sample name_s1x2_sample
        2 2 none (fun _ _ => 0) 0 0 0 0).map (fun r => (r.2.img_to_global utm_sample 1 0).1)
      = some (143 / 2) ∧
    (-145 / 2 : ℚ) ≠ -(143 / 2) := by
  obtain ⟨cg, hg, gs, gu, g03, g00, -, -⟩ :=
    from_filename_tile ext_sample txt_sample name_s1x2_sample _ _ _ _ _ _ _ _ 2 2 none
      (fun _ _ => 0) 0 0 0 0 name_s1x2_sample_well_formed rfl
  obtain ⟨cn, hn, ns, nu, n03, n00, -, -⟩ :=
    init_geo_camera_tile ext_sample txt_sample name_s1x2_sample _ _ _ _ _ _ _ _ 2 2 none
      (fun _ _ => 0) 0 0 0 0 name_s1x2_sample_well_formed rfl
  obtain ⟨-, r73, -, -, r1, r2⟩ := read_float_sample_values
  have hrd : txt_sample.read_float = read_float_sample := rfl
  have hWE : ¬ ('W' = 'E') := by decide
  refine ⟨?_, ?_, by norm_num⟩
  · rw [hg]
    simp only [Option.map_some', vpgl_geo_camera.img_to_global, gs, gu, g03, g00, hrd, r73, r1]
    norm_num
  · rw [hn]
    simp only [Option.map_some', vpgl_geo_camera.img_to_global, ns, nu, n03, n00, hrd, r73, r2,
      if_neg hWE]
    norm_num

/-- The malformed file name `xxx_3573_0.6_xxx.tif`: no hemisphere or direction
letter and no `S` or `x` marker. -/
theorem name_malformed_sample_length :
    (txt_sample.strip_directory
      ['x', 'x', 'x', '_', '3', '5', '7', '3', '_', '0', '.', '6', '_', 'x', 'x', 'x', '.',
        't', 'i', 'f']).length < npos := by
  simp [txt_sample, npos]

/-- C17, as amended: for every file name, malformed or not, both filename
adapters return `true` and produce a camera; neither reports a format error. -/
theorem filename_adapters_never_fail (ext : vpgl_externals K) (txt : text_externals K)
    (img_name : List Char) (ni nj : Nat) (lvcs : Option (vpgl_lvcs K))
    (uninit : Nat → Nat → K) (utm_zone northing : Int) (sx sy : K)
    (hlen : (txt.strip_directory img_name).length < npos) :
    (∃ cam, vpgl_geo_camera.init_geo_camera ext txt img_name ni nj lvcs uninit utm_zone
      northing sx sy = some (true, cam)) ∧
    (∃ cam, vpgl_geo_camera.init_geo_camera_from_filename ext txt img_name ni nj lvcs uninit
      utm_zone northing sx sy = some (true, cam)) :=
  ⟨init_geo_camera_total ext txt img_name ni nj lvcs uninit utm_zone northing sx sy hlen,
    from_filename_total ext txt img_name ni nj lvcs uninit utm_zone northing sx sy hlen⟩

/-- Witness of C17 as amended: the file name `abc`, which has no token at all. -/
theorem filename_adapters_never_fail_witness :
    (txt_sample.strip_directory ['a', 'b', 'c']).length < npos ∧
    (∃ cam, vpgl_geo_camera.init_geo_camera ext_sample txt_sample ['a', 'b', 'c'] 2 2 none
      (fun _ _ => 0) 0 0 0 0 = some (true, cam)) ∧
    (∃ cam, vpgl_geo_camera.init_geo_camera_from_filename ext_sample txt_sample ['a', 'b', 'c']
      2 2 none (fun _ _ => 0) 0 0 0 0 = some (true, cam)) :=
  have hlen : (txt_sample.strip_directory ['a', 'b', 'c']).length < npos := by
    simp [txt_sample, npos]
  ⟨hlen, filename_adapters_never_fail ext_sample txt_sample ['a', 'b', 'c'] 2 2 none
    (fun _ _ => 0) 0 0 0 0 hlen⟩

/-- C17, counterexample: the file name `xxx_3573_0.6_xxx.tif`, whose coordinate
token has no `N`, `S`, `E` or `W` and whose scale token has no `S` and no `x`,
is accepted by both filename adapters: each returns `true` with a camera. -/
theorem filename_adapters_accept_malformed :
    (vpgl_geo_camera.init_geo_camera ext_sample txt_sample
        ['x', 'x', 'x', '_', '3', '5', '7', '3', '_', '0', '.', '6', '_', 'x', 'x', 'x', '.',
          't', 'i', 'f'] 1001 1001 none (fun _ _ => 0) 0 0 0 0).map Prod.fst = some true ∧
    (vpgl_geo_camera.init_geo_camera_from_filename ext_sample txt_sample
        ['x', 'x', 'x', '_', '3', '5', '7', '3', '_', '0', '.', '6', '_', 'x', 'x', 'x', '.',
          't', 'i', 'f'] 1001 1001 none (fun _ _ => 0) 0 0 0 0).map Prod.fst = some true := by
  obtain ⟨c1, h1⟩ := init_geo_camera_total ext_sample txt_sample _ 1001 1001 none
    (fun _ _ => 0) 0 0 0 0 name_malformed_sample_length
  obtain ⟨c2, h2⟩ := from_filename_total ext_sample txt_sample _ 1001 1001 none
    (fun _ _ => 0) 0 0 0 0 name_malformed_sample_length
  rw [h1, h2]
  exact ⟨rfl, rfl⟩

/-! ## The world-file adapter -/

/-- The matrix that the world-file adapter builds from six numbers. -/
theorem init_geo_camera_tfw_six (ext : vpgl_externals K) (lvcs : Option (vpgl_lvcs K))
    (utm_zone : Int) (northing : Nat) (camera : Option (vpgl_geo_camera K))
    (utm_zone0 northing0 : Int) (sx sy : K) (a b c d e f : K) (more : List (Option K)) :
    ∃ cam : vpgl_geo_camera K,
      vpgl_geo_camera.init_geo_camera_tfw ext
        (some (some a :: some b :: some c :: some d :: some e :: some f :: more))
        lvcs utm_zone northing camera utm_zone0 northing0 sx sy = (true, some cam) ∧
      cam.trans_matrix_.rows = 4 ∧ cam.trans_matrix_.cols = 4 ∧
      (∀ r c1 : Fin 4, cam.trans_matrix_.get r.val c1.val
        = !![a, b, 0, e; c, d, 0, f; 0, 0, 0, 0; 0, 0, 0, 1] r c1) ∧
      cam.scale_tag_ = true ∧ (cam.is_utm_ = true ↔ utm_zone ≠ 0) ∧
      (utm_zone ≠ 0 → cam.utm_zone_ = utm_zone ∧ cam.northing_ = (northing : Int)) := by
  refine ⟨_, rfl, ?_, ?_, ?_, ?_, ?_, ?_⟩
  · rw [(extract_pixel_size_fields _ _).1]
    by_cases hz : utm_zone = 0 <;> simp [hz] <;> rfl
  · rw [(extract_pixel_size_fields _ _).1]
    by_cases hz : utm_zone = 0 <;> simp [hz] <;> rfl
  · intro r c1
    rw [(extract_pixel_size_fields _ _).1]
    by_cases hz : utm_zone = 0 <;>
      fin_cases r <;> fin_cases c1 <;>
      simp [hz, vpgl_geo_camera.set_scale_format, vpgl_geo_camera.set_utm,
        vpgl_geo_camera.of_matrix, ifstream.extract, vnl_matrix.get, vnl_matrix.put,
        vnl_matrix.filled, Matrix.vecHead, Matrix.vecTail]
  · rw [(extract_pixel_size_fields _ _).2.2.2.2.2]
    rfl
  · rw [(extract_pixel_size_fields _ _).2.2.1]
    by_cases hz : utm_zone = 0 <;>
      simp [hz, vpgl_geo_camera.set_scale_format, vpgl_geo_camera.set_utm,
        vpgl_geo_camera.of_matrix]
  · intro hz
    rw [(extract_pixel_size_fields _ _).2.2.2.1, (extract_pixel_size_fields _ _).2.2.2.2.1]
    simp [hz, vpgl_geo_camera.set_scale_format, vpgl_geo_camera.set_utm]

/-- C18: the world-file adapter returns `false` and leaves `camera` as it was
when the file cannot be opened.  When the file opens and holds six numbers
`a b c d e f` (possibly followed by more), it returns `true` with a camera whose
matrix is 4x4 with rows `(a, b, 0, e)`, `(c, d, 0, f)`, `(0, 0, 0, 0)`,
`(0, 0, 0, 1)`, with `scale_tag_ = true`, and with `is_utm_ = true` exactly when
`utm_zone ≠ 0`, in which case it carries the given zone and hemisphere flag. -/
theorem init_geo_camera_tfw_post (ext : vpgl_externals K) (lvcs : Option (vpgl_lvcs K))
    (utm_zone : Int) (northing : Nat) (camera : Option (vpgl_geo_camera K))
    (utm_zone0 northing0 : Int) (sx sy : K) (a b c d e f : K) (more : List (Option K)) :
    vpgl_geo_camera.init_geo_camera_tfw ext none lvcs utm_zone northing camera utm_zone0
      northing0 sx sy = (false, camera) ∧
    ∃ cam : vpgl_geo_camera K,
      vpgl_geo_camera.init_geo_camera_tfw ext
        (some (some a :: some b :: some c :: some d :: some e :: some f :: more))
        lvcs utm_zone northing camera utm_zone0 northing0 sx sy = (true, some cam) ∧
      cam.trans_matrix_.rows = 4 ∧ cam.trans_matrix_.cols = 4 ∧
      (∀ r c1 : Fin 4, cam.trans_matrix_.get r.val c1.val
        = !![a, b, 0, e; c, d, 0, f; 0, 0, 0, 0; 0, 0, 0, 1] r c1) ∧
      cam.scale_tag_ = true ∧ (cam.is_utm_ = true ↔ utm_zone ≠ 0) ∧
      (utm_zone ≠ 0 → cam.utm_zone_ = utm_zone ∧ cam.northing_ = (northing : Int)) :=
  ⟨rfl, init_geo_camera_tfw_six ext lvcs utm_zone northing camera utm_zone0 northing0 sx sy
    a b c d e f more⟩

/-- C19, as amended: for a camera with `scale_tag_ = true` and zero rotation
terms, reading with the world-file adapter the six values that `save_as_tfw`
writes gives a camera whose matrix has rows `(T00, 0, 0, T03)`, `(0, T11, 0, T13)`,
`(0, 0, 0, 0)`, `(0, 0, 0, 1)`: the six written entries are reproduced, and the
matrix equals the original entry for entry exactly when the original has
`T[3][3] = 1` and `0` in every entry that is not written, `T[2][2]` included. -/
theorem tfw_round_trip (ext : vpgl_externals K) (cam : vpgl_geo_camera K)
    (lvcs : Option (vpgl_lvcs K)) (utm_zone : Int) (northing : Nat)
    (camera : Option (vpgl_geo_camera K)) (utm_zone0 northing0 : Int) (sx sy : K)
    (_hs : cam.scale_tag_ = true)
    (h01 : cam.trans_matrix_.get 0 1 = 0) (h10 : cam.trans_matrix_.get 1 0 = 0) :
    ∃ cam1 : vpgl_geo_camera K,
      vpgl_geo_camera.init_geo_camera_tfw ext (some (cam.save_as_tfw.map some))
        lvcs utm_zone northing camera utm_zone0 northing0 sx sy = (true, some cam1) ∧
      (∀ r c : Fin 4, cam1.trans_matrix_.get r.val c.val
        = !![cam.trans_matrix_.get 0 0, 0, 0, cam.trans_matrix_.get 0 3;
             0, cam.trans_matrix_.get 1 1, 0, cam.trans_matrix_.get 1 3;
             0, 0, 0, 0;
             0, 0, 0, 1] r c) ∧
      ((∀ r c : Fin 4, cam1.trans_matrix_.get r.val c.val = cam.trans_matrix_.get r.val c.val) ↔
        (cam.trans_matrix_.get 0 2 = 0 ∧ cam.trans_matrix_.get 1 2 = 0 ∧
         cam.trans_matrix_.get 2 0 = 0 ∧ cam.trans_matrix_.get 2 1 = 0 ∧
         cam.trans_matrix_.get 2 2 = 0 ∧ cam.trans_matrix_.get 2 3 = 0 ∧
         cam.trans_matrix_.get 3 0 = 0 ∧ cam.trans_matrix_.get 3 1 = 0 ∧
         cam.trans_matrix_.get 3 2 = 0 ∧ cam.trans_matrix_.get 3 3 = 1)) := by
  obtain ⟨cam1, hres, -, -, hent, -⟩ :=
    init_geo_camera_tfw_six ext lvcs utm_zone northing camera utm_zone0 northing0 sx sy
      (cam.trans_matrix_.get 0 0) (cam.trans_matrix_.get 0 1) (cam.trans_matrix_.get 1 0)
      (cam.trans_matrix_.get 1 1) (cam.trans_matrix_.get 0 3) (cam.trans_matrix_.get 1 3) []
  refine ⟨cam1, hres, ?_, ?_⟩
  · intro r c
    rw [hent r c, h01, h10]
  · constructor
    · intro hall
      have e := fun r c => (hall r c).symm.trans (hent r c)
      refine ⟨?_, ?_, ?_, ?_, ?_, ?_, ?_, ?_, ?_, ?_⟩
      · simpa using e 0 2
      · simpa using e 1 2
      · simpa using e 2 0
      · simpa using e 2 1
      · simpa using e 2 2
      · simpa using e 2 3
      · simpa using e 3 0
      · simpa using e 3 1
      · simpa using e 3 2
      · simpa using e 3 3
    · rintro ⟨h02, h12, h20, h21, h22, h23, h30, h31, h32, h33⟩ r c
      rw [hent r c]
      fin_cases r <;> fin_cases c <;> simp [*, Matrix.vecHead, Matrix.vecTail]

theorem cam_gt_norot_sample_fields :
    cam_gt_norot_sample.scale_tag_ = true ∧
    cam_gt_norot_sample.trans_matrix_.get 0 1 = 0 ∧
    cam_gt_norot_sample.trans_matrix_.get 1 0 = 0 ∧
    cam_gt_norot_sample.trans_matrix_.get 2 2 = 1 := by
  unfold cam_gt_norot_sample vpgl_geo_camera.load_from_geotransform
  simp only [(extract_pixel_size_fields _ _).1, (extract_pixel_size_fields _ _).2.2.2.2.2,
    vpgl_geo_camera.set_lvcs]
  have g2 : gt_norot_sample 2 = 0 := rfl
  have g4 : gt_norot_sample 4 = 0 := rfl
  simp [g2, g4, vnl_matrix.get, vnl_matrix.put, vnl_matrix.fill, vnl_matrix.fill_diagonal,
    vnl_matrix.filled]

/-- Witness of C19 as amended, on the camera that `load_from_geotransform` builds
from the geotransform `(10, 2, 0, 20, 0, -7)`. -/
theorem tfw_round_trip_witness :
    cam_gt_norot_sample.scale_tag_ = true ∧
    cam_gt_norot_sample.trans_matrix_.get 0 1 = 0 ∧
    cam_gt_norot_sample.trans_matrix_.get 1 0 = 0 ∧
    ∃ cam1 : vpgl_geo_camera ℚ,
      vpgl_geo_camera.init_geo_camera_tfw ext_sample
        (some (cam_gt_norot_sample.save_as_tfw.map some)) none 0 0 none 0 0 0 0
        = (true, some cam1) ∧
      (∀ r c : Fin 4, cam1.trans_matrix_.get r.val c.val
        = !![cam_gt_norot_sample.trans_matrix_.get 0 0, 0, 0,
               cam_gt_norot_sample.trans_matrix_.get 0 3;
             0, cam_gt_norot_sample.trans_matrix_.get 1 1, 0,
               cam_gt_norot_sample.trans_matrix_.get 1 3;
             0, 0, 0, 0;
             0, 0, 0, 1] r c) ∧
      ((∀ r c : Fin 4, cam1.trans_matrix_.get r.val c.val
          = cam_gt_norot_sample.trans_matrix_.get r.val c.val) ↔
        (cam_gt_norot_sample.trans_matrix_.get 0 2 = 0 ∧
         cam_gt_norot_sample.trans_matrix_.get 1 2 = 0 ∧
         cam_gt_norot_sample.trans_matrix_.get 2 0 = 0 ∧
         cam_gt_norot_sample.trans_matrix_.get 2 1 = 0 ∧
         cam_gt_norot_sample.trans_matrix_.get 2 2 = 0 ∧
         cam_gt_norot_sample.trans_matrix_.get 2 3 = 0 ∧
         cam_gt_norot_sample.trans_matrix_.get 3 0 = 0 ∧
         cam_gt_norot_sample.trans_matrix_.get 3 1 = 0 ∧
         cam_gt_norot_sample.trans_matrix_.get 3 2 = 0 ∧
         cam_gt_norot_sample.trans_matrix_.get 3 3 = 1)) :=
  ⟨cam_gt_norot_sample_fields.1, cam_gt_norot_sample_fields.2.1,
    cam_gt_norot_sample_fields.2.2.1,
    tfw_round_trip ext_sample cam_gt_norot_sample none 0 0 none 0 0 0 0
      cam_gt_norot_sample_fields.1 cam_gt_norot_sample_fields.2.1
      cam_gt_norot_sample_fields.2.2.1⟩

/-- C19, counterexample: the camera that `load_from_geotransform` builds from the
geotransform `(10, 2, 0, 20, 0, -7)` has `scale_tag_ = true`, zero rotation terms
and `T[2][2] = 1`; the camera read back from what `save_as_tfw` writes has
`T[2][2] = 0`. -/
theorem tfw_round_trip_loses_diagonal :
    cam_gt_norot_sample.scale_tag_ = true ∧
    cam_gt_norot_sample.trans_matrix_.get 0 1 = 0 ∧
    cam_gt_norot_sample.trans_matrix_.get 1 0 = 0 ∧
    cam_gt_norot_sample.trans_matrix_.get 2 2 = 1 ∧
    (vpgl_geo_camera.init_geo_camera_tfw ext_sample
        (some (cam_gt_norot_sample.save_as_tfw.map some)) none 0 0 none 0 0 0 0).2.map
      (fun c => c.trans_matrix_.get 2 2) = some 0 := by
  obtain ⟨hs, h01, h10, h22⟩ := cam_gt_norot_sample_fields
  refine ⟨hs, h01, h10, h22, ?_⟩
  obtain ⟨cam1, hres, -, -, hent, -⟩ :=
    init_geo_camera_tfw_six ext_sample none 0 0 none 0 0 0 0
      (cam_gt_norot_sample.trans_matrix_.get 0 0) (cam_gt_norot_sample.trans_matrix_.get 0 1)
      (cam_gt_norot_sample.trans_matrix_.get 1 0) (cam_gt_norot_sample.trans_matrix_.get 1 1)
      (cam_gt_norot_sample.trans_matrix_.get 0 3) (cam_gt_norot_sample.trans_matrix_.get 1 3) []
  have hres1 : vpgl_geo_camera.init_geo_camera_tfw ext_sample
      (some (cam_gt_norot_sample.save_as_tfw.map some)) none 0 0 none 0 0 0 0
      = (true, some cam1) := hres
  rw [hres1]
  have h := hent 2 2
  simp only [Option.map_some']
  simpa using h

/-- C20, as amended: for every world file that can be opened, whatever its
content is, the world-file adapter returns `true` and produces a camera with a
4x4 matrix and `scale_tag_ = true`; it reports no format error. -/
theorem tfw_content_unchecked (ext : vpgl_externals K) (content : List (Option K))
    (lvcs : Option (vpgl_lvcs K)) (utm_zone : Int) (northing : Nat)
    (camera : Option (vpgl_geo_camera K)) (utm_zone0 northing0 : Int) (sx sy : K) :
    ∃ cam : vpgl_geo_camera K,
      vpgl_geo_camera.init_geo_camera_tfw ext (some content) lvcs utm_zone northing camera
        utm_zone0 northing0 sx sy = (true, some cam) ∧
      cam.trans_matrix_.rows = 4 ∧ cam.trans_matrix_.cols = 4 ∧ cam.scale_tag_ = true := by
  refine ⟨_, rfl, ?_, ?_, ?_⟩
  · rw [(extract_pixel_size_fields _ _).1]
    by_cases hz : utm_zone = 0 <;> simp [hz] <;> rfl
  · rw [(extract_pixel_size_fields _ _).1]
    by_cases hz : utm_zone = 0 <;> simp [hz] <;> rfl
  · rw [(extract_pixel_size_fields _ _).2.2.2.2.2]
    rfl

/-- C20, counterexample: a world file whose second token is not a number (one
number, then text, then a number) and an empty world file are both accepted:
the adapter returns `true` with a camera whose six entries are `(1, 0, 0, 0, 0, 0)`
and `(0, 0, 0, 0, 0, 0)`. -/
theorem tfw_corrupt_accepted :
    (vpgl_geo_camera.init_geo_camera_tfw ext_sample (some [some 1, none, some 5]) none 0 0
      none 0 0 0 0).1 = true ∧
    (vpgl_geo_camera.init_geo_camera_tfw ext_sample (some [some 1, none, some 5]) none 0 0
      none 0 0 0 0).2.map
        (fun c => c.save_as_tfw) = some [1, 0, 0, 0, 0, 0] ∧
    (vpgl_geo_camera.init_geo_camera_tfw ext_sample (some []) none 0 0 none 0 0 0 0).1 = true ∧
    (vpgl_geo_camera.init_geo_camera_tfw ext_sample (some []) none 0 0 none 0 0 0 0).2.map
        (fun c => c.save_as_tfw) = some [0, 0, 0, 0, 0, 0] := by
  refine ⟨rfl, ?_, rfl, ?_⟩
  · simp only [vpgl_geo_camera.init_geo_camera_tfw, Option.map_some',
      vpgl_geo_camera.save_as_tfw, (extract_pixel_size_fields _ _).1]
    simp [vpgl_geo_camera.set_scale_format, vpgl_geo_camera.of_matrix, ifstream.extract,
      vnl_matrix.get, vnl_matrix.put, vnl_matrix.filled]
  · simp only [vpgl_geo_camera.init_geo_camera_tfw, Option.map_some',
      vpgl_geo_camera.save_as_tfw, (extract_pixel_size_fields _ _).1]
    simp [vpgl_geo_camera.set_scale_format, vpgl_geo_camera.of_matrix, ifstream.extract,
      vnl_matrix.get, vnl_matrix.put, vnl_matrix.filled]

/-! ## Pixel spacing -/

/-- C25: on a camera with `is_utm_ = true` and `scale_tag_ = true`,
`extract_pixel_size` sets `sx_ = T[0][0]` and `sy_ = |T[1][1]|`; the same values
result with any other context `lvcs1` (or none) and any other collaborators
`ext1` (UTM converter, square root, context constructor).  In particular
`T[0][0] = 0.6` and `T[1][1] = -0.6` give `sx_ = 0.6` and `sy_ = 0.6`. -/
theorem extract_pixel_size_closed_form (ext ext1 : vpgl_externals K) (cam : vpgl_geo_camera K)
    (lvcs1 : Option (vpgl_lvcs K)) (hu : cam.is_utm_ = true) (hs : cam.scale_tag_ = true) :
    (cam.extract_pixel_size ext).sx_ = cam.trans_matrix_.get 0 0 ∧
    (cam.extract_pixel_size ext).sy_ = |cam.trans_matrix_.get 1 1| ∧
    (vpgl_geo_camera.extract_pixel_size ext1 { cam with lvcs_ := lvcs1 }).sx_
      = (cam.extract_pixel_size ext).sx_ ∧
    (vpgl_geo_camera.extract_pixel_size ext1 { cam with lvcs_ := lvcs1 }).sy_
      = (cam.extract_pixel_size ext).sy_ ∧
    (cam.trans_matrix_.get 0 0 = 3 / 5 → cam.trans_matrix_.get 1 1 = -(3 / 5) →
      (cam.extract_pixel_size ext).sx_ = 3 / 5 ∧ (cam.extract_pixel_size ext).sy_ = 3 / 5) := by
  have h1 : (cam.extract_pixel_size ext).sx_ = cam.trans_matrix_.get 0 0 := by
    simp [vpgl_geo_camera.extract_pixel_size, hu, hs]
  have h2 : (cam.extract_pixel_size ext).sy_ = |cam.trans_matrix_.get 1 1| := by
    simp [vpgl_geo_camera.extract_pixel_size, hu, hs]
  refine ⟨h1, h2, ?_, ?_, ?_⟩
  · rw [h1]
    simp [vpgl_geo_camera.extract_pixel_size, hu, hs]
  · rw [h2]
    simp [vpgl_geo_camera.extract_pixel_size, hu, hs]
  · intro h00 h11
    rw [h1, h2, h00, h11, abs_neg]
    exact ⟨rfl, abs_of_pos (by norm_num)⟩

/-- Witness of C25 on `cam_utm_scale_sample`, whose matrix has `T[0][0] = 0.6` and
`T[1][1] = -0.6` and which has no context; the second camera has a context and
other collaborators. -/
theorem extract_pixel_size_closed_form_witness :
    cam_utm_scale_sample.is_utm_ = true ∧ cam_utm_scale_sample.scale_tag_ = true ∧
    (cam_utm_scale_sample.extract_pixel_size ext_sample).sx_ = 3 / 5 ∧
    (cam_utm_scale_sample.extract_pixel_size ext_sample).sy_ = 3 / 5 ∧
    (vpgl_geo_camera.extract_pixel_size ext_sqrt_sample
      { cam_utm_scale_sample with lvcs_ := some (lvcs_sample cs_names.utm) }).sx_
      = (cam_utm_scale_sample.extract_pixel_size ext_sample).sx_ :=
  have h := extract_pixel_size_closed_form ext_sample ext_sqrt_sample cam_utm_scale_sample
    (some (lvcs_sample cs_names.utm)) rfl rfl
  have h00 : cam_utm_scale_sample.trans_matrix_.get 0 0 = 3 / 5 := by
    simp [cam_utm_scale_sample, vnl_matrix.get, vnl_matrix.put]
  have h11 : cam_utm_scale_sample.trans_matrix_.get 1 1 = -(3 / 5) := by
    simp [cam_utm_scale_sample, vnl_matrix.get, vnl_matrix.put]
    norm_num
  ⟨rfl, rfl, (h.2.2.2.2 h00 h11).1, (h.2.2.2.2 h00 h11).2, h.2.2.1⟩

/-- C26: on a camera for which not (`is_utm_` and `scale_tag_`), with a square
root that is never negative, `extract_pixel_size` sets
`sx_ = dist(L(g00), L(g10)) / 100000` and `sy_ = dist(L(g00), L(g01)) / 100000`,
both `≥ 0`, where `g00`, `g10`, `g01` are `img_to_global` of the pixels `(0, 0)`,
`(100000, 0)`, `(0, 100000)`, `L` is the WGS84-frame `global_to_local` at
elevation 0 of the attached context or, without a context, of the WGS84 context
with origin `g00` at elevation 0, and `dist` is `dist_xy`. -/
theorem extract_pixel_size_finite_difference (ext : vpgl_externals K)
    (cam : vpgl_geo_camera K) (hnot : ¬ (cam.is_utm_ = true ∧ cam.scale_tag_ = true))
    (hsqrt : ∀ x, 0 ≤ ext.sqrt x) (lvcs : vpgl_lvcs K)
    (hlvcs : lvcs = match cam.lvcs_ with
      | some l => l
      | none => ext.lvcs_wgs84 (cam.img_to_global ext.utm 0 0).2
          (cam.img_to_global ext.utm 0 0).1 0) :
    (cam.extract_pixel_size ext).sx_
      = dist_xy ext.sqrt
          (lvcs.global_to_local (cam.img_to_global ext.utm 0 0).1
            (cam.img_to_global ext.utm 0 0).2 0 cs_names.wgs84)
          (lvcs.global_to_local (cam.img_to_global ext.utm 100000 0).1
            (cam.img_to_global ext.utm 100000 0).2 0 cs_names.wgs84) / 100000 ∧
    (cam.extract_pixel_size ext).sy_
      = dist_xy ext.sqrt
          (lvcs.global_to_local (cam.img_to_global ext.utm 0 0).1
            (cam.img_to_global ext.utm 0 0).2 0 cs_names.wgs84)
          (lvcs.global_to_local (cam.img_to_global ext.utm 0 100000).1
            (cam.img_to_global ext.utm 0 100000).2 0 cs_names.wgs84) / 100000 ∧
    0 ≤ (cam.extract_pixel_size ext).sx_ ∧ 0 ≤ (cam.extract_pixel_size ext).sy_ := by
  have hc : (cam.is_utm_ && cam.scale_tag_) = false := by
    cases hu : cam.is_utm_ <;> cases hs : cam.scale_tag_ <;> simp_all
  have h1 : (cam.extract_pixel_size ext).sx_
      = dist_xy ext.sqrt
          (lvcs.global_to_local (cam.img_to_global ext.utm 0 0).1
            (cam.img_to_global ext.utm 0 0).2 0 cs_names.wgs84)
          (lvcs.global_to_local (cam.img_to_global ext.utm 100000 0).1
            (cam.img_to_global ext.utm 100000 0).2 0 cs_names.wgs84) / 100000 := by
    subst hlvcs
    simp only [vpgl_geo_camera.extract_pixel_size, hc, dist_xy]
    rfl
  have h2 : (cam.extract_pixel_size ext).sy_
      = dist_xy ext.sqrt
          (lvcs.global_to_local (cam.img_to_global ext.utm 0 0).1
            (cam.img_to_global ext.utm 0 0).2 0 cs_names.wgs84)
          (lvcs.global_to_local (cam.img_to_global ext.utm 0 100000).1
            (cam.img_to_global ext.utm 0 100000).2 0 cs_names.wgs84) / 100000 := by
    subst hlvcs
    simp only [vpgl_geo_camera.extract_pixel_size, hc, dist_xy]
    rfl
  refine ⟨h1, h2, ?_, ?_⟩
  · rw [h1]
    exact div_nonneg (hsqrt _) (by norm_num)
  · rw [h2]
    exact div_nonneg (hsqrt _) (by norm_num)

theorem sqrt_sample_nonneg (x : ℚ) : 0 ≤ sqrt_sample x := by
  unfold sqrt_sample
  split
  · exact div_nonneg (Nat.cast_nonneg _) (Nat.cast_nonneg _)
  · exact le_refl 0

/-- Witness of C26 on `cam_scale_sample2`: not UTM, pixel size `(2, -3)`, a WGS84
context. -/
theorem extract_pixel_size_finite_difference_witness :
    ¬ (cam_scale_sample2.is_utm_ = true ∧ cam_scale_sample2.scale_tag_ = true) ∧
    (∀ x, 0 ≤ ext_sqrt_sample.sqrt x) ∧
    (cam_scale_sample2.extract_pixel_size ext_sqrt_sample).sx_
      = dist_xy ext_sqrt_sample.sqrt
          ((lvcs_sample cs_names.wgs84).global_to_local
            (cam_scale_sample2.img_to_global ext_sqrt_sample.utm 0 0).1
            (cam_scale_sample2.img_to_global ext_sqrt_sample.utm 0 0).2 0 cs_names.wgs84)
          ((lvcs_sample cs_names.wgs84).global_to_local
            (cam_scale_sample2.img_to_global ext_sqrt_sample.utm 100000 0).1
            (cam_scale_sample2.img_to_global ext_sqrt_sample.utm 100000 0).2 0 cs_names.wgs84)
          / 100000 ∧
    0 ≤ (cam_scale_sample2.extract_pixel_size ext_sqrt_sample).sx_ ∧
    0 ≤ (cam_scale_sample2.extract_pixel_size ext_sqrt_sample).sy_ :=
  have hnot : ¬ (cam_scale_sample2.is_utm_ = true ∧ cam_scale_sample2.scale_tag_ = true) := by
    simp [cam_scale_sample2]
  have h := extract_pixel_size_finite_difference ext_sqrt_sample cam_scale_sample2 hnot
    sqrt_sample_nonneg (lvcs_sample cs_names.wgs84) rfl
  ⟨hnot, sqrt_sample_nonneg, h.1, h.2.2.1, h.2.2.2⟩

/-! ## translate and operator== -/

/-- C27: `translate(tx, ty, tz)` changes at most the entries `T[0][3]` and
`T[1][3]`: the size of the matrix and every other entry, `is_utm_`, `utm_zone_`,
`northing_`, `scale_tag_`, the context and the cached pixel spacing are
unchanged, and the result is the same for any other `tz1`. -/
theorem translate_frame (cam : vpgl_geo_camera K) (tx ty tz tz1 : K) :
    (cam.translate tx ty tz).trans_matrix_.rows = cam.trans_matrix_.rows ∧
    (cam.translate tx ty tz).trans_matrix_.cols = cam.trans_matrix_.cols ∧
    (∀ r c : Nat, (r = 0 ∧ c = 3) ∨ (r = 1 ∧ c = 3) ∨
      (cam.translate tx ty tz).trans_matrix_.get r c = cam.trans_matrix_.get r c) ∧
    (cam.translate tx ty tz).is_utm_ = cam.is_utm_ ∧
    (cam.translate tx ty tz).utm_zone_ = cam.utm_zone_ ∧
    (cam.translate tx ty tz).northing_ = cam.northing_ ∧
    (cam.translate tx ty tz).scale_tag_ = cam.scale_tag_ ∧
    (cam.translate tx ty tz).lvcs_ = cam.lvcs_ ∧
    (cam.translate tx ty tz).sx_ = cam.sx_ ∧
    (cam.translate tx ty tz).sy_ = cam.sy_ ∧
    cam.translate tx ty tz1 = cam.translate tx ty tz := by
  refine ⟨?_, ?_, ?_, ?_, ?_, ?_, ?_, ?_, ?_, ?_, rfl⟩
  case refine_3 =>
    intro r c
    by_cases h0 : r = 0 ∧ c = 3
    · exact Or.inl h0
    · by_cases h1 : r = 1 ∧ c = 3
      · exact Or.inr (Or.inl h1)
      · right; right
        unfold vpgl_geo_camera.translate
        cases cam.scale_tag_ <;> simp [vnl_matrix.get, vnl_matrix.put, h0, h1]
  all_goals
    unfold vpgl_geo_camera.translate
    cases cam.scale_tag_ <;> rfl

theorem vnl_matrix_operator_eq_iff (a b : vnl_matrix K) :
    a.operator_eq b = true ↔ a.same b := by
  unfold vnl_matrix.operator_eq vnl_matrix.same vnl_matrix.get
  rw [decide_eq_true_iff]
  constructor
  · rintro ⟨h1, h2, h3⟩
    exact ⟨h1, h2, fun r c hr hc => h3 r hr c hc⟩
  · rintro ⟨h1, h2, h3⟩
    exact ⟨h1, h2, fun r hr c hc => h3 r c hr hc⟩

/-- C28: for two cameras that both have a context, `operator==` returns `true`
or `false`, and `true` exactly when the matrices are entrywise equal and the
contexts compare equal; the result is the same whatever `is_utm_`, `utm_zone_`,
`northing_`, `scale_tag_` and the cached pixel spacing are on either side. -/
theorem operator_eq_iff (io : vsl_externals K) (cam rhs : vpgl_geo_camera K)
    (a b : vpgl_lvcs K) (ha : cam.lvcs_ = some a) (hb : rhs.lvcs_ = some b)
    (u1 u2 s1 s2 : Bool) (z1 z2 n1 n2 : Int) (x1 y1 x2 y2 : K) :
    (∃ res : Bool, cam.operator_eq io rhs = some res) ∧
    (cam.operator_eq io rhs = some true ↔
      cam.trans_matrix_.same rhs.trans_matrix_ ∧ io.lvcs_eq a b = true) ∧
    vpgl_geo_camera.operator_eq io
        { cam with
          is_utm_ := u1, utm_zone_ := z1, northing_ := n1, scale_tag_ := s1, sx_ := x1,
          sy_ := y1 }
        { rhs with
          is_utm_ := u2, utm_zone_ := z2, northing_ := n2, scale_tag_ := s2, sx_ := x2,
          sy_ := y2 }
      = cam.operator_eq io rhs := by
  refine ⟨?_, ?_, ?_⟩
  · unfold vpgl_geo_camera.operator_eq
    rw [ha, hb]
    cases cam.trans_matrix_.operator_eq rhs.trans_matrix_ <;> simp
  · rw [← vnl_matrix_operator_eq_iff]
    unfold vpgl_geo_camera.operator_eq
    rw [ha, hb]
    cases cam.trans_matrix_.operator_eq rhs.trans_matrix_ <;> simp
  · rfl

/-- Witness of C28 on `cam_scale_sample2` and a copy of it with other UTM
metadata, both with the WGS84 context. -/
theorem operator_eq_iff_witness :
    cam_scale_sample2.lvcs_ = some (lvcs_sample cs_names.wgs84) ∧
    (∃ res : Bool, cam_scale_sample2.operator_eq io_sample cam_scale_sample2 = some res) ∧
    (cam_scale_sample2.operator_eq io_sample cam_scale_sample2 = some true ↔
      cam_scale_sample2.trans_matrix_.same cam_scale_sample2.trans_matrix_ ∧
      io_sample.lvcs_eq (lvcs_sample cs_names.wgs84) (lvcs_sample cs_names.wgs84) = true) ∧
    vpgl_geo_camera.operator_eq io_sample
        { cam_scale_sample2 with
          is_utm_ := true, utm_zone_ := 18, northing_ := 1, scale_tag_ := false, sx_ := 7,
          sy_ := 8 }
        { cam_scale_sample2 with
          is_utm_ := false, utm_zone_ := 31, northing_ := 0, scale_tag_ := true, sx_ := 9,
          sy_ := 10 }
      = cam_scale_sample2.operator_eq io_sample cam_scale_sample2 :=
  ⟨rfl, operator_eq_iff io_sample cam_scale_sample2 cam_scale_sample2
    (lvcs_sample cs_names.wgs84) (lvcs_sample cs_names.wgs84) rfl rfl
    true false false true 18 31 1 0 7 8 9 10⟩

/-! ## Projection and backprojection, scale format -/

/-- C29: on a camera with `scale_tag_ = true`, `T[0][0] ≠ 0`, `T[1][1] ≠ 0` and an
attached context whose conversions are mutually inverse in each frame,
`project(backproject(u, v)) = (u, v)` for every pixel `(u, v)`, with a UTM
context and `is_utm_ = true` and with a WGS84 context and `is_utm_ = false`. -/
theorem project_backproject_scale (utm : vpgl_utm K) (cam : vpgl_geo_camera K)
    (l : vpgl_lvcs K) (hl : cam.lvcs_ = some l)
    (hmatch : (l.cs_name = cs_names.utm ∧ cam.is_utm_ = true) ∨
      (l.cs_name = cs_names.wgs84 ∧ cam.is_utm_ = false))
    (hinv : l.mutually_inverse)
    (hs : cam.scale_tag_ = true) (h00 : cam.trans_matrix_.get 0 0 ≠ 0)
    (h11 : cam.trans_matrix_.get 1 1 ≠ 0) (u v : K) (out : K × K × K) :
    cam.project utm (cam.backproject utm u v out).1 (cam.backproject utm u v out).2.1
      (cam.backproject utm u v out).2.2 = (u, v) := by
  rcases hmatch with ⟨hk, hu⟩ | ⟨hk, hu⟩
  · have hi := (hinv cs_names.utm (cam.trans_matrix_.get 0 3 + cam.trans_matrix_.get 0 0 * u)
      (cam.trans_matrix_.get 1 3 + cam.trans_matrix_.get 1 1 * v) 0).1
    simp only [vpgl_geo_camera.project, vpgl_geo_camera.backproject,
      vpgl_geo_camera.local_to_global, vpgl_geo_camera.global_utm_to_img, hl, hk, hu, hs]
    simp [hi, vec4, h00, h11]
  · have hi := (hinv cs_names.wgs84 (cam.trans_matrix_.get 0 3 + cam.trans_matrix_.get 0 0 * u)
      (cam.trans_matrix_.get 1 3 + cam.trans_matrix_.get 1 1 * v) 0).1
    simp only [vpgl_geo_camera.project, vpgl_geo_camera.backproject,
      vpgl_geo_camera.local_to_global, vpgl_geo_camera.global_to_img, hl, hk, hu, hs]
    simp [hi, vec4, h00, h11]

theorem cam_scale_sample_entries :
    cam_scale_sample.trans_matrix_.get 0 0 = 2 ∧ cam_scale_sample.trans_matrix_.get 1 1 = -3 := by
  simp [cam_scale_sample, vnl_matrix.get, vnl_matrix.put]

/-- Witness of C29 on `cam_utm_lvcs_scale_sample`: UTM camera with a UTM context,
pixel size `(2, -3)`, at the pixel `(4, 9)`. -/
theorem project_backproject_scale_witness :
    cam_utm_lvcs_scale_sample.lvcs_ = some (lvcs_sample cs_names.utm) ∧
    (lvcs_sample cs_names.utm).cs_name = cs_names.utm ∧
    cam_utm_lvcs_scale_sample.is_utm_ = true ∧
    (lvcs_sample cs_names.utm).mutually_inverse ∧
    cam_utm_lvcs_scale_sample.scale_tag_ = true ∧
    cam_utm_lvcs_scale_sample.trans_matrix_.get 0 0 ≠ 0 ∧
    cam_utm_lvcs_scale_sample.trans_matrix_.get 1 1 ≠ 0 ∧
    cam_utm_lvcs_scale_sample.project utm_sample
      (cam_utm_lvcs_scale_sample.backproject utm_sample 4 9 (0, 0, 0)).1
      (cam_utm_lvcs_scale_sample.backproject utm_sample 4 9 (0, 0, 0)).2.1
      (cam_utm_lvcs_scale_sample.backproject utm_sample 4 9 (0, 0, 0)).2.2 = (4, 9) :=
  have h00 : cam_utm_lvcs_scale_sample.trans_matrix_.get 0 0 ≠ 0 := by
    have : cam_utm_lvcs_scale_sample.trans_matrix_.get 0 0 = 2 := cam_scale_sample_entries.1
    rw [this]; norm_num
  have h11 : cam_utm_lvcs_scale_sample.trans_matrix_.get 1 1 ≠ 0 := by
    have : cam_utm_lvcs_scale_sample.trans_matrix_.get 1 1 = -3 := cam_scale_sample_entries.2
    rw [this]; norm_num
  ⟨rfl, rfl, rfl, lvcs_sample_mutually_inverse _, rfl, h00, h11,
    project_backproject_scale utm_sample cam_utm_lvcs_scale_sample (lvcs_sample cs_names.utm)
      rfl (Or.inl ⟨rfl, rfl⟩) (lvcs_sample_mutually_inverse _) rfl h00 h11 4 9 (0, 0, 0)⟩

/-- C30: after `translate(tx, ty, tz)`, `img_to_global(i, j)` and
`img_to_global_utm(i, j)` are what they were before the translation at the pixel
`(i + tx, j + ty)`, for either value of `scale_tag_` and of `is_utm_`. -/
theorem translate_shifts_pixels (utm : vpgl_utm K) (cam : vpgl_geo_camera K)
    (tx ty tz i j : K) :
    (cam.translate tx ty tz).img_to_global utm i j = cam.img_to_global utm (i + tx) (j + ty) ∧
    (cam.translate tx ty tz).img_to_global_utm utm i j
      = cam.img_to_global_utm utm (i + tx) (j + ty) := by
  have e0 : ∀ a b : K, a + tx * b + i * b = a + (i + tx) * b := fun a b => by ring
  have e1 : ∀ a b : K, a + ty * b + j * b = a + (j + ty) * b := fun a b => by ring
  have e2 : ∀ a : K, a + tx + i = a + (i + tx) := fun a => by ring
  have e3 : ∀ a : K, a - ty - j = a - (j + ty) := fun a => by ring
  constructor
  · unfold vpgl_geo_camera.translate vpgl_geo_camera.img_to_global
    cases hs : cam.scale_tag_ <;> cases hu : cam.is_utm_ <;>
      simp [vnl_matrix.get, vnl_matrix.put, e0, e1, e2, e3]
  · unfold vpgl_geo_camera.translate vpgl_geo_camera.img_to_global_utm
    cases hs : cam.scale_tag_ <;> cases hu : cam.is_utm_ <;>
      simp [vnl_matrix.get, vnl_matrix.put, e0, e1, e2, e3]

/-! ## Binary I/O -/

theorem vsl_b_read_double_cons (x : K) (more : List (vsl_token K)) (v : K) :
    vsl_b_read_double ⟨vsl_token.double x :: more, true⟩ v = (⟨more, true⟩, x) := rfl

/-- The inner loop of `b_read` on the values that the inner loop of `b_write`
wrote for row `i` of `T`: the values are consumed and row `i` holds them. -/
theorem b_read_row (T m : vnl_matrix K) (i : Nat) (n : Nat) (more : List (vsl_token K)) :
    (List.range n).foldl
        (fun (st1 : vsl_b_istream K × vnl_matrix K) j =>
          ((vsl_b_read_double st1.1 (st1.2.get i j)).1,
            st1.2.put i j (vsl_b_read_double st1.1 (st1.2.get i j)).2))
        (⟨(List.range n).map (fun j => vsl_token.double (T.get i j)) ++ more, true⟩, m)
      = (⟨more, true⟩,
          ⟨m.rows, m.cols, fun r c => if r = i ∧ c < n then T.data i c else m.data r c⟩) := by
  induction n generalizing more with
  | zero =>
    simp
  | succ n ih =>
    rw [List.range_succ, List.map_append, List.foldl_append, List.append_assoc, ih]
    simp only [List.map_cons, List.map_nil, List.singleton_append, List.foldl_cons,
      List.foldl_nil, vsl_b_read_double_cons]
    congr 1
    simp only [vnl_matrix.put, vnl_matrix.get]
    congr 1
    funext r c
    by_cases h1 : r = i ∧ c = n
    · obtain ⟨rfl, rfl⟩ := h1
      simp
    · by_cases h2 : r = i ∧ c < n
      · have : r = i ∧ c < n + 1 := ⟨h2.1, by omega⟩
        simp [h1, h2, this]
        intro h
        omega
      · have : ¬ (r = i ∧ c < n + 1) := by
          rintro ⟨h3, h4⟩
          rcases Nat.lt_succ_iff_lt_or_eq.mp h4 with h5 | h5
          · exact h2 ⟨h3, h5⟩
          · exact h1 ⟨h3, h5⟩
        simp [h1, h2, this]

/-- The two loops of `b_read` on the values that the two loops of `b_write`
wrote for the first `k` rows of `T`. -/
theorem b_read_rows (T m : vnl_matrix K) (ncols k : Nat) (more : List (vsl_token K)) :
    vpgl_geo_camera.b_read_entries k ncols
        ⟨(List.range k).flatMap (fun i =>
            (List.range ncols).map fun j => vsl_token.double (T.get i j)) ++ more, true⟩ m
      = (⟨more, true⟩,
          ⟨m.rows, m.cols,
            fun r c => if r < k ∧ c < ncols then T.data r c else m.data r c⟩) := by
  unfold vpgl_geo_camera.b_read_entries
  induction k generalizing more with
  | zero =>
    simp
  | succ k ih =>
    rw [List.range_succ, List.flatMap_append, List.foldl_append, List.append_assoc, ih]
    simp only [List.flatMap_cons, List.flatMap_nil, List.append_nil, List.foldl_cons,
      List.foldl_nil]
    rw [b_read_row]
    congr 1
    congr 1
    funext r c
    by_cases h1 : r = k ∧ c < ncols
    · have : r < k + 1 ∧ c < ncols := ⟨by omega, h1.2⟩
      simp [h1, this]
    · by_cases h2 : r < k ∧ c < ncols
      · have : r < k + 1 ∧ c < ncols := ⟨by omega, h2.2⟩
        simp [h1, h2, this]
        intro h
        omega
      · have : ¬ (r < k + 1 ∧ c < ncols) := by
          rintro ⟨h3, h4⟩
          rcases Nat.lt_succ_iff_lt_or_eq.mp h3 with h5 | h5
          · exact h2 ⟨h5, h4⟩
          · exact h1 ⟨h5, h4⟩
        simp [h1, h2, this]

theorem set_size_size (m : vnl_matrix K) (r c : Nat) (uninit : Nat → Nat → K) :
    (m.set_size r c uninit).rows = r ∧ (m.set_size r c uninit).cols = c := by
  unfold vnl_matrix.set_size
  split
  · rename_i h
    exact h
  · exact ⟨rfl, rfl⟩

theorem foldl_invariant {α β : Type} (P : α → Prop) (f : α → β → α)
    (h : ∀ a b, P a → P (f a b)) (l : List β) (a : α) (ha : P a) : P (l.foldl f a) := by
  induction l generalizing a with
  | nil => exact ha
  | cons x xs ih => exact ih (f a x) (h a x ha)

/-- The two loops of `b_read` do not change the size of the matrix, whatever the
stream holds. -/
theorem b_read_entries_size (nrows ncols : Nat) (s : vsl_b_istream K) (m : vnl_matrix K) :
    (vpgl_geo_camera.b_read_entries nrows ncols s m).2.rows = m.rows ∧
    (vpgl_geo_camera.b_read_entries nrows ncols s m).2.cols = m.cols := by
  unfold vpgl_geo_camera.b_read_entries
  refine foldl_invariant
    (fun st : vsl_b_istream K × vnl_matrix K => st.2.rows = m.rows ∧ st.2.cols = m.cols)
    _ ?_ _ _ ⟨rfl, rfl⟩
  intro st i hst
  refine foldl_invariant
    (fun st : vsl_b_istream K × vnl_matrix K => st.2.rows = m.rows ∧ st.2.cols = m.cols)
    _ ?_ _ _ hst
  intro st1 j hst1
  exact hst1

/-- `b_read` never assigns the context and the cached pixel spacing of the
camera. -/
theorem b_read_keeps_context (ext : vpgl_externals K) (io : vsl_externals K)
    (cam : vpgl_geo_camera K) (s : vsl_b_istream K) (ver0 : Int) (nrows0 ncols0 : Nat)
    (uninit : Nat → Nat → K) :
    (cam.b_read ext io s ver0 nrows0 ncols0 uninit).1.lvcs_ = cam.lvcs_ ∧
    (cam.b_read ext io s ver0 nrows0 ncols0 uninit).1.sx_ = cam.sx_ ∧
    (cam.b_read ext io s ver0 nrows0 ncols0 uninit).1.sy_ = cam.sy_ := by
  unfold vpgl_geo_camera.b_read
  by_cases hg : (!s.good) = true
  · simp [hg]
  · by_cases hv : (vsl_b_read_short s ver0).2 = 1
    · simp [hg, hv]
    · simp [hg, hv]

/-- On a version-1 record `b_read` gives the matrix the row and column counts
that the record holds. -/
theorem b_read_version1_size (ext : vpgl_externals K) (io : vsl_externals K)
    (cam : vpgl_geo_camera K) (nr nc : Nat) (more : List (vsl_token K)) (ver0 : Int)
    (nrows0 ncols0 : Nat) (uninit : Nat → Nat → K) :
    (cam.b_read ext io
      ⟨vsl_token.short 1 :: vsl_token.unsigned nr :: vsl_token.unsigned nc :: more, true⟩
      ver0 nrows0 ncols0 uninit).1.trans_matrix_.rows = nr ∧
    (cam.b_read ext io
      ⟨vsl_token.short 1 :: vsl_token.unsigned nr :: vsl_token.unsigned nc :: more, true⟩
      ver0 nrows0 ncols0 uninit).1.trans_matrix_.cols = nc := by
  have h := b_read_entries_size nr nc ⟨more, true⟩ (cam.trans_matrix_.set_size nr nc uninit)
  have h2 := set_size_size cam.trans_matrix_ nr nc uninit
  rw [h2.1, h2.2] at h
  exact h

/-- What `b_read` does with the record that `b_write` wrote for `cam`, followed
by `more`, when the context's read consumes the context's record. -/
theorem b_read_of_b_write (ext : vpgl_externals K) (io : vsl_externals K)
    (cam reader : vpgl_geo_camera K) (l : vpgl_lvcs K) (hl : cam.lvcs_ = some l)
    (hio : io.lvcs_record_consumed l) (more : List (vsl_token K)) (ver0 : Int)
    (nrows0 ncols0 : Nat) (uninit : Nat → Nat → K) :
    ∃ (record : List (vsl_token K)) (m0 : vnl_matrix K),
      cam.b_write io = some record ∧
      m0.rows = cam.trans_matrix_.rows ∧ m0.cols = cam.trans_matrix_.cols ∧
      reader.b_read ext io ⟨record ++ more, true⟩ ver0 nrows0 ncols0 uninit
        = ({ reader with
              trans_matrix_ := ⟨m0.rows, m0.cols, fun r c =>
                if r < cam.trans_matrix_.rows ∧ c < cam.trans_matrix_.cols
                then cam.trans_matrix_.data r c else m0.data r c⟩
              is_utm_ := cam.is_utm_
              utm_zone_ := cam.utm_zone_
              northing_ := cam.northing_
              scale_tag_ := cam.scale_tag_ },
          ⟨more, true⟩) := by
  have hsz := set_size_size reader.trans_matrix_ cam.trans_matrix_.rows cam.trans_matrix_.cols
    uninit
  refine ⟨[vsl_token.short vpgl_geo_camera.version, vsl_token.unsigned cam.trans_matrix_.rows,
        vsl_token.unsigned cam.trans_matrix_.cols]
      ++ vpgl_geo_camera.b_write_entries cam.trans_matrix_
      ++ io.lvcs_b_write l
      ++ [vsl_token.bool cam.is_utm_, vsl_token.int cam.utm_zone_,
        vsl_token.int cam.northing_, vsl_token.bool cam.scale_tag_],
    reader.trans_matrix_.set_size cam.trans_matrix_.rows cam.trans_matrix_.cols uninit,
    ?_, hsz.1, hsz.2, ?_⟩
  · simp only [vpgl_geo_camera.b_write, hl]
  · have hrows := b_read_rows cam.trans_matrix_
      (reader.trans_matrix_.set_size cam.trans_matrix_.rows cam.trans_matrix_.cols uninit)
      cam.trans_matrix_.cols cam.trans_matrix_.rows
      (io.lvcs_b_write l ++ (vsl_token.bool cam.is_utm_ :: vsl_token.int cam.utm_zone_ ::
        vsl_token.int cam.northing_ :: vsl_token.bool cam.scale_tag_ :: more))
    have hctx := hio (vsl_token.bool cam.is_utm_ :: vsl_token.int cam.utm_zone_ ::
        vsl_token.int cam.northing_ :: vsl_token.bool cam.scale_tag_ :: more)
        (ext.lvcs_wgs84 0 0 0)
    simp only [vpgl_geo_camera.b_read, vpgl_geo_camera.b_write_entries,
      vpgl_geo_camera.version, List.append_assoc, List.cons_append, List.nil_append,
      vsl_b_read_short, vsl_b_read_unsigned, Bool.not_true, Bool.false_eq_true, if_false,
      if_true, hrows, hctx, vsl_b_read_bool, vsl_b_read_int]

theorem io_sample_round_trip (kind : cs_names) :
    io_sample.lvcs_round_trip (lvcs_sample kind) := by
  intro more l0
  cases kind <;> rfl

theorem io_sample_record_consumed (kind : cs_names) :
    io_sample.lvcs_record_consumed (lvcs_sample kind) := by
  intro more l0
  rw [io_sample_round_trip kind more l0]

/-- C21: for a camera `cam` with an attached context whose record the context's
`b_read` consumes, `b_read` applied by any camera `reader` to the record that
`b_write` produced for `cam` (followed by any values `more`) gives a camera whose
matrix is entrywise equal to that of `cam` and whose `is_utm_`, `utm_zone_`,
`northing_`, `scale_tag_` are those of `cam`; the record is consumed exactly and
the stream stays good. -/
theorem b_read_b_write_round_trip (ext : vpgl_externals K) (io : vsl_externals K)
    (cam reader : vpgl_geo_camera K) (l : vpgl_lvcs K) (hl : cam.lvcs_ = some l)
    (hio : io.lvcs_record_consumed l) (more : List (vsl_token K)) (ver0 : Int)
    (nrows0 ncols0 : Nat) (uninit : Nat → Nat → K) :
    ∃ record : List (vsl_token K),
      cam.b_write io = some record ∧
      (reader.b_read ext io ⟨record ++ more, true⟩ ver0 nrows0 ncols0
        uninit).1.trans_matrix_.same cam.trans_matrix_ ∧
      (reader.b_read ext io ⟨record ++ more, true⟩ ver0 nrows0 ncols0 uninit).1.is_utm_
        = cam.is_utm_ ∧
      (reader.b_read ext io ⟨record ++ more, true⟩ ver0 nrows0 ncols0 uninit).1.utm_zone_
        = cam.utm_zone_ ∧
      (reader.b_read ext io ⟨record ++ more, true⟩ ver0 nrows0 ncols0 uninit).1.northing_
        = cam.northing_ ∧
      (reader.b_read ext io ⟨record ++ more, true⟩ ver0 nrows0 ncols0 uninit).1.scale_tag_
        = cam.scale_tag_ ∧
      (reader.b_read ext io ⟨record ++ more, true⟩ ver0 nrows0 ncols0 uninit).2
        = ⟨more, true⟩ := by
  obtain ⟨record, m0, hw, hr, hc, hread⟩ :=
    b_read_of_b_write ext io cam reader l hl hio more ver0 nrows0 ncols0 uninit
  refine ⟨record, hw, ?_, ?_, ?_, ?_, ?_, ?_⟩
  · rw [hread]
    refine ⟨hr, hc, ?_⟩
    intro r c hr1 hc1
    have hr2 : r < cam.trans_matrix_.rows := by
      have : r < m0.rows := hr1
      omega
    have hc2 : c < cam.trans_matrix_.cols := by
      have : c < m0.cols := hc1
      omega
    simp [vnl_matrix.get, hr2, hc2]
  all_goals rw [hread]

/-- Witness of C21: `cam_scale_sample2` (WGS84 context) is written and
`cam_utm_unit_sample` reads. -/
theorem b_read_b_write_round_trip_witness :
    cam_scale_sample2.lvcs_ = some (lvcs_sample cs_names.wgs84) ∧
    io_sample.lvcs_record_consumed (lvcs_sample cs_names.wgs84) ∧
    ∃ record : List (vsl_token ℚ),
      cam_scale_sample2.b_write io_sample = some record ∧
      (cam_utm_unit_sample.b_read ext_sample io_sample ⟨record ++ [], true⟩ 0 0 0
        (fun _ _ => 0)).1.trans_matrix_.same cam_scale_sample2.trans_matrix_ ∧
      (cam_utm_unit_sample.b_read ext_sample io_sample ⟨record ++ [], true⟩ 0 0 0
        (fun _ _ => 0)).1.is_utm_ = cam_scale_sample2.is_utm_ ∧
      (cam_utm_unit_sample.b_read ext_sample io_sample ⟨record ++ [], true⟩ 0 0 0
        (fun _ _ => 0)).1.utm_zone_ = cam_scale_sample2.utm_zone_ ∧
      (cam_utm_unit_sample.b_read ext_sample io_sample ⟨record ++ [], true⟩ 0 0 0
        (fun _ _ => 0)).1.northing_ = cam_scale_sample2.northing_ ∧
      (cam_utm_unit_sample.b_read ext_sample io_sample ⟨record ++ [], true⟩ 0 0 0
        (fun _ _ => 0)).1.scale_tag_ = cam_scale_sample2.scale_tag_ ∧
      (cam_utm_unit_sample.b_read ext_sample io_sample ⟨record ++ [], true⟩ 0 0 0
        (fun _ _ => 0)).2 = ⟨[], true⟩ :=
  ⟨rfl, io_sample_record_consumed _,
    b_read_b_write_round_trip ext_sample io_sample cam_scale_sample2 cam_utm_unit_sample
      (lvcs_sample cs_names.wgs84) rfl (io_sample_record_consumed _) [] 0 0 0 (fun _ _ => 0)⟩

/-- C22, the code at the failing input: `cam_scale_sample2`, whose context is of
kind WGS84 and round-trips through the context's own write and read, is
written.  After `b_read` of that record a camera that had no context still has
none, and a camera that had a UTM context still has the UTM context: the
context read from the record goes to a local variable. -/
theorem b_read_drops_context :
    (cam_scale_sample2.lvcs_.map fun l => l.cs_name) = some cs_names.wgs84 ∧
    io_sample.lvcs_round_trip (lvcs_sample cs_names.wgs84) ∧
    (cam_scale_sample2.b_write io_sample).isSome = true ∧
    ((cam_scale_sample2.b_write io_sample).map fun record =>
      (cam_default_sample.b_read ext_sample io_sample ⟨record, true⟩ 0 0 0
        (fun _ _ => 0)).1.lvcs_.map fun l => l.cs_name) = some none ∧
    ((cam_scale_sample2.b_write io_sample).map fun record =>
      (cam_utm_unit_sample.b_read ext_sample io_sample ⟨record, true⟩ 0 0 0
        (fun _ _ => 0)).1.lvcs_.map fun l => l.cs_name) = some (some cs_names.utm) := by
  have hw : ∃ record, cam_scale_sample2.b_write io_sample = some record := by
    simp [vpgl_geo_camera.b_write, cam_scale_sample2]
  obtain ⟨record, hrec⟩ := hw
  refine ⟨rfl, io_sample_round_trip _, ?_, ?_, ?_⟩
  · rw [hrec]; rfl
  · rw [hrec, Option.map_some', (b_read_keeps_context _ _ _ _ _ _ _ _).1]
    rfl
  · rw [hrec, Option.map_some', (b_read_keeps_context _ _ _ _ _ _ _ _).1]
    rfl

/-- C23: on a good stream whose first value is a version tag other than 1,
`b_read` consumes the tag only, leaves the stream not good, and returns the
camera as it was: matrix, UTM metadata, `scale_tag_`, context and pixel spacing
are unchanged. -/
theorem b_read_unknown_version (ext : vpgl_externals K) (io : vsl_externals K)
    (cam : vpgl_geo_camera K) (v : Int) (hv : v ≠ 1) (more : List (vsl_token K))
    (ver0 : Int) (nrows0 ncols0 : Nat) (uninit : Nat → Nat → K) :
    cam.b_read ext io ⟨vsl_token.short v :: more, true⟩ ver0 nrows0 ncols0 uninit
      = (cam, ⟨more, false⟩) := by
  simp [vpgl_geo_camera.b_read, vsl_b_read_short, hv]

/-- Witness of C23: version tag 2 in front of the record of `record_2x3_sample`. -/
theorem b_read_unknown_version_witness :
    (2 : Int) ≠ 1 ∧
    cam_scale_sample2.b_read ext_sample io_sample
        ⟨vsl_token.short 2 :: record_2x3_sample, true⟩ 0 0 0 (fun _ _ => 0)
      = (cam_scale_sample2, ⟨record_2x3_sample, false⟩) :=
  ⟨by decide, b_read_unknown_version ext_sample io_sample cam_scale_sample2 2 (by decide)
    record_2x3_sample 0 0 0 (fun _ _ => 0)⟩

/-! ## The size of the matrix -/

theorem init_geo_camera_4x4 (ext : vpgl_externals K) (txt : text_externals K)
    (img_name : List Char) (ni nj : Nat) (lvcs : Option (vpgl_lvcs K))
    (uninit : Nat → Nat → K) (utm_zone northing : Int) (sx sy : K)
    (r : Bool × vpgl_geo_camera K)
    (h : vpgl_geo_camera.init_geo_camera ext txt img_name ni nj lvcs uninit utm_zone northing
      sx sy = some r) : r.2.trans_matrix_.is_4x4 := by
  unfold vpgl_geo_camera.init_geo_camera at h
  simp only [Option.bind_eq_bind, Option.bind_eq_some, Option.pure_def, Option.some.injEq] at h
  obtain ⟨name, -, n_coords, -, n_scale, -, s1, -, s2, -, s3, -, s4, -, rfl⟩ := h
  unfold vnl_matrix.is_4x4
  rw [(extract_pixel_size_fields _ _).1]
  simp only [vpgl_geo_camera.set_scale_format, vpgl_geo_camera.of_matrix]
  split_ifs <;> exact ⟨rfl, rfl⟩

theorem from_filename_4x4 (ext : vpgl_externals K) (txt : text_externals K)
    (img_name : List Char) (ni nj : Nat) (lvcs : Option (vpgl_lvcs K))
    (uninit : Nat → Nat → K) (utm_zone northing : Int) (sx sy : K)
    (r : Bool × vpgl_geo_camera K)
    (h : vpgl_geo_camera.init_geo_camera_from_filename ext txt img_name ni nj lvcs uninit
      utm_zone northing sx sy = some r) : r.2.trans_matrix_.is_4x4 := by
  unfold vpgl_geo_camera.init_geo_camera_from_filename at h
  simp only [Option.bind_eq_bind, Option.bind_eq_some, Option.pure_def, Option.some.injEq] at h
  obtain ⟨name, -, n_coords, -, n_scale, -, s1, -, s2, -, s3, -, rfl⟩ := h
  unfold vnl_matrix.is_4x4
  rw [(extract_pixel_size_fields _ _).1]
  exact ⟨rfl, rfl⟩

theorem init_geo_camera_tfw_4x4 (ext : vpgl_externals K) (content : List (Option K))
    (lvcs : Option (vpgl_lvcs K)) (utm_zone : Int) (northing : Nat)
    (camera : Option (vpgl_geo_camera K)) (utm_zone0 northing0 : Int) (sx sy : K) :
    ∃ cam : vpgl_geo_camera K,
      (vpgl_geo_camera.init_geo_camera_tfw ext (some content) lvcs utm_zone northing camera
        utm_zone0 northing0 sx sy).2 = some cam ∧ cam.trans_matrix_.is_4x4 := by
  refine ⟨_, rfl, ?_⟩
  unfold vnl_matrix.is_4x4
  rw [(extract_pixel_size_fields _ _).1]
  by_cases hz : utm_zone = 0 <;> simp [hz] <;> exact ⟨rfl, rfl⟩

theorem load_from_resource_4x4 (ext : vpgl_externals K) (cam : vpgl_geo_camera K)
    (geotiff_img : vil_image_resource K) (lvcs : Option (vpgl_lvcs K))
    (uninit : Nat → Nat → K) (h4 : cam.trans_matrix_.is_4x4) (r : Bool × vpgl_geo_camera K)
    (h : cam.load_from_resource ext geotiff_img lvcs uninit = some r) :
    r.2.trans_matrix_.is_4x4 := by
  obtain ⟨t, g, hdr⟩ := geotiff_img
  unfold vnl_matrix.is_4x4 at *
  have hx : ∀ c : vpgl_geo_camera K,
      (c.extract_pixel_size ext).trans_matrix_ = c.trans_matrix_ :=
    fun c => (extract_pixel_size_fields ext c).1
  cases t <;> cases g <;> cases hdr with
  | none =>
    simp [vpgl_geo_camera.load_from_resource] at h
    all_goals subst h
    all_goals exact h4
  | some gtif =>
    obtain ⟨tp, tm, ps, gcs, w, n⟩ := gtif
    cases tm <;> cases ps <;> cases tp <;> cases gcs <;> cases w <;> cases n <;>
      simp [vpgl_geo_camera.load_from_resource, vpgl_geo_camera.comp_trans_matrix,
        vnl_matrix.copy_in, vnl_matrix.filled, vnl_matrix.put, vnl_matrix.fill] at h <;>
      subst h <;>
      first
        | exact h4
        | (simp only [hx]; exact ⟨rfl, rfl⟩)

theorem translate_4x4 (cam : vpgl_geo_camera K) (tx ty tz : K)
    (h4 : cam.trans_matrix_.is_4x4) : (cam.translate tx ty tz).trans_matrix_.is_4x4 := by
  unfold vnl_matrix.is_4x4 at *
  unfold vpgl_geo_camera.translate
  cases cam.scale_tag_ <;> exact h4

/-- C24, as amended: the default constructor gives a 4x4 matrix, and
`load_from_geotransform`, the two filename adapters, the world-file adapter,
`load_from_resource` and `translate` lead from a camera with a 4x4 matrix to a
camera with a 4x4 matrix.  `b_read` on a version-1 record gives the matrix the
row and column counts `nr`, `nc` that the record holds, so it keeps the matrix
4x4 on the records whose counts are both 4. -/
theorem matrix_4x4_preserved (ext : vpgl_externals K) (io : vsl_externals K)
    (txt : text_externals K) (cam : vpgl_geo_camera K) (h4 : cam.trans_matrix_.is_4x4)
    (geotransform : Fin 6 → K) (utm_zone northing : Int) (lvcs : Option (vpgl_lvcs K))
    (img_name : List Char) (ni nj : Nat) (uninit : Nat → Nat → K) (utm_zone0 northing0 : Int)
    (sx sy : K) (content : List (Option K)) (northing1 : Nat)
    (geotiff_img : vil_image_resource K) (tx ty tz : K) (more : List (vsl_token K))
    (nr nc : Nat) (ver0 : Int) (nrows0 ncols0 : Nat) :
    (vpgl_geo_camera.default uninit utm_zone0 northing0 :
      vpgl_geo_camera K).trans_matrix_.is_4x4 ∧
    (cam.load_from_geotransform ext geotransform utm_zone northing lvcs
      uninit).2.trans_matrix_.is_4x4 ∧
    (∀ r, vpgl_geo_camera.init_geo_camera ext txt img_name ni nj lvcs uninit utm_zone0
      northing0 sx sy = some r → r.2.trans_matrix_.is_4x4) ∧
    (∀ r, vpgl_geo_camera.init_geo_camera_from_filename ext txt img_name ni nj lvcs uninit
      utm_zone0 northing0 sx sy = some r → r.2.trans_matrix_.is_4x4) ∧
    (∃ c : vpgl_geo_camera K,
      (vpgl_geo_camera.init_geo_camera_tfw ext (some content) lvcs utm_zone northing1 (some cam)
        utm_zone0 northing0 sx sy).2 = some c ∧ c.trans_matrix_.is_4x4) ∧
    (vpgl_geo_camera.init_geo_camera_tfw ext none lvcs utm_zone northing1 (some cam)
      utm_zone0 northing0 sx sy).2 = some cam ∧
    (∀ r, cam.load_from_resource ext geotiff_img lvcs uninit = some r →
      r.2.trans_matrix_.is_4x4) ∧
    (cam.translate tx ty tz).trans_matrix_.is_4x4 ∧
    ((cam.b_read ext io
        ⟨vsl_token.short 1 :: vsl_token.unsigned nr :: vsl_token.unsigned nc :: more, true⟩
        ver0 nrows0 ncols0 uninit).1.trans_matrix_.rows = nr ∧
      (cam.b_read ext io
        ⟨vsl_token.short 1 :: vsl_token.unsigned nr :: vsl_token.unsigned nc :: more, true⟩
        ver0 nrows0 ncols0 uninit).1.trans_matrix_.cols = nc) ∧
    (cam.b_read ext io
        ⟨vsl_token.short 1 :: vsl_token.unsigned 4 :: vsl_token.unsigned 4 :: more, true⟩
        ver0 nrows0 ncols0 uninit).1.trans_matrix_.is_4x4 := by
  refine ⟨⟨rfl, rfl⟩, ?_, ?_, ?_, ?_, rfl, ?_, ?_, ?_, ?_⟩
  · unfold vnl_matrix.is_4x4 vpgl_geo_camera.load_from_geotransform
    simp only [(extract_pixel_size_fields _ _).1, vpgl_geo_camera.set_lvcs]
    exact ⟨rfl, rfl⟩
  · exact fun r h => init_geo_camera_4x4 ext txt img_name ni nj lvcs uninit utm_zone0
      northing0 sx sy r h
  · exact fun r h => from_filename_4x4 ext txt img_name ni nj lvcs uninit utm_zone0
      northing0 sx sy r h
  · exact init_geo_camera_tfw_4x4 ext content lvcs utm_zone northing1 (some cam) utm_zone0
      northing0 sx sy
  · exact fun r h => load_from_resource_4x4 ext cam geotiff_img lvcs uninit h4 r h
  · exact translate_4x4 cam tx ty tz h4
  · exact b_read_version1_size ext io cam nr nc more ver0 nrows0 ncols0 uninit
  · exact b_read_version1_size ext io cam 4 4 more ver0 nrows0 ncols0 uninit

theorem cam_default_sample_4x4 : cam_default_sample.trans_matrix_.is_4x4 := ⟨rfl, rfl⟩

/-- Witness of C24 as amended, on the default-constructed camera. -/
theorem matrix_4x4_preserved_witness :
    cam_default_sample.trans_matrix_.is_4x4 ∧
    (cam_default_sample.load_from_geotransform ext_sample gt_sample 17 0
      none (fun _ _ => 0)).2.trans_matrix_.is_4x4 ∧
    (cam_default_sample.translate 1 2 3).trans_matrix_.is_4x4 ∧
    (cam_default_sample.b_read ext_sample io_sample
        ⟨vsl_token.short 1 :: vsl_token.unsigned 4 :: vsl_token.unsigned 4 :: [], true⟩
        0 0 0 (fun _ _ => 0)).1.trans_matrix_.is_4x4 :=
  have h := matrix_4x4_preserved ext_sample io_sample txt_sample cam_default_sample
    cam_default_sample_4x4 gt_sample 17 0 none ['a', 'b', 'c'] 2 2 (fun _ _ => 0) 0 0 0 0
    [] 0 ⟨false, false, none⟩ 1 2 3 [] 2 3 0 0 0
  ⟨cam_default_sample_4x4, h.2.1, h.2.2.2.2.2.2.2.1, h.2.2.2.2.2.2.2.2.2⟩

/-- C24, counterexample: the default-constructed camera, whose matrix is 4x4,
reads the version-1 record `record_2x3_sample` completely, the stream stays
good, and its matrix is 2x3 afterwards. -/
theorem b_read_breaks_4x4 :
    cam_default_sample.trans_matrix_.is_4x4 ∧
    (cam_default_sample.b_read ext_sample io_sample ⟨record_2x3_sample, true⟩ 0 0 0
      (fun _ _ => 0)).2 = ⟨[], true⟩ ∧
    (cam_default_sample.b_read ext_sample io_sample ⟨record_2x3_sample, true⟩ 0 0 0
      (fun _ _ => 0)).1.trans_matrix_.rows = 2 ∧
    (cam_default_sample.b_read ext_sample io_sample ⟨record_2x3_sample, true⟩ 0 0 0
      (fun _ _ => 0)).1.trans_matrix_.cols = 3 ∧
    ¬ (cam_default_sample.b_read ext_sample io_sample ⟨record_2x3_sample, true⟩ 0 0 0
      (fun _ _ => 0)).1.trans_matrix_.is_4x4 := by
  have hs := b_read_version1_size ext_sample io_sample cam_default_sample 2 3
    [vsl_token.double 1, vsl_token.double 2, vsl_token.double 3,
      vsl_token.double 4, vsl_token.double 5, vsl_token.double 6,
      vsl_token.unsigned 0,
      vsl_token.bool false, vsl_token.int 0, vsl_token.int 0, vsl_token.bool true]
    0 0 0 (fun _ _ => 0)
  have hr : (cam_default_sample.b_read ext_sample io_sample ⟨record_2x3_sample, true⟩ 0 0 0
      (fun _ _ => 0)).1.trans_matrix_.rows = 2 := hs.1
  have hc : (cam_default_sample.b_read ext_sample io_sample ⟨record_2x3_sample, true⟩ 0 0 0
      (fun _ _ => 0)).1.trans_matrix_.cols = 3 := hs.2
  refine ⟨cam_default_sample_4x4, rfl, hr, hc, ?_⟩
  intro h
  rw [vnl_matrix.is_4x4, hr] at h
  exact absurd h.1 (by decide)

/-! ## The tie point and the derived transform -/

/-- C31: for every pixel scale `(sx, sy, sz)` and first tie point
`(I, J, K, X, Y, Z)`, the matrix `m` that `comp_trans_matrix` computes with
`scale_tag = true` has `m[0][3] + I*m[0][0] = X`, `m[1][3] + J*m[1][1] = Y`,
`m[0][3] + (I+1)*m[0][0] = X + sx` and `m[1][3] + (J+1)*m[1][1] = Y - sy`; a
camera with `scale_tag_ = true` holding `m` maps the pixel `(I, J)` to the native
point `(X, Y)` and the pixel `(I+1, J+1)` to `(X + sx, Y - sy)`, by
`img_to_global` when it is not UTM and by `img_to_global_utm` when it is UTM.
The cameras that `load_from_resource` builds from a header with that pixel scale
and tie point, geographic or UTM, do so. -/
theorem comp_trans_matrix_tie_point (ext : vpgl_externals K) (cam : vpgl_geo_camera K)
    (sx sy sz I J K1 X Y Z : K) (more : List (List K)) (old : vnl_matrix K)
    (tps : List (Fin 6 → K)) (lvcs : Option (vpgl_lvcs K))
    (w n : Option (Int × GTIF_HEMISPH)) (zone : Int) (h : GTIF_HEMISPH)
    (uninit : Nat → Nat → K) :
    (∃ m : vnl_matrix K,
      vpgl_geo_camera.comp_trans_matrix sx sy sz ([I, J, K1, X, Y, Z] :: more) old true uninit
        = some (true, m) ∧
      m.get 0 3 + I * m.get 0 0 = X ∧
      m.get 1 3 + J * m.get 1 1 = Y ∧
      m.get 0 3 + (I + 1) * m.get 0 0 = X + sx ∧
      m.get 1 3 + (J + 1) * m.get 1 1 = Y - sy ∧
      vpgl_geo_camera.img_to_global ext.utm
        { cam with trans_matrix_ := m, scale_tag_ := true, is_utm_ := false } I J = (X, Y) ∧
      vpgl_geo_camera.img_to_global ext.utm
        { cam with trans_matrix_ := m, scale_tag_ := true, is_utm_ := false } (I + 1) (J + 1)
        = (X + sx, Y - sy) ∧
      vpgl_geo_camera.img_to_global_utm ext.utm
        { cam with trans_matrix_ := m, scale_tag_ := true, is_utm_ := true } I J = (X, Y) ∧
      vpgl_geo_camera.img_to_global_utm ext.utm
        { cam with trans_matrix_ := m, scale_tag_ := true, is_utm_ := true } (I + 1) (J + 1)
        = (X + sx, Y - sy)) ∧
    (∃ c : vpgl_geo_camera K,
      cam.load_from_resource ext
        ⟨true, true, some ⟨![I, J, K1, X, Y, Z] :: tps, none, some (sx, sy, sz), true, w, n⟩⟩ lvcs
        uninit = some (true, c) ∧
      c.scale_tag_ = true ∧ c.is_utm_ = false ∧
      c.img_to_global ext.utm I J = (X, Y) ∧
      c.img_to_global ext.utm (I + 1) (J + 1) = (X + sx, Y - sy)) ∧
    (∃ c : vpgl_geo_camera K,
      cam.load_from_resource ext
        ⟨true, true,
          some ⟨![I, J, K1, X, Y, Z] :: tps, none, some (sx, sy, sz), false, some (zone, h), n⟩⟩
        lvcs uninit = some (true, c) ∧
      c.scale_tag_ = true ∧ c.is_utm_ = true ∧
      c.img_to_global_utm ext.utm I J = (X, Y) ∧
      c.img_to_global_utm ext.utm (I + 1) (J + 1) = (X + sx, Y - sy)) := by
  have e3 : X - I * sx + (I + 1) * sx = X + sx := by ring
  have e5 : Y + J * sy + -(J * sy) = Y := by ring
  have e6 : Y + J * sy + -((J + 1) * sy) = Y - sy := by ring
  refine ⟨⟨_, rfl, ?_, ?_, ?_, ?_, ?_, ?_, ?_, ?_⟩, ?_, ?_⟩
  · simp [vnl_matrix.get, vnl_matrix.put, vnl_matrix.fill, vnl_matrix.filled]
  · simp [vnl_matrix.get, vnl_matrix.put, vnl_matrix.fill, vnl_matrix.filled, e5]
  · simp [vnl_matrix.get, vnl_matrix.put, vnl_matrix.fill, vnl_matrix.filled, e3]
  · simp [vnl_matrix.get, vnl_matrix.put, vnl_matrix.fill, vnl_matrix.filled, e6]
  · simp [vpgl_geo_camera.img_to_global, vnl_matrix.get, vnl_matrix.put, vnl_matrix.fill,
      vnl_matrix.filled, e5]
  · simp [vpgl_geo_camera.img_to_global, vnl_matrix.get, vnl_matrix.put, vnl_matrix.fill,
      vnl_matrix.filled, e3, e6]
  · simp [vpgl_geo_camera.img_to_global_utm, vnl_matrix.get, vnl_matrix.put, vnl_matrix.fill,
      vnl_matrix.filled, e5]
  · simp [vpgl_geo_camera.img_to_global_utm, vnl_matrix.get, vnl_matrix.put, vnl_matrix.fill,
      vnl_matrix.filled, e3, e6]
  · have hlen : ¬ ((List.ofFn ![I, J, K1, X, Y, Z]).length ≠ 6) := by simp
    simp only [vpgl_geo_camera.load_from_resource, vpgl_geo_camera.comp_trans_matrix,
      List.map_cons, if_neg hlen, Bool.not_true, Bool.false_eq_true, if_false]
    refine ⟨_, rfl, ?_, ?_, ?_, ?_⟩
    · rw [(extract_pixel_size_fields _ _).2.2.2.2.2]; rfl
    · rw [(extract_pixel_size_fields _ _).2.2.1]; rfl
    · simp only [vpgl_geo_camera.img_to_global, (extract_pixel_size_fields _ _).1,
        (extract_pixel_size_fields _ _).2.2.1, (extract_pixel_size_fields _ _).2.2.2.2.2]
      simp [vpgl_geo_camera.set_lvcs, vnl_matrix.get, vnl_matrix.put, vnl_matrix.fill,
        vnl_matrix.filled, e5]
    · simp only [vpgl_geo_camera.img_to_global, (extract_pixel_size_fields _ _).1,
        (extract_pixel_size_fields _ _).2.2.1, (extract_pixel_size_fields _ _).2.2.2.2.2]
      simp [vpgl_geo_camera.set_lvcs, vnl_matrix.get, vnl_matrix.put, vnl_matrix.fill,
        vnl_matrix.filled, e3, e6]
  · have hlen : ¬ ((List.ofFn ![I, J, K1, X, Y, Z]).length ≠ 6) := by simp
    simp only [vpgl_geo_camera.load_from_resource, vpgl_geo_camera.comp_trans_matrix,
      List.map_cons, if_neg hlen, Bool.not_true, Bool.false_eq_true, if_false,
      Option.orElse]
    refine ⟨_, rfl, ?_, ?_, ?_, ?_⟩
    · rw [(extract_pixel_size_fields _ _).2.2.2.2.2]; rfl
    · rw [(extract_pixel_size_fields _ _).2.2.1]; rfl
    · simp only [vpgl_geo_camera.img_to_global_utm, (extract_pixel_size_fields _ _).1,
        (extract_pixel_size_fields _ _).2.2.1, (extract_pixel_size_fields _ _).2.2.2.2.2]
      simp [vpgl_geo_camera.set_lvcs, vpgl_geo_camera.set_utm, vnl_matrix.get, vnl_matrix.put,
        vnl_matrix.fill, vnl_matrix.filled, e5]
    · simp only [vpgl_geo_camera.img_to_global_utm, (extract_pixel_size_fields _ _).1,
        (extract_pixel_size_fields _ _).2.2.1, (extract_pixel_size_fields _ _).2.2.2.2.2]
      simp [vpgl_geo_camera.set_lvcs, vpgl_geo_camera.set_utm, vnl_matrix.get, vnl_matrix.put,
        vnl_matrix.fill, vnl_matrix.filled, e3, e6]

/-! ## The converter calls of backproject, img_to_global_utm and global_utm_to_img -/

/-- On a camera with a context that is not taken by the UTM branch,
`backproject` ends in its last statement: the result is the context's WGS84
`global_to_local` of `backproject_lon_lat`. -/
theorem backproject_last_statement (utm : vpgl_utm K) (cam : vpgl_geo_camera K)
    (l : vpgl_lvcs K) (hl : cam.lvcs_ = some l) (hk : l.cs_name ≠ cs_names.utm) (u v : K)
    (out : K × K × K) :
    cam.backproject utm u v out
      = l.global_to_local (cam.backproject_lon_lat utm u v).1
          (cam.backproject_lon_lat utm u v).2.1 (cam.backproject_lon_lat utm u v).2.2
          cs_names.wgs84 := by
  unfold vpgl_geo_camera.backproject vpgl_geo_camera.backproject_lon_lat
  cases hu : cam.is_utm_ <;> simp [hl, hk]

/-- The converter calls on a UTM camera: `backproject` calls `to_latlon` with the
zone and the native point of the pixel and without a hemisphere flag (`false`),
`img_to_global` calls it with the same zone and point and the flag
`northing_ > 0`. -/
theorem backproject_lon_lat_utm (utm : vpgl_utm K) (cam : vpgl_geo_camera K)
    (hu : cam.is_utm_ = true) (u v : K) :
    cam.backproject_lon_lat utm u v
      = ((utm.to_latlon cam.utm_zone_ (cam.img_to_global_utm utm u v).1
            (cam.img_to_global_utm utm u v).2 0 false).2.1,
          (utm.to_latlon cam.utm_zone_ (cam.img_to_global_utm utm u v).1
            (cam.img_to_global_utm utm u v).2 0 false).1,
          (utm.to_latlon cam.utm_zone_ (cam.img_to_global_utm utm u v).1
            (cam.img_to_global_utm utm u v).2 0 false).2.2) ∧
    cam.backproject_lon_lat_spec utm u v
      = ((utm.to_latlon cam.utm_zone_ (cam.img_to_global_utm utm u v).1
            (cam.img_to_global_utm utm u v).2 0 (decide (cam.northing_ > 0))).2.1,
          (utm.to_latlon cam.utm_zone_ (cam.img_to_global_utm utm u v).1
            (cam.img_to_global_utm utm u v).2 0 (decide (cam.northing_ > 0))).1) := by
  unfold vpgl_geo_camera.backproject_lon_lat vpgl_geo_camera.backproject_lon_lat_spec
    vpgl_geo_camera.img_to_global vpgl_geo_camera.img_to_global_utm
  cases hs : cam.scale_tag_ <;> simp [hu, mul_comm]

theorem cam_utm_south_sample_native (u v : ℚ) :
    cam_utm_south_sample.img_to_global_utm utm_south_sample u v = (5 + u * 2, 7 + v * -3) := by
  simp [vpgl_geo_camera.img_to_global_utm, cam_utm_south_sample, cam_scale_sample,
    vnl_matrix.get, vnl_matrix.put]

/-- C32, the code at the failing input: on `cam_utm_south_sample`, a UTM camera
of the southern hemisphere (`northing_ = 1`) with a WGS84 context, and the
converter `utm_south_sample`, whose latitude depends on the hemisphere flag,
`backproject(1, 1)` passes `(lon, lat) = (24, 4)` to the context's WGS84
`global_to_local`, the result of `to_latlon` without the flag, whereas
`img_to_global(1, 1)` returns `(24, -9999996)`, the result with the flag
`northing_ > 0`; the results of `backproject` on the two positions differ.  On
the same camera with `northing_ = 0` the two positions are equal. -/
theorem backproject_ignores_hemisphere :
    cam_utm_south_sample.is_utm_ = true ∧ cam_utm_south_sample.northing_ = 1 ∧
    cam_utm_south_sample.lvcs_ = some (lvcs_sample cs_names.wgs84) ∧
    cam_utm_south_sample.backproject utm_south_sample 1 1 (0, 0, 0)
      = (lvcs_sample cs_names.wgs84).global_to_local
          (cam_utm_south_sample.backproject_lon_lat utm_south_sample 1 1).1
          (cam_utm_south_sample.backproject_lon_lat utm_south_sample 1 1).2.1
          (cam_utm_south_sample.backproject_lon_lat utm_south_sample 1 1).2.2 cs_names.wgs84 ∧
    cam_utm_south_sample.backproject_lon_lat utm_south_sample 1 1 = (24, 4, 0) ∧
    cam_utm_south_sample.backproject_lon_lat_spec utm_south_sample 1 1 = (24, -9999996) ∧
    cam_utm_south_sample.img_to_global utm_south_sample 1 1 = (24, -9999996) ∧
    cam_utm_south_sample.backproject utm_south_sample 1 1 (0, 0, 0) = (23, 2, -3) ∧
    (lvcs_sample cs_names.wgs84).global_to_local 24 (-9999996) 0 cs_names.wgs84
      = (23, -9999998, -3) ∧
    cam_utm_south_sample.backproject utm_south_sample 1 1 (0, 0, 0)
      ≠ (lvcs_sample cs_names.wgs84).global_to_local 24 (-9999996) 0 cs_names.wgs84 ∧
    ((vpgl_geo_camera.backproject_lon_lat utm_south_sample
        { cam_utm_south_sample with northing_ := 0 } 1 1).1,
      (vpgl_geo_camera.backproject_lon_lat utm_south_sample
        { cam_utm_south_sample with northing_ := 0 } 1 1).2.1)
      = vpgl_geo_camera.backproject_lon_lat_spec utm_south_sample
        { cam_utm_south_sample with northing_ := 0 } 1 1 := by
  have hk : (lvcs_sample cs_names.wgs84).cs_name ≠ cs_names.utm := by decide
  have hlast := backproject_last_statement utm_south_sample cam_utm_south_sample
    (lvcs_sample cs_names.wgs84) rfl hk 1 1 (0, 0, 0)
  have hcalls := backproject_lon_lat_utm utm_south_sample cam_utm_south_sample rfl 1 1
  have hcalls0 := backproject_lon_lat_utm utm_south_sample
    { cam_utm_south_sample with northing_ := 0 } rfl 1 1
  have hnat := cam_utm_south_sample_native 1 1
  have hnat0 : vpgl_geo_camera.img_to_global_utm utm_south_sample
      { cam_utm_south_sample with northing_ := 0 } 1 1 = (5 + 1 * 2, 7 + 1 * -3) := hnat
  have hz : cam_utm_south_sample.utm_zone_ = 17 := rfl
  have hn : cam_utm_south_sample.northing_ = 1 := rfl
  have hll : cam_utm_south_sample.backproject_lon_lat utm_south_sample 1 1 = (24, 4, 0) := by
    rw [hcalls.1, hnat, hz]
    simp [utm_south_sample]
    norm_num
  have hspec : cam_utm_south_sample.backproject_lon_lat_spec utm_south_sample 1 1
      = (24, -9999996) := by
    rw [hcalls.2, hnat, hz, hn]
    simp [utm_south_sample]
    norm_num
  have hbp : cam_utm_south_sample.backproject utm_south_sample 1 1 (0, 0, 0) = (23, 2, -3) := by
    rw [hlast, hll]
    simp [lvcs_sample]
    norm_num
  have hg : (lvcs_sample cs_names.wgs84).global_to_local 24 (-9999996) 0 cs_names.wgs84
      = (23, -9999998, -3) := by
    simp [lvcs_sample]
    norm_num
  refine ⟨rfl, rfl, rfl, hlast, hll, hspec, hspec, hbp, hg, ?_, ?_⟩
  · rw [hbp, hg]
    intro h
    have h2 := congrArg (fun p : ℚ × ℚ × ℚ => p.2.1) h
    norm_num at h2
  · rw [hcalls0.1, hcalls0.2]
    simp

theorem cam_scale_sample_fields :
    cam_scale_sample.is_utm_ = false ∧ cam_scale_sample.scale_tag_ = true ∧
    cam_scale_sample.trans_matrix_.get 0 3 = 5 ∧ cam_scale_sample.trans_matrix_.get 0 0 = 2 ∧
    cam_scale_sample.trans_matrix_.get 1 3 = 7 ∧ cam_scale_sample.trans_matrix_.get 1 1 = -3 := by
  simp [cam_scale_sample, vnl_matrix.get, vnl_matrix.put]

/-- C33, the code and the failing input: on every camera that is not UTM
`img_to_global_utm(i, j)` returns the `(easting, northing)` of
`to_utm(lon, lat)`, where `(lon, lat) = img_to_global(i, j)`: the converter
receives the longitude as its first argument.  `global_to_img` and
`img_four_corners_in_utm` call `to_utm(lat, lon)`.  On `cam_scale_sample` with
the converter `utm_sample` the pixel `(1, 1)` has `(lon, lat) = (7, 4)`;
`img_to_global_utm` returns `(4, 6)`, the result of `to_utm(7, 4)`, and not
`(7, 3)`, the result of `to_utm(4, 7)`. -/
theorem img_to_global_utm_swaps_lat_lon (utm : vpgl_utm K) (cam : vpgl_geo_camera K)
    (i j lon lat gz elev : K) (ni nj : Nat) (out : K × K × K × K) :
    vpgl_geo_camera.img_to_global_utm utm { cam with is_utm_ := false } i j
      = ((utm.to_utm (vpgl_geo_camera.img_to_global utm { cam with is_utm_ := false } i j).1
            (vpgl_geo_camera.img_to_global utm { cam with is_utm_ := false } i j).2).1,
          (utm.to_utm (vpgl_geo_camera.img_to_global utm { cam with is_utm_ := false } i j).1
            (vpgl_geo_camera.img_to_global utm { cam with is_utm_ := false } i j).2).2.1) ∧
    vpgl_geo_camera.img_to_global_utm_spec utm { cam with is_utm_ := false } i j
      = ((utm.to_utm (vpgl_geo_camera.img_to_global utm { cam with is_utm_ := false } i j).2
            (vpgl_geo_camera.img_to_global utm { cam with is_utm_ := false } i j).1).1,
          (utm.to_utm (vpgl_geo_camera.img_to_global utm { cam with is_utm_ := false } i j).2
            (vpgl_geo_camera.img_to_global utm { cam with is_utm_ := false } i j).1).2.1) ∧
    vpgl_geo_camera.global_to_img utm { cam with is_utm_ := true, scale_tag_ := true } lon lat gz
      = (((utm.to_utm lat lon).1 - cam.trans_matrix_.get 0 3) / cam.trans_matrix_.get 0 0,
          ((utm.to_utm lat lon).2.1 - cam.trans_matrix_.get 1 3) / cam.trans_matrix_.get 1 1) ∧
    vpgl_geo_camera.img_four_corners_in_utm utm { cam with is_utm_ := true } ni nj elev out
      = (true,
          (utm.to_utm (vpgl_geo_camera.img_to_global utm { cam with is_utm_ := true } 0 0).2
            (vpgl_geo_camera.img_to_global utm { cam with is_utm_ := true } 0 0).1).1,
          (utm.to_utm (vpgl_geo_camera.img_to_global utm { cam with is_utm_ := true } 0 0).2
            (vpgl_geo_camera.img_to_global utm { cam with is_utm_ := true } 0 0).1).2.1,
          (utm.to_utm (vpgl_geo_camera.img_to_global utm { cam with is_utm_ := true } ni nj).2
            (vpgl_geo_camera.img_to_global utm { cam with is_utm_ := true } ni nj).1).1,
          (utm.to_utm (vpgl_geo_camera.img_to_global utm { cam with is_utm_ := true } ni nj).2
            (vpgl_geo_camera.img_to_global utm { cam with is_utm_ := true } ni nj).1).2.1) ∧
    cam_scale_sample.is_utm_ = false ∧
    cam_scale_sample.img_to_global utm_sample 1 1 = (7, 4) ∧
    utm_sample.to_utm 7 4 = (4, 6, 1) ∧
    utm_sample.to_utm 4 7 = (7, 3, 1) ∧
    cam_scale_sample.img_to_global_utm utm_sample 1 1 = (4, 6) ∧
    cam_scale_sample.img_to_global_utm_spec utm_sample 1 1 = (7, 3) ∧
    cam_scale_sample.img_to_global_utm utm_sample 1 1
      ≠ cam_scale_sample.img_to_global_utm_spec utm_sample 1 1 := by
  obtain ⟨hu, hs, h03, h00, h13, h11⟩ := cam_scale_sample_fields
  have hg : cam_scale_sample.img_to_global utm_sample 1 1 = (7, 4) := by
    simp only [vpgl_geo_camera.img_to_global, hu, hs, h03, h00, h13, h11]
    norm_num
  have hc : cam_scale_sample.img_to_global_utm utm_sample 1 1 = (4, 6) := by
    simp only [vpgl_geo_camera.img_to_global_utm, hu, hs, h03, h00, h13, h11]
    simp [utm_sample]
    norm_num
  have hp : cam_scale_sample.img_to_global_utm_spec utm_sample 1 1 = (7, 3) := by
    simp only [vpgl_geo_camera.img_to_global_utm_spec, hg]
    simp [utm_sample]
    norm_num
  refine ⟨?_, rfl, ?_, ?_, hu, hg, ?_, ?_, hc, hp, ?_⟩
  · unfold vpgl_geo_camera.img_to_global_utm vpgl_geo_camera.img_to_global
    cases cam.scale_tag_ <;> simp
  · simp [vpgl_geo_camera.global_to_img, vec4]
  · simp [vpgl_geo_camera.img_four_corners_in_utm]
  · simp [utm_sample]
    norm_num
  · simp [utm_sample]
    norm_num
  · rw [hc, hp]
    intro h
    have h2 := congrArg Prod.fst h
    norm_num at h2

/-- C34, the code and the failing input: on every camera that is not UTM
`global_utm_to_img(x, y, zone, elev)` equals `global_to_img(lat, lon, z)`, where
`(lat, lon, z) = to_latlon(zone, x, y, elev)`: the latitude feeds the x axis of
the matrix and the longitude its y axis.  On `cam_scale_sample` with the
converter `utm_sample`, `to_latlon(17, 3, 4, 0) = (21, 3, 0)`;
`global_utm_to_img(3, 4, 17, 0)` returns `(8, 4/3)` and not `(-1, -14/3)`, the
result of `global_to_img(3, 21, 0)`. -/
theorem global_utm_to_img_swaps_lat_lon (utm : vpgl_utm K) (cam : vpgl_geo_camera K)
    (x y : K) (zone : Int) (elev : K) :
    vpgl_geo_camera.global_utm_to_img utm { cam with is_utm_ := false } x y zone elev
      = vpgl_geo_camera.global_to_img utm { cam with is_utm_ := false }
          (utm.to_latlon zone x y elev false).1 (utm.to_latlon zone x y elev false).2.1
          (utm.to_latlon zone x y elev false).2.2 ∧
    vpgl_geo_camera.global_utm_to_img_spec utm { cam with is_utm_ := false } x y zone elev
      = vpgl_geo_camera.global_to_img utm { cam with is_utm_ := false }
          (utm.to_latlon zone x y elev false).2.1 (utm.to_latlon zone x y elev false).1
          (utm.to_latlon zone x y elev false).2.2 ∧
    cam_scale_sample.is_utm_ = false ∧
    utm_sample.to_latlon 17 3 4 0 false = (21, 3, 0) ∧
    cam_scale_sample.global_utm_to_img utm_sample 3 4 17 0 = (8, 4 / 3) ∧
    cam_scale_sample.global_to_img utm_sample 3 21 0 = (-1, -14 / 3) ∧
    cam_scale_sample.global_utm_to_img_spec utm_sample 3 4 17 0 = (-1, -14 / 3) ∧
    cam_scale_sample.global_utm_to_img utm_sample 3 4 17 0
      ≠ cam_scale_sample.global_utm_to_img_spec utm_sample 3 4 17 0 := by
  obtain ⟨hu, hs, h03, h00, h13, h11⟩ := cam_scale_sample_fields
  have hl : utm_sample.to_latlon 17 3 4 0 false = (21, 3, 0) := by
    simp [utm_sample]
    norm_num
  have hc : cam_scale_sample.global_utm_to_img utm_sample 3 4 17 0 = (8, 4 / 3) := by
    simp only [vpgl_geo_camera.global_utm_to_img, hu, hs, h03, h00, h13, h11, hl]
    simp [vec4]
    norm_num
  have hg : cam_scale_sample.global_to_img utm_sample 3 21 0 = (-1, -14 / 3) := by
    simp only [vpgl_geo_camera.global_to_img, hu, hs, h03, h00, h13, h11]
    simp [vec4]
    norm_num
  have hp : cam_scale_sample.global_utm_to_img_spec utm_sample 3 4 17 0 = (-1, -14 / 3) := by
    simp only [vpgl_geo_camera.global_utm_to_img_spec, hl]
    exact hg
  refine ⟨?_, rfl, hu, hl, hc, hg, hp, ?_⟩
  · unfold vpgl_geo_camera.global_utm_to_img vpgl_geo_camera.global_to_img
    simp
  · rw [hc, hp]
    intro h
    have h2 := congrArg Prod.fst h
    norm_num at h2
